import Mathlib

/-!
# iCub simulator: control dispatch, touch sensing, skin classification, joint anchors

A shallow embedding of the decision logic of `iCub.cpp`
(`src/simulators/iCubSimulation/odesdl/iCub.cpp`) together with theorems about it.

Conventions of the embedding

* C `double` values are elements of an arbitrary linearly ordered field `α`
  (the rationals for concrete evaluation); `sqrt` is passed as a parameter.
* ODE handles (`dGeomID`, `dSpaceID`) are natural numbers, `0` being the null handle;
  every `dCreate*` / `dSimpleSpaceCreate` call returns a fresh handle.
* Calls into the physics engine that only have an effect there
  (`dJointAddHingeTorque`, `dJointSetHingeParam`, ...) are recorded, in program order,
  in a list of calls.
* A run that dereferences a null pointer, or that reads a vector that was never sized, has
  no defined result; the embedded function returns `none` for it.
-/

namespace ICub

/-! ## Touch sensor -/

/-- The feedback structure of a joint; only the force on the first body is read. -/
structure dJointFeedback (α : Type) where
  f1 : Nat → α

/-- The maximum force that the simulated touch sensor can sense
    (`#define TOUCH_SENSOR_MAX_FORCE 100.0`). -/
def TOUCH_SENSOR_MAX_FORCE {α : Type} [LinearOrderedField α] : α := 100

/-- Embedding of `getTouchSensorValue` (iCub.cpp, lines 75-87). -/
def getTouchSensorValue {α : Type} [LinearOrderedField α] (sqrt : α → α)
    (fb : dJointFeedback α) : α :=
  let forceOnBody := sqrt (fb.f1 0 * fb.f1 0 + fb.f1 1 * fb.f1 1 + fb.f1 2 * fb.f1 2)
  let forceOnBody :=
    if forceOnBody > TOUCH_SENSOR_MAX_FORCE then TOUCH_SENSOR_MAX_FORCE else forceOnBody
  forceOnBody / TOUCH_SENSOR_MAX_FORCE

/-! ## Control-mode dispatch -/

/-- The joint arrays of `ICubSim` that `setJointControlAction` drives. -/
inductive JointArray where
  | LLegjoints
  | RLegjoints
  | Torsojoints
  | LAjoints
  | RAjoints
  | Hjoints
  deriving DecidableEq, Repr

/-- A joint handle: an entry of one of the joint arrays, e.g. `LAjoints[x]`. -/
structure dJointID where
  arr : JointArray
  idx : Nat
  deriving DecidableEq, Repr

/-- The ODE joint parameters written by the dispatcher. -/
inductive dParam where
  | dParamVel
  | dParamVel2
  deriving DecidableEq, Repr

/-- A call into the physics engine made by `setJointControlAction`. -/
inductive OdeCall (α : Type) where
  | dJointAddHingeTorque (j : dJointID) (torque : α)
  | dJointSetHingeParam (j : dJointID) (p : dParam) (v : α)
  | dJointSetUniversalParam (j : dJointID) (p : dParam) (v : α)
  deriving DecidableEq, Repr

/-- The joint an engine call acts on. -/
def OdeCall.joint {α : Type} : OdeCall α → dJointID
  | .dJointAddHingeTorque j _ => j
  | .dJointSetHingeParam j _ _ => j
  | .dJointSetUniversalParam j _ _ => j

/-- True for the add-torque calls. -/
def OdeCall.isTorque {α : Type} : OdeCall α → Bool
  | .dJointAddHingeTorque _ _ => true
  | _ => false

/-- The calls of a trace that act on joint `j`, in order. -/
def callsFor {α : Type} (j : dJointID) (calls : List (OdeCall α)) : List (OdeCall α) :=
  calls.filter (fun c => decide (c.joint = j))

/-- The pending per-joint commands held by `ICubSim` (the `*_speed`, `*_speed1` and
    `*_torques` arrays). -/
structure JointCommands (α : Type) where
  LLeg_speed : Nat → α
  RLeg_speed : Nat → α
  LLeg_torques : Nat → α
  RLeg_torques : Nat → α
  Torso_speed : Nat → α
  Torso_torques : Nat → α
  la_speed : Nat → α
  la_speed1 : Nat → α
  la_torques : Nat → α
  ra_speed : Nat → α
  ra_speed1 : Nat → α
  ra_torques : Nat → α
  h_speed : Nat → α
  h_torques : Nat → α

/-- The value every `int` of a buffer holds after `memset(buf, c, n)`: each of its four
    bytes is `(unsigned char) c`, read back as a signed 32-bit integer. -/
def memsetInt (c : Int) : Int :=
  let b := c % 256
  let u := b + b * 256 + b * 65536 + b * 16777216
  if u < 2147483648 then u else u - 4294967296

/-- Modelled from the spec: `getControlModesRaw` of the external control table is not part
    of the source file. A table is the fixed-size array of per-joint modes it reports; the
    call copies entry `i` of the table into `cm[i]` and leaves the rest of `cm` alone. -/
def getControlModesRaw (table : List Int) (cm : Nat → Int) : Nat → Int :=
  fun i => if h : i < table.length then table.get ⟨i, h⟩ else cm i

/-- The loop
    `for (x = 0; x < n; x++) if (cm[x]==VOCAB_CM_TORQUE) dJointAddHingeTorque(J[x], T[x]);
     else dJointSetHingeParam(J[x], dParamVel, S[x]);`
    that `setJointControlAction` runs for every body region. -/
def dispatchLoop {α : Type} (VOCAB_CM_TORQUE : Int) (cm : Nat → Int) (n : Nat)
    (J : JointArray) (T S : Nat → α) : List (OdeCall α) :=
  (List.range n).map (fun x =>
    if cm x = VOCAB_CM_TORQUE then OdeCall.dJointAddHingeTorque ⟨J, x⟩ (T x)
    else OdeCall.dJointSetHingeParam ⟨J, x⟩ dParam.dParamVel (S x))

/-- The two loops `for (x = 5; x < 6; x++)` and `for (x = 22; x < 23; x++)` over the
    universal joints of the hands. -/
def universalLoop {α : Type} (lo n : Nat) (c : JointCommands α) : List (OdeCall α) :=
  (List.range' lo n).flatMap (fun x =>
    [OdeCall.dJointSetUniversalParam ⟨JointArray.LAjoints, x⟩ dParam.dParamVel (c.la_speed x),
     OdeCall.dJointSetUniversalParam ⟨JointArray.LAjoints, x⟩ dParam.dParamVel2 (c.la_speed1 x),
     OdeCall.dJointSetUniversalParam ⟨JointArray.RAjoints, x⟩ dParam.dParamVel (c.ra_speed x),
     OdeCall.dJointSetUniversalParam ⟨JointArray.RAjoints, x⟩ dParam.dParamVel2 (c.ra_speed1 x)])

/-- The loop `for (x = 6; x < 25; x++)` over the finger hinges. -/
def fingerLoop {α : Type} (c : JointCommands α) : List (OdeCall α) :=
  (List.range' 6 19).flatMap (fun x =>
    if x ≠ 9 ∧ x ≠ 13 ∧ x ≠ 17 ∧ x ≠ 21 ∧ x ≠ 22 then
      [OdeCall.dJointSetHingeParam ⟨JointArray.LAjoints, x⟩ dParam.dParamVel (c.la_speed x),
       OdeCall.dJointSetHingeParam ⟨JointArray.RAjoints, x⟩ dParam.dParamVel (c.ra_speed x)]
    else [])

/-- The three hand loops that follow the right-arm loop: the universal joint 5, the
    finger hinges 6..24 and the universal joint 22, for both hands. -/
def handCalls {α : Type} (c : JointCommands α) : List (OdeCall α) :=
  universalLoop 5 1 c ++ fingerLoop c ++ universalLoop 22 1 c

/-- Embedding of `ICubSim::setJointControlAction` (iCub.cpp, lines 190-314).
    `controls bodyPart` is `odeInit._controls[bodyPart]` (`none` for a null pointer); the
    result is the list of engine calls in program order. The two vocab codes come from an
    external header and are parameters. -/
def setJointControlAction {α : Type} (VOCAB_CM_VELOCITY VOCAB_CM_TORQUE : Int)
    (controls : Nat → Option (List Int)) (c : JointCommands α) : List (OdeCall α) :=
  let cm : Nat → Int := fun _ => memsetInt VOCAB_CM_VELOCITY
  -- LEFT LEG
  let cm := match controls 4 with
    | some t => getControlModesRaw t cm
    | none => cm
  let lleg := dispatchLoop VOCAB_CM_TORQUE cm 6 JointArray.LLegjoints c.LLeg_torques c.LLeg_speed
  -- RIGHT LEG
  let cm := match controls 5 with
    | some t => getControlModesRaw t cm
    | none => fun _ => memsetInt VOCAB_CM_VELOCITY
  let rleg := dispatchLoop VOCAB_CM_TORQUE cm 6 JointArray.RLegjoints c.RLeg_torques c.RLeg_speed
  -- TORSO
  let cm := match controls 6 with
    | some t => getControlModesRaw t cm
    | none => fun _ => memsetInt VOCAB_CM_VELOCITY
  let torso := dispatchLoop VOCAB_CM_TORQUE cm 5 JointArray.Torsojoints c.Torso_torques c.Torso_speed
  -- LEFT ARM
  let cm := match controls 1 with
    | some t => getControlModesRaw t cm
    | none => fun _ => memsetInt VOCAB_CM_VELOCITY
  let larm := dispatchLoop VOCAB_CM_TORQUE cm 5 JointArray.LAjoints c.la_torques c.la_speed
  -- RIGHT ARM
  let cm := match controls 2 with
    | some t => getControlModesRaw t cm
    | none => fun _ => memsetInt VOCAB_CM_VELOCITY
  let rarm := dispatchLoop VOCAB_CM_TORQUE cm 5 JointArray.RAjoints c.ra_torques c.ra_speed
  let hands := handCalls c
  -- HEAD
  let cm := match controls 3 with
    | some t => getControlModesRaw t cm
    | none => fun _ => memsetInt VOCAB_CM_VELOCITY
  let head := dispatchLoop VOCAB_CM_TORQUE cm 6 JointArray.Hjoints c.h_torques c.h_speed
  lleg ++ rleg ++ torso ++ larm ++ rarm ++ hands ++ head

/-- The six actuated body regions. -/
inductive BodyRegion where
  | leftLeg
  | rightLeg
  | torso
  | leftArm
  | rightArm
  | head
  deriving DecidableEq, Repr

/-- The key of a region in the external control table
    (`// BodyPart: 1 left arm, 2 right arm, 3 head, 4 left leg, 5 right leg, 6 torso`). -/
def BodyRegion.bodyPart : BodyRegion → Nat
  | .leftLeg => 4
  | .rightLeg => 5
  | .torso => 6
  | .leftArm => 1
  | .rightArm => 2
  | .head => 3

/-- The joint array driven by the mode-dispatch loop of a region. -/
def BodyRegion.joints : BodyRegion → JointArray
  | .leftLeg => JointArray.LLegjoints
  | .rightLeg => JointArray.RLegjoints
  | .torso => JointArray.Torsojoints
  | .leftArm => JointArray.LAjoints
  | .rightArm => JointArray.RAjoints
  | .head => JointArray.Hjoints

/-- The number of joints the mode-dispatch loop of a region runs over. -/
def BodyRegion.dispatched : BodyRegion → Nat
  | .leftLeg => 6
  | .rightLeg => 6
  | .torso => 5
  | .leftArm => 5
  | .rightArm => 5
  | .head => 6

/-- The pending velocity of joint `x` of a region. -/
def BodyRegion.speed {α : Type} (c : JointCommands α) : BodyRegion → Nat → α
  | .leftLeg => c.LLeg_speed
  | .rightLeg => c.RLeg_speed
  | .torso => c.Torso_speed
  | .leftArm => c.la_speed
  | .rightArm => c.ra_speed
  | .head => c.h_speed

/-- The pending torque of joint `x` of a region. -/
def BodyRegion.torques {α : Type} (c : JointCommands α) : BodyRegion → Nat → α
  | .leftLeg => c.LLeg_torques
  | .rightLeg => c.RLeg_torques
  | .torso => c.Torso_torques
  | .leftArm => c.la_torques
  | .rightArm => c.ra_torques
  | .head => c.h_torques

/-- The vocab code `VOCAB_CM_VELOCITY = VOCAB3('v','e','l')` of the middleware headers. -/
def yarp_VOCAB_CM_VELOCITY : Int := 118 + 101 * 256 + 108 * 65536

/-- The vocab code `VOCAB_CM_TORQUE = VOCAB4('t','o','r','q')` of the middleware headers. -/
def yarp_VOCAB_CM_TORQUE : Int := 116 + 111 * 256 + 114 * 65536 + 113 * 16777216

/-- A concrete set of pending commands: velocity `1` and second-axis velocity `3` on every
    joint, and a non-zero torque `2` on every joint. -/
def sampleCommands : JointCommands ℚ where
  LLeg_speed := fun _ => 1
  RLeg_speed := fun _ => 1
  LLeg_torques := fun _ => 2
  RLeg_torques := fun _ => 2
  Torso_speed := fun _ => 1
  Torso_torques := fun _ => 2
  la_speed := fun _ => 1
  la_speed1 := fun _ => 3
  la_torques := fun _ => 2
  ra_speed := fun _ => 1
  ra_speed1 := fun _ => 3
  ra_torques := fun _ => 2
  h_speed := fun _ => 1
  h_torques := fun _ => 2

/-- A control table that is present only for the torso (key 6) and reports TORQUE for
    joint 0 and VELOCITY for the other four torso joints. -/
def sampleControls : Nat → Option (List Int) :=
  fun bodyPart =>
    if bodyPart = 6 then
      some [yarp_VOCAB_CM_TORQUE, yarp_VOCAB_CM_VELOCITY, yarp_VOCAB_CM_VELOCITY,
        yarp_VOCAB_CM_VELOCITY, yarp_VOCAB_CM_VELOCITY]
    else none

/-! ## The simulated robot: state -/

/-- A value stored in the middleware's `Bottle` container, as far as the calibration
    document uses it: a floating-point number, a string or a nested list. -/
inductive Value (α : Type) where
  | float64 (x : α)
  | string (str : String)
  | list (items : List (Value α))

/-- A `Bottle`: a list of values. -/
abbrev Bottle (α : Type) := List (Value α)

/-- The call `b.get(i)`: the `i`-th element, `none` standing for the null value returned
    for an index out of range. -/
def Bottle.get {α : Type} (b : Bottle α) (i : Nat) : Option (Value α) := b[i]?

/-- The call `v.asList()`: the nested list, `none` standing for the null pointer returned
    when the value is not a list. -/
def Value.asList {α : Type} : Option (Value α) → Option (Bottle α)
  | some (Value.list items) => some items
  | _ => none

/-- The call `v.asFloat64()`: the number, or `0.0` when the value is not a number. -/
def Value.asFloat64 {α : Type} [Zero α] : Option (Value α) → α
  | some (Value.float64 x) => x
  | _ => 0

/-- The call `b.findGroup(key)`: the first nested list whose first element is the string
    `key` (the key stays at index 0 of the result), or the empty bottle. -/
def Bottle.findGroup {α : Type} : Bottle α → String → Bottle α
  | [], _ => []
  | Value.list (Value.string str :: rest) :: tl, key =>
      if str = key then Value.string str :: rest else Bottle.findGroup tl key
  | _ :: tl, key => Bottle.findGroup tl key

/-- A 4x4 homogeneous transform, indexed `H(row, column)`. -/
abbrev Mat4 (α : Type) := Nat → Nat → α

/-- The product of two 4x4 matrices. -/
def Mat4.mul {α : Type} [Add α] [Mul α] (A B : Mat4 α) : Mat4 α :=
  fun i j => A i 0 * B 0 j + A i 1 * B 1 j + A i 2 * B 2 j + A i 3 * B 3 j

/-- The call `H.subcol(r, c, len)`: `len` entries of column `c`, from row `r` down. -/
def Mat4.subcol {α : Type} (H : Mat4 α) (r c len : Nat) : List α :=
  (List.range len).map (fun k => H (r + k) c)

/-- The call `v.resize(n)` on a vector: keeps the leading entries, pads with zeros. -/
def resize {α : Type} [Zero α] (v : List α) (n : Nat) : List α :=
  (v ++ List.replicate n 0).take n

/-- The product `a * v` of a scalar and a vector. -/
def scale {α : Type} [Mul α] (a : α) (v : List α) : List α :=
  v.map (fun x => a * x)

/-- Modelled from the spec: the kinematic-chain model of an arm (`iCubArm`) is not part of
    the source file; a chain exposes the homogeneous transform `getH0()` of its root and
    `getH(i)` of its `i`-th link. -/
structure iKinChain (α : Type) where
  getH0 : Mat4 α
  getH : Nat → Mat4 α

/-- The bookkeeping of the physics engine that the skeleton assembly relies on: the next
    fresh handle, and every collision object created so far with the space it was put in. -/
structure OdeWorld where
  next : Nat
  geoms : List (Nat × Nat)

/-- The boolean configuration flags (`RobotFlags`) that `activateiCubParts` turns into the
    "on" / "off" strings of `ICubSim`. -/
structure RobotFlags where

  actScreen : Bool
  actElevation : Bool
  actLegs : Bool
  actTorso : Bool
  actLArm : Bool
  actRArm : Bool
  actLHand : Bool
  actRHand : Bool
  actHead : Bool
  actfixedHip : Bool
  actSelfCol : Bool
  actCoversCol : Bool
  actVision : Bool
  actPressure : Bool
  actSkinEmul : Bool
  actWorld : Bool
  actHeadCover : Bool
  actLegsCovers : Bool
  actLeftArmCovers : Bool
  actRightArmCovers : Bool
  actTorsoCovers : Bool
  actStartHomePos : Bool

/-- The member functions that `ICubSim::init` calls, recorded in call order. -/
inductive Stage where
  | activateiCubParts
  | init_iKin
  | loadJointPosition
  | initLegsOff
  | initLegsOn
  | initTorsoOff
  | initTorsoOn
  | initLeftArmOff
  | initLeftArmOn
  | initRightArmOff
  | initRightArmOn
  | initLeftHandOff
  | initLeftHandOn
  | initRightHandOff
  | initRightHandOn
  | initHead
  | initEyes
  | setPosition
  | initLegJoints
  | initTorsoJoints
  | initLeftArmJoints
  | initLeftHandJoints
  | initRightArmJoints
  | initRightHandJoints
  | initHeadJoints
  | initCovers
  | initSkinActivationBottles
  deriving DecidableEq, Repr

/-- The "on" / "off" configuration strings of `ICubSim`. -/
structure ConfigStrings where
  actScreen : String
  actElevation : String
  actLegs : String
  actTorso : String
  actLArm : String
  actRArm : String
  actLHand : String
  actRHand : String
  actHead : String
  actfixedHip : String
  actSelfCol : String
  actCoversCol : String
  actVision : String
  actPressure : String
  actSkinEmul : String
  actWorld : String
  actHeadCover : String
  actLegsCovers : String
  actLeftArmCovers : String
  actRightArmCovers : String
  actTorsoCovers : String
  actStartHomePos : String

/-- The kinematic data of `ICubSim`: the arm chains, the root transforms, and the joint
    anchors (`jP_*`) and axes (`jA_*`) of every chain. -/
structure JointAnchors (α : Type) where
  iKinLeftArm : iKinChain α
  iKinRightArm : iKinChain α
  H_r2w : Mat4 α
  H_w2r : Mat4 α
  jP_leftLeg : Nat → List α
  jP_rightLeg : Nat → List α
  jP_torso : Nat → List α
  jA_torso : Nat → List α
  jP_leftArm : Nat → List α
  jA_leftArm : Nat → List α
  jP_rightArm : Nat → List α
  jA_rightArm : Nat → List α
  jP_head : Nat → List α
  jP_leftEye : Nat → List α
  jP_rightEye : Nat → List α
  jP_inertial : List α

/-- The handles of the leg collision shapes (`initLegsOff`, `initLegsOn`). -/
structure LegShapes where
  l_leg0_geom : Nat
  l_leg1_geom : Nat
  l_leg2_geom : Nat
  l_leg3_geom : Nat
  l_leg4_geom : Nat
  l_leg5_geom : Nat
  l_leg6_geom : Nat
  l_leg7_geom : Nat
  r_leg0_geom : Nat
  r_leg1_geom : Nat
  r_leg2_geom : Nat
  r_leg3_geom : Nat
  r_leg4_geom : Nat
  r_leg5_geom : Nat
  r_leg6_geom : Nat
  r_leg7_geom : Nat
  leftLeg_2_1 : Nat
  leftLeg_2_2 : Nat
  leftLeg_3_1 : Nat
  leftLeg_3_2 : Nat
  leftLeg_4_1 : Nat
  leftLeg_4_2 : Nat
  rightLeg_2_1 : Nat
  rightLeg_2_2 : Nat
  rightLeg_3_1 : Nat
  rightLeg_3_2 : Nat
  rightLeg_4_1 : Nat
  rightLeg_4_2 : Nat
  leftLegGeom : Nat → Nat
  rightLegGeom : Nat → Nat

/-- The handles of the torso collision shapes (`initTorsoOff`, `initTorsoOn`). -/
structure TorsoShapes where
  torso0_geom : Nat
  torso1_geom : Nat
  torso2_geom : Nat
  torso3_geom : Nat
  torsoGeom : Nat → Nat

/-- The handles of the arm and hand collision shapes (`initLeftArm*`, `initRightArm*`, `initLeftHand*`, `initRightHand*`). -/
structure ArmShapes where
  larm0_geom : Nat
  larm1_geom : Nat
  larm2_geom : Nat
  larm3_geom : Nat
  rarm0_geom : Nat
  rarm1_geom : Nat
  rarm2_geom : Nat
  rarm3_geom : Nat
  l_hand0_geom : Nat
  l_hand1_geom : Nat
  l_hand2_geom : Nat
  l_hand3_geom : Nat
  l_hand4_geom : Nat
  l_hand5_geom : Nat
  lhandfings0_geom : Nat
  lhandfings1_geom : Nat
  lhandfings2_geom : Nat
  lhandfings3_geom : Nat
  lhandfings4_geom : Nat
  lhandfings5_geom : Nat
  lhandfings6_geom : Nat
  lhandfings7_geom : Nat
  r_hand0_geom : Nat
  r_hand1_geom : Nat
  r_hand2_geom : Nat
  r_hand3_geom : Nat
  r_hand4_geom : Nat
  r_hand5_geom : Nat
  rhandfings0_geom : Nat
  rhandfings1_geom : Nat
  rhandfings2_geom : Nat
  rhandfings3_geom : Nat
  rhandfings4_geom : Nat
  rhandfings5_geom : Nat
  rhandfings6_geom : Nat
  rhandfings7_geom : Nat
  geom : Nat → Nat

/-- The handles of the head and eye collision shapes (`initHead`, `initEyes`). -/
structure HeadShapes where
  neck0_geom : Nat
  neck1_geom : Nat
  head0_geom : Nat
  head1_geom : Nat
  head2_geom : Nat
  head3_geom : Nat
  head4_geom : Nat
  head5_geom : Nat
  head6_geom : Nat
  head7_geom : Nat
  eye1_geom : Nat
  eye2_geom : Nat
  eye3_geom : Nat
  eye4_geom : Nat
  eye5_geom : Nat
  topEyeLid_geom : Nat
  bottomEyeLid_geom : Nat
  Leye1_geom : Nat
  Reye1_geom : Nat
  neckgeom : Nat → Nat

/-- The part of an `ICubSim` object that the embedded functions read and write: the
    configuration strings, the collision spaces, the joint anchors and axes, the handles of
    the collision shapes, the cover tables, and the engine bookkeeping. -/
structure ICubSim (α : Type) extends ConfigStrings, JointAnchors α, LegShapes, TorsoShapes,
    ArmShapes, HeadShapes where
  elev : α
  iCub : Nat
  iCubHeadSpace : Nat
  iCubTorsoSpace : Nat
  iCubLeftArmSpace : Nat
  iCubRightArmSpace : Nat
  iCubLegsSpace : Nat
  screenGeom : Nat
  inertialGeom : Nat
  model : List (String × String)
  model_ThreeD_obj : String → Nat
  ode : OdeWorld
  stages : List Stage

/-! ## Joint calibration -/

/-- The `legs` section of `loadJointPosition`: the loop over the six leg joints. -/
def loadJointPosition_legs {α : Type} [Zero α] (bLeftLeg bRightLeg : Bottle α)
    (s : ICubSim α) : Option (ICubSim α) :=
  (List.range 6).foldlM (fun s i => do
    let s := { s with jP_leftLeg := Function.update s.jP_leftLeg (5 - i) (resize (s.jP_leftLeg (5 - i)) 3) }
    let s := { s with jP_rightLeg := Function.update s.jP_rightLeg (5 - i) (resize (s.jP_rightLeg (5 - i)) 3) }
    let leftJoint ← Value.asList (bLeftLeg.get (i + 1))
    let rightJoint ← Value.asList (bRightLeg.get (i + 1))
    pure ((List.range 3).foldl (fun s j =>
      let s := { s with jP_leftLeg := Function.update s.jP_leftLeg (5 - i) ((s.jP_leftLeg (5 - i)).set j (Value.asFloat64 (leftJoint.get j))) }
      { s with jP_rightLeg := Function.update s.jP_rightLeg (5 - i) ((s.jP_rightLeg (5 - i)).set j (Value.asFloat64 (rightJoint.get j))) }) s)) s

/-- The `torso` section of `loadJointPosition`. -/
def loadJointPosition_torso {α : Type} [Ring α] (s : ICubSim α) : ICubSim α :=
  (List.range 3).foldl (fun s i =>
    let s := { s with jP_torso := Function.update s.jP_torso i (resize (s.jP_torso i) 3) }
    let Hl := if i = 0 then Mat4.mul s.H_w2r s.iKinLeftArm.getH0
              else Mat4.mul s.H_w2r (s.iKinLeftArm.getH (i - 1))
    let s := { s with jP_torso := Function.update s.jP_torso i ((s.jP_torso i).set 0 (Hl 2 3)) }
    let s := { s with jP_torso := Function.update s.jP_torso i ((s.jP_torso i).set 1 (Hl 0 3)) }
    let s := { s with jP_torso := Function.update s.jP_torso i ((s.jP_torso i).set 2 (Hl 1 3)) }
    let s := { s with jA_torso := Function.update s.jA_torso i (Mat4.subcol Hl 0 2 3) }
    if i > 0 then { s with jA_torso := Function.update s.jA_torso i (scale (-1) (s.jA_torso i)) }
    else s) s

/-- The `arms` section of `loadJointPosition`. -/
def loadJointPosition_arms {α : Type} [Ring α] (s : ICubSim α) : ICubSim α :=
  (List.range 8).foldl (fun s i =>
    let s := { s with jP_leftArm := Function.update s.jP_leftArm i (resize (s.jP_leftArm i) 3) }
    let Hl := Mat4.mul s.H_w2r (s.iKinLeftArm.getH (i + 2))
    let s := { s with jP_leftArm := Function.update s.jP_leftArm i ((s.jP_leftArm i).set 0 (Hl 2 3)) }
    let s := { s with jP_leftArm := Function.update s.jP_leftArm i ((s.jP_leftArm i).set 1 (Hl 0 3)) }
    let s := { s with jP_leftArm := Function.update s.jP_leftArm i ((s.jP_leftArm i).set 2 (Hl 1 3)) }
    let s := { s with jA_leftArm := Function.update s.jA_leftArm i (Mat4.subcol Hl 0 2 3) }
    let s :=
      if i > 1 then { s with jA_leftArm := Function.update s.jA_leftArm i (scale (-1) (s.jA_leftArm i)) }
      else s
    let s := { s with jP_rightArm := Function.update s.jP_rightArm i (resize (s.jP_rightArm i) 3) }
    let Hr := Mat4.mul s.H_w2r (s.iKinRightArm.getH (i + 2))
    let s := { s with jP_rightArm := Function.update s.jP_rightArm i ((s.jP_rightArm i).set 0 (Hr 2 3)) }
    let s := { s with jP_rightArm := Function.update s.jP_rightArm i ((s.jP_rightArm i).set 1 (Hr 0 3)) }
    let s := { s with jP_rightArm := Function.update s.jP_rightArm i ((s.jP_rightArm i).set 2 (Hr 1 3)) }
    let s := { s with jA_rightArm := Function.update s.jA_rightArm i (Mat4.subcol Hr 0 2 3) }
    if i = 1 ∨ i = 3 then
      { s with jA_rightArm := Function.update s.jA_rightArm i (scale (-1) (s.jA_rightArm i)) }
    else s) s

/-- The `head` section of `loadJointPosition`. -/
def loadJointPosition_head {α : Type} [Zero α] (bHead : Bottle α)
    (s : ICubSim α) : Option (ICubSim α) :=
  (List.range 4).foldlM (fun s i => do
    let s := { s with jP_head := Function.update s.jP_head i (resize (s.jP_head i) 3) }
    let headJoint ← Value.asList (bHead.get (i + 1))
    pure ((List.range 3).foldl (fun s j =>
      { s with jP_head := Function.update s.jP_head i ((s.jP_head i).set j (Value.asFloat64 (headJoint.get j))) }) s)) s

/-- The `eyes` section of `loadJointPosition`. -/
def loadJointPosition_eyes {α : Type} [Zero α] (bLeftEye bRightEye : Bottle α)
    (s : ICubSim α) : Option (ICubSim α) :=
  (List.range 2).foldlM (fun s i => do
    let s := { s with jP_leftEye := Function.update s.jP_leftEye i (resize (s.jP_leftEye i) 3) }
    let s := { s with jP_rightEye := Function.update s.jP_rightEye i (resize (s.jP_rightEye i) 3) }
    let leftJoint ← Value.asList (bLeftEye.get (i + 1))
    let rightJoint ← Value.asList (bRightEye.get (i + 1))
    pure ((List.range 3).foldl (fun s j =>
      let s := { s with jP_leftEye := Function.update s.jP_leftEye i ((s.jP_leftEye i).set j (Value.asFloat64 (leftJoint.get j))) }
      { s with jP_rightEye := Function.update s.jP_rightEye i ((s.jP_rightEye i).set j (Value.asFloat64 (rightJoint.get j))) }) s)) s

/-- The `inertial` section of `loadJointPosition`. -/
def loadJointPosition_inertial {α : Type} [Zero α] (bInertial : Bottle α)
    (s : ICubSim α) : Option (ICubSim α) := do
  let inertialJP ← Value.asList (bInertial.get 1)
  let s := { s with jP_inertial := resize s.jP_inertial 3 }
  pure ((List.range 3).foldl (fun s j =>
    { s with jP_inertial := s.jP_inertial.set j (Value.asFloat64 (inertialJP.get j)) }) s)

/-- Embedding of `ICubSim::loadJointPosition` (iCub.cpp, lines 1330-1449).
    `file` is the content of the calibration file as a bottle, `none` when the file cannot
    be opened. The result is `none` when the run dereferences the null pointer that
    `asList()` returns for a missing point; otherwise it is the returned boolean and the
    state after the call. -/
def loadJointPosition {α : Type} [Ring α] (file : Option (Bottle α)) (s : ICubSim α) :
    Option (Bool × ICubSim α) :=
  match file with
  | none => some (false, s)
  | some bJoints => do
    let s ← loadJointPosition_legs (Bottle.findGroup bJoints "left_leg")
      (Bottle.findGroup bJoints "right_leg") s
    let s := loadJointPosition_torso s
    let s := loadJointPosition_arms s
    let s ← loadJointPosition_head (Bottle.findGroup bJoints "head") s
    let s ← loadJointPosition_eyes (Bottle.findGroup bJoints "left_eye")
      (Bottle.findGroup bJoints "right_eye") s
    let s ← loadJointPosition_inertial (Bottle.findGroup bJoints "inertial") s
    pure (true, s)

/-! ## Skeleton assembly -/

/-- The files and libraries the assembly consults: the resource finder, the mesh loader
    (`true` when `dLoadMeshFromX` returns a mesh, `false` when it returns null), the arm
    chain constructor `iCubArm(side)` posed at zero, and `SE3inv`. -/
structure Environment (α : Type) where
  findFile : String → String
  dLoadMeshFromX : String → Bool
  iCubArm : String → iKinChain α
  SE3inv : Mat4 α → Mat4 α

/-- The macro `FLAGIFY`: a boolean flag as the string "on" or "off". -/
def FLAGIFY (flag : Bool) : String := if flag then "on" else "off"

/-- Embedding of `ICubSim::activateiCubParts` (iCub.cpp, lines 1570-1609). -/
def activateiCubParts {α : Type} [Field α] (flags : RobotFlags) (s : ICubSim α) : ICubSim α :=
  let s := { s with
    actScreen := FLAGIFY flags.actScreen,
    actElevation := FLAGIFY flags.actElevation,
    actLegs := FLAGIFY flags.actLegs,
    actTorso := FLAGIFY flags.actTorso,
    actLArm := FLAGIFY flags.actLArm,
    actRArm := FLAGIFY flags.actRArm,
    actLHand := FLAGIFY flags.actLHand,
    actRHand := FLAGIFY flags.actRHand,
    actHead := FLAGIFY flags.actHead,
    actfixedHip := FLAGIFY flags.actfixedHip,
    actSelfCol := FLAGIFY flags.actSelfCol,
    actCoversCol := FLAGIFY flags.actCoversCol,
    actVision := FLAGIFY flags.actVision,
    actPressure := FLAGIFY flags.actPressure,
    actSkinEmul := FLAGIFY flags.actSkinEmul,
    actWorld := FLAGIFY flags.actWorld,
    actHeadCover := FLAGIFY flags.actHeadCover,
    actLegsCovers := FLAGIFY flags.actLegsCovers,
    actLeftArmCovers := FLAGIFY flags.actLeftArmCovers,
    actRightArmCovers := FLAGIFY flags.actRightArmCovers,
    actTorsoCovers := FLAGIFY flags.actTorsoCovers,
    actStartHomePos := FLAGIFY flags.actStartHomePos }
  if s.actElevation = "off" then { s with elev := 0 } else { s with elev := 2 / 10 }

/-- Embedding of `ICubSim::init_iKin` (iCub.cpp, lines 3975-4003): the two arm chains and
    the transform between the robot root and the simulation world. -/
def init_iKin {α : Type} [Field α] (env : Environment α) (s : ICubSim α) : ICubSim α :=
  let s := { s with iKinLeftArm := env.iCubArm "left" }
  let s := { s with iKinRightArm := env.iCubArm "right" }
  let s := { s with H_r2w := fun _ _ => 0 }
  let s := { s with H_w2r := fun _ _ => 0 }
  let s := { s with H_r2w := Function.update s.H_r2w 0 (Function.update (s.H_r2w 0) 2 (-1)) }
  let s := { s with H_r2w := Function.update s.H_r2w 0 (Function.update (s.H_r2w 0) 3 (-26 / 1000)) }
  let s := { s with H_r2w := Function.update s.H_r2w 1 (Function.update (s.H_r2w 1) 0 (-1)) }
  let s := { s with H_r2w := Function.update s.H_r2w 2 (Function.update (s.H_r2w 2) 1 1) }
  let s := { s with H_r2w := Function.update s.H_r2w 2 (Function.update (s.H_r2w 2) 3 (-5976 / 10000)) }
  let s := { s with H_r2w := Function.update s.H_r2w 3 (Function.update (s.H_r2w 3) 3 1) }
  { s with H_w2r := env.SE3inv s.H_r2w }

/-- The calls `dCreateBox`, `dCreateCylinder`, `dCreateSphere` and `dCreateTriMesh`: a new
    collision shape is put into `space`; its fresh handle is returned. -/
def dCreate {α : Type} (s : ICubSim α) (space : Nat) : Nat × ICubSim α :=
  (s.ode.next, { s with ode := { next := s.ode.next + 1, geoms := s.ode.geoms ++ [(s.ode.next, space)] } })

/-- The call `dSimpleSpaceCreate(space)`: a new collision space inside `space`. -/
def dSimpleSpaceCreate {α : Type} (s : ICubSim α) (space : Nat) : Nat × ICubSim α :=
  dCreate s space

/-- Embedding of `ICubSim::initLegsOff` (iCub.cpp, lines 1853-1977): the collision shapes it
    creates, in order. The dimensions and offsets of the shapes, which stay inside the engine,
    are read from `jP_leftLeg` and `jP_rightLeg` (first at line 1868); see `init_bodies`. -/
def initLegsOff {α : Type} (s : ICubSim α) (subspace : Nat) : ICubSim α :=
  let (g, s) := dCreate s subspace
  let s := { s with l_leg0_geom := g }
  let (g, s) := dCreate s subspace
  let s := { s with l_leg1_geom := g }
  let (g, s) := dCreate s subspace
  let s := { s with l_leg2_geom := g }
  let (g, s) := dCreate s subspace
  let s := { s with l_leg3_geom := g }
  let (g, s) := dCreate s subspace
  let s := { s with l_leg4_geom := g }
  let (g, s) := dCreate s subspace
  let s := { s with l_leg5_geom := g }
  let (g, s) := dCreate s subspace
  let s := { s with l_leg6_geom := g }
  let (g, s) := dCreate s subspace
  let s := { s with l_leg7_geom := g }
  let (g, s) := dCreate s subspace
  let s := { s with r_leg0_geom := g }
  let (g, s) := dCreate s subspace
  let s := { s with r_leg1_geom := g }
  let (g, s) := dCreate s subspace
  let s := { s with r_leg2_geom := g }
  let (g, s) := dCreate s subspace
  let s := { s with r_leg3_geom := g }
  let (g, s) := dCreate s subspace
  let s := { s with r_leg4_geom := g }
  let (g, s) := dCreate s subspace
  let s := { s with r_leg5_geom := g }
  let (g, s) := dCreate s subspace
  let s := { s with r_leg6_geom := g }
  let (g, s) := dCreate s subspace
  let s := { s with r_leg7_geom := g }
  s

/-- Embedding of `ICubSim::initLegsOn` (iCub.cpp, lines 1979-2149): the collision shapes it
    creates, in order. The dimensions and offsets of the shapes, which stay inside the engine,
    are read from `jP_leftLeg` and `jP_rightLeg` (first at line 2007); see `init_bodies`. -/
def initLegsOn {α : Type} (s : ICubSim α) (subspace : Nat) : ICubSim α :=
  let (g, s) := dCreate s subspace
  let s := { s with leftLegGeom := Function.update s.leftLegGeom 0 g }
  let (g, s) := dCreate s subspace
  let s := { s with leftLegGeom := Function.update s.leftLegGeom 1 g }
  let (g, s) := dCreate s subspace
  let s := { s with leftLeg_2_1 := g }
  let (g, s) := dCreate s subspace
  let s := { s with leftLeg_2_2 := g }
  let (g, s) := dCreate s subspace
  let s := { s with leftLeg_3_1 := g }
  let (g, s) := dCreate s subspace
  let s := { s with leftLeg_3_2 := g }
  let (g, s) := dCreate s subspace
  let s := { s with leftLeg_4_1 := g }
  let (g, s) := dCreate s subspace
  let s := { s with leftLeg_4_2 := g }
  let (g, s) := dCreate s subspace
  let s := { s with leftLegGeom := Function.update s.leftLegGeom 5 g }
  let (g, s) := dCreate s subspace
  let s := { s with rightLegGeom := Function.update s.rightLegGeom 0 g }
  let (g, s) := dCreate s subspace
  let s := { s with rightLegGeom := Function.update s.rightLegGeom 1 g }
  let (g, s) := dCreate s subspace
  let s := { s with rightLeg_2_1 := g }
  let (g, s) := dCreate s subspace
  let s := { s with rightLeg_2_2 := g }
  let (g, s) := dCreate s subspace
  let s := { s with rightLeg_3_1 := g }
  let (g, s) := dCreate s subspace
  let s := { s with rightLeg_3_2 := g }
  let (g, s) := dCreate s subspace
  let s := { s with rightLeg_4_1 := g }
  let (g, s) := dCreate s subspace
  let s := { s with rightLeg_4_2 := g }
  let (g, s) := dCreate s subspace
  let s := { s with rightLegGeom := Function.update s.rightLegGeom 5 g }
  s

/-- Embedding of `ICubSim::initTorsoOff` (iCub.cpp, lines 2151-2210): the collision shapes it
    creates, in order. The dimensions and offsets of the shapes, which stay inside the engine,
    are read from `jP_torso`, `jP_leftLeg`, `jP_rightLeg` and `jP_leftArm` (first at line 2157);
    see `init_bodies`. -/
def initTorsoOff {α : Type} (s : ICubSim α) (subspace : Nat) : ICubSim α :=
  let (g, s) := dCreate s subspace
  let s := { s with torso0_geom := g }
  let (g, s) := dCreate s subspace
  let s := { s with torso1_geom := g }
  let (g, s) := dCreate s subspace
  let s := { s with torso2_geom := g }
  let (g, s) := dCreate s subspace
  let s := { s with torso3_geom := g }
  let (g, s) := dCreate s subspace
  let s := { s with torsoGeom := Function.update s.torsoGeom 4 g }
  let (g, s) := dCreate s subspace
  let s := { s with torsoGeom := Function.update s.torsoGeom 5 g }
  s

/-- Embedding of `ICubSim::initTorsoOn` (iCub.cpp, lines 2212-2253): the collision shapes it
    creates, in order. The dimensions and offsets of the shapes, which stay inside the engine,
    are read from `jP_torso`, `jP_head`, `jP_leftLeg`, `jP_rightLeg` and `jP_leftArm` (first at
    line 2222); see `init_bodies`. -/
def initTorsoOn {α : Type} (s : ICubSim α) (subspace : Nat) : ICubSim α :=
  let (g, s) := dCreate s subspace
  let s := { s with torsoGeom := Function.update s.torsoGeom 0 g }
  let (g, s) := dCreate s subspace
  let s := { s with torsoGeom := Function.update s.torsoGeom 1 g }
  let (g, s) := dCreate s subspace
  let s := { s with torsoGeom := Function.update s.torsoGeom 2 g }
  let (g, s) := dCreate s subspace
  let s := { s with torsoGeom := Function.update s.torsoGeom 3 g }
  let (g, s) := dCreate s subspace
  let s := { s with torsoGeom := Function.update s.torsoGeom 4 g }
  let (g, s) := dCreate s subspace
  let s := { s with torsoGeom := Function.update s.torsoGeom 5 g }
  s

/-- Embedding of `ICubSim::initLeftArmOff` (iCub.cpp, lines 2255-2299): the collision shapes it
    creates, in order. The dimensions and offsets of the shapes, which stay inside the engine,
    are read from `jP_leftArm` (first at line 2261); see `init_bodies`. -/
def initLeftArmOff {α : Type} (s : ICubSim α) (subspace : Nat) : ICubSim α :=
  let (g, s) := dCreate s subspace
  let s := { s with larm0_geom := g }
  let (g, s) := dCreate s subspace
  let s := { s with larm1_geom := g }
  let (g, s) := dCreate s subspace
  let s := { s with larm2_geom := g }
  let (g, s) := dCreate s subspace
  let s := { s with larm3_geom := g }
  s

/-- Embedding of `ICubSim::initLeftArmOn` (iCub.cpp, lines 2301-2337): the collision shapes it
    creates, in order. The dimensions and offsets of the shapes, which stay inside the engine,
    are read from `jP_leftArm` (first at line 2321); see `init_bodies`. -/
def initLeftArmOn {α : Type} (s : ICubSim α) (subspace : Nat) : ICubSim α :=
  let (g, s) := dCreate s subspace
  let s := { s with geom := Function.update s.geom 0 g }
  let (g, s) := dCreate s subspace
  let s := { s with geom := Function.update s.geom 2 g }
  let (g, s) := dCreate s subspace
  let s := { s with geom := Function.update s.geom 4 g }
  let (g, s) := dCreate s subspace
  let s := { s with geom := Function.update s.geom 6 g }
  let (g, s) := dCreate s subspace
  let s := { s with geom := Function.update s.geom 8 g }
  s

/-- Embedding of `ICubSim::initRightArmOff` (iCub.cpp, lines 2339-2382): the collision shapes it
    creates, in order. The dimensions and offsets of the shapes, which stay inside the engine,
    are read from `jP_rightArm` and `jP_leftArm` (first at line 2345); see `init_bodies`. -/
def initRightArmOff {α : Type} (s : ICubSim α) (subspace : Nat) : ICubSim α :=
  let (g, s) := dCreate s subspace
  let s := { s with rarm0_geom := g }
  let (g, s) := dCreate s subspace
  let s := { s with rarm1_geom := g }
  let (g, s) := dCreate s subspace
  let s := { s with rarm2_geom := g }
  let (g, s) := dCreate s subspace
  let s := { s with rarm3_geom := g }
  s

/-- Embedding of `ICubSim::initRightArmOn` (iCub.cpp, lines 2384-2421): the collision shapes it
    creates, in order. The dimensions and offsets of the shapes, which stay inside the engine,
    are read from `jP_rightArm` (first at line 2404); see `init_bodies`. -/
def initRightArmOn {α : Type} (s : ICubSim α) (subspace : Nat) : ICubSim α :=
  let (g, s) := dCreate s subspace
  let s := { s with geom := Function.update s.geom 1 g }
  let (g, s) := dCreate s subspace
  let s := { s with geom := Function.update s.geom 3 g }
  let (g, s) := dCreate s subspace
  let s := { s with geom := Function.update s.geom 5 g }
  let (g, s) := dCreate s subspace
  let s := { s with geom := Function.update s.geom 7 g }
  let (g, s) := dCreate s subspace
  let s := { s with geom := Function.update s.geom 9 g }
  s

/-- Embedding of `ICubSim::initLeftHandOff` (iCub.cpp, lines 2423-2481): the collision shapes it
    creates, in order. It reads no anchor. -/
def initLeftHandOff {α : Type} (s : ICubSim α) (subspace : Nat) : ICubSim α :=
  let (g, s) := dCreate s subspace
  let s := { s with l_hand0_geom := g }
  let (g, s) := dCreate s subspace
  let s := { s with l_hand1_geom := g }
  let (g, s) := dCreate s subspace
  let s := { s with l_hand2_geom := g }
  let (g, s) := dCreate s subspace
  let s := { s with l_hand3_geom := g }
  let (g, s) := dCreate s subspace
  let s := { s with l_hand4_geom := g }
  let (g, s) := dCreate s subspace
  let s := { s with l_hand5_geom := g }
  s

/-- Embedding of `ICubSim::initLeftHandOn` (iCub.cpp, lines 2483-2646): the collision shapes it
    creates, in order. It reads no anchor. -/
def initLeftHandOn {α : Type} (s : ICubSim α) (subspace : Nat) : ICubSim α :=
  let (g, s) := dCreate s subspace
  let s := { s with geom := Function.update s.geom 10 g }
  let (g, s) := dCreate s subspace
  let s := { s with geom := Function.update s.geom 12 g }
  let (g, s) := dCreate s subspace
  let s := { s with geom := Function.update s.geom 13 g }
  let (g, s) := dCreate s subspace
  let s := { s with lhandfings0_geom := g }
  let (g, s) := dCreate s subspace
  let s := { s with lhandfings1_geom := g }
  let (g, s) := dCreate s subspace
  let s := { s with geom := Function.update s.geom 16 g }
  let (g, s) := dCreate s subspace
  let s := { s with geom := Function.update s.geom 17 g }
  let (g, s) := dCreate s subspace
  let s := { s with lhandfings2_geom := g }
  let (g, s) := dCreate s subspace
  let s := { s with lhandfings3_geom := g }
  let (g, s) := dCreate s subspace
  let s := { s with geom := Function.update s.geom 20 g }
  let (g, s) := dCreate s subspace
  let s := { s with geom := Function.update s.geom 21 g }
  let (g, s) := dCreate s subspace
  let s := { s with lhandfings4_geom := g }
  let (g, s) := dCreate s subspace
  let s := { s with lhandfings5_geom := g }
  let (g, s) := dCreate s subspace
  let s := { s with geom := Function.update s.geom 24 g }
  let (g, s) := dCreate s subspace
  let s := { s with geom := Function.update s.geom 25 g }
  let (g, s) := dCreate s subspace
  let s := { s with lhandfings6_geom := g }
  let (g, s) := dCreate s subspace
  let s := { s with lhandfings7_geom := g }
  let (g, s) := dCreate s subspace
  let s := { s with geom := Function.update s.geom 28 g }
  let (g, s) := dCreate s subspace
  let s := { s with geom := Function.update s.geom 29 g }
  let (g, s) := dCreate s subspace
  let s := { s with geom := Function.update s.geom 30 g }
  s

/-- Embedding of `ICubSim::initRightHandOff` (iCub.cpp, lines 2648-2700): the collision shapes
    it creates, in order. It reads no anchor. -/
def initRightHandOff {α : Type} (s : ICubSim α) (subspace : Nat) : ICubSim α :=
  let (g, s) := dCreate s subspace
  let s := { s with r_hand0_geom := g }
  let (g, s) := dCreate s subspace
  let s := { s with r_hand1_geom := g }
  let (g, s) := dCreate s subspace
  let s := { s with r_hand2_geom := g }
  let (g, s) := dCreate s subspace
  let s := { s with r_hand3_geom := g }
  let (g, s) := dCreate s subspace
  let s := { s with r_hand4_geom := g }
  let (g, s) := dCreate s subspace
  let s := { s with r_hand5_geom := g }
  s

/-- Embedding of `ICubSim::initRightHandOn` (iCub.cpp, lines 2702-2865): the collision shapes it
    creates, in order. It reads no anchor. -/
def initRightHandOn {α : Type} (s : ICubSim α) (subspace : Nat) : ICubSim α :=
  let (g, s) := dCreate s subspace
  let s := { s with geom := Function.update s.geom 11 g }
  let (g, s) := dCreate s subspace
  let s := { s with geom := Function.update s.geom 31 g }
  let (g, s) := dCreate s subspace
  let s := { s with geom := Function.update s.geom 32 g }
  let (g, s) := dCreate s subspace
  let s := { s with rhandfings0_geom := g }
  let (g, s) := dCreate s subspace
  let s := { s with rhandfings1_geom := g }
  let (g, s) := dCreate s subspace
  let s := { s with geom := Function.update s.geom 35 g }
  let (g, s) := dCreate s subspace
  let s := { s with geom := Function.update s.geom 36 g }
  let (g, s) := dCreate s subspace
  let s := { s with rhandfings2_geom := g }
  let (g, s) := dCreate s subspace
  let s := { s with rhandfings3_geom := g }
  let (g, s) := dCreate s subspace
  let s := { s with geom := Function.update s.geom 39 g }
  let (g, s) := dCreate s subspace
  let s := { s with geom := Function.update s.geom 40 g }
  let (g, s) := dCreate s subspace
  let s := { s with rhandfings4_geom := g }
  let (g, s) := dCreate s subspace
  let s := { s with rhandfings5_geom := g }
  let (g, s) := dCreate s subspace
  let s := { s with geom := Function.update s.geom 43 g }
  let (g, s) := dCreate s subspace
  let s := { s with geom := Function.update s.geom 44 g }
  let (g, s) := dCreate s subspace
  let s := { s with rhandfings6_geom := g }
  let (g, s) := dCreate s subspace
  let s := { s with rhandfings7_geom := g }
  let (g, s) := dCreate s subspace
  let s := { s with geom := Function.update s.geom 47 g }
  let (g, s) := dCreate s subspace
  let s := { s with geom := Function.update s.geom 48 g }
  let (g, s) := dCreate s subspace
  let s := { s with geom := Function.update s.geom 49 g }
  s

/-- Embedding of `ICubSim::initHead` (iCub.cpp, lines 2867-2981): the collision shapes it
    creates, in order. The dimensions and offsets of the shapes, which stay inside the engine,
    are read from `jP_head` (first at line 2884); see `init_bodies`. -/
def initHead {α : Type} (s : ICubSim α) (subspace : Nat) : ICubSim α :=
  let s :=
    if s.actHead = "off" then
      let (g, s) := dCreate s subspace
      let s := { s with neck0_geom := g }
      let (g, s) := dCreate s subspace
      let s := { s with neck1_geom := g }
      s
    else
      let (g, s) := dCreate s subspace
      let s := { s with neckgeom := Function.update s.neckgeom 0 g }
      let (g, s) := dCreate s subspace
      let s := { s with neckgeom := Function.update s.neckgeom 1 g }
      s
  let (g, s) := dCreate s subspace
  let s := { s with head0_geom := g }
  let (g, s) := dCreate s subspace
  let s := { s with head1_geom := g }
  let (g, s) := dCreate s subspace
  let s := { s with head2_geom := g }
  let (g, s) := dCreate s subspace
  let s := { s with head3_geom := g }
  let (g, s) := dCreate s subspace
  let s := { s with head4_geom := g }
  let (g, s) := dCreate s subspace
  let s := { s with head5_geom := g }
  let (g, s) := dCreate s subspace
  let s := { s with head6_geom := g }
  let (g, s) := dCreate s subspace
  let s := { s with head7_geom := g }
  s

/-- Embedding of `ICubSim::initEyes` (iCub.cpp, lines 2983-3117): the collision shapes it
    creates, in order. The dimensions and offsets of the shapes, which stay inside the engine,
    are read from `jP_head`, `jP_leftEye` and `jP_rightEye` (first at line 2990); see
    `init_bodies`. -/
def initEyes {α : Type} (s : ICubSim α) (subspace : Nat) : ICubSim α :=
  let (g, s) := dCreate s subspace
  let s := { s with eye1_geom := g }
  let (g, s) := dCreate s subspace
  let s := { s with eye2_geom := g }
  let (g, s) := dCreate s subspace
  let s := { s with eye3_geom := g }
  let (g, s) := dCreate s subspace
  let s := { s with eye4_geom := g }
  let (g, s) := dCreate s subspace
  let s := { s with eye5_geom := g }
  let (g, s) := dCreate s subspace
  let s := { s with topEyeLid_geom := g }
  let (g, s) := dCreate s subspace
  let s := { s with bottomEyeLid_geom := g }
  let (g, s) := dCreate s subspace
  let s := { s with Leye1_geom := g }
  let (g, s) := dCreate s subspace
  let s := { s with Reye1_geom := g }
  s

/-- Lexicographic comparison of two sequences of character codes. -/
def lexLess : List Nat → List Nat → Bool
  | [], [] => false
  | [], _ :: _ => true
  | _ :: _, [] => false
  | a :: as, b :: bs => if a < b then true else if b < a then false else lexLess as bs

/-- The order `k < k'` of `std::string` keys: lexicographic on the character codes. -/
def keyLess (k k' : String) : Bool :=
  lexLess (k.data.map Char.toNat) (k'.data.map Char.toNat)

/-- The assignment `m[k] = v` on a `std::map<string,string>`, kept in key order. -/
def mapInsert : List (String × String) → String → String → List (String × String)
  | [], k, v => [(k, v)]
  | (k', v') :: tl, k, v =>
      if keyLess k k' then (k, v) :: (k', v') :: tl
      else if k = k' then (k, v) :: tl
      else (k', v') :: mapInsert tl k v

/-- The body of the loop of `initCovers` over the entries of `model`, for the cover called
    `name` whose mesh file is `file`: the collision mesh it creates, if any. -/
def initCovers_cover {α : Type} (env : Environment α) (s : ICubSim α) (name file : String) :
    ICubSim α :=
  if ¬ env.dLoadMeshFromX file then s
  else
    if s.actSelfCol = "off" then
      let (g, s) := dCreate s s.iCub
      { s with model_ThreeD_obj := Function.update s.model_ThreeD_obj name g }
    else if name = "torso" ∨ name = "waist" then
      let (g, s) := dCreate s s.iCubTorsoSpace
      { s with model_ThreeD_obj := Function.update s.model_ThreeD_obj name g }
    else if name = "upperLeftArm" ∨ name = "lowerLeftArm" ∨ name = "leftPalm" then
      let (g, s) := dCreate s s.iCubLeftArmSpace
      { s with model_ThreeD_obj := Function.update s.model_ThreeD_obj name g }
    else if name = "upperRightArm" ∨ name = "lowerRightArm" ∨ name = "rightPalm" then
      let (g, s) := dCreate s s.iCubRightArmSpace
      { s with model_ThreeD_obj := Function.update s.model_ThreeD_obj name g }
    else if name = "upperLeftLeg" ∨ name = "lowerLeftLeg" ∨ name = "leftFoot" ∨
        name = "upperRightLeg" ∨ name = "lowerRightLeg" ∨ name = "rightFoot" then
      let (g, s) := dCreate s s.iCubLegsSpace
      { s with model_ThreeD_obj := Function.update s.model_ThreeD_obj name g }
    else s

/-- Embedding of `ICubSim::initCovers` (iCub.cpp, lines 3119-3417): which cover meshes are
    entered into `model`, and the collision mesh created for each of them. Attaching the
    meshes to bodies (the `actCoversCol` part) only acts inside the engine. -/
def initCovers {α : Type} (env : Environment α) (s : ICubSim α) : ICubSim α :=
  let s :=
    if s.actLegsCovers = "on" then
      let s := { s with model := mapInsert s.model "lowerLeftLeg" (env.findFile "lowerLegCover") }
      let s := { s with model := mapInsert s.model "lowerRightLeg" (env.findFile "lowerLegCover") }
      let s := { s with model := mapInsert s.model "upperRightLeg" (env.findFile "upperRightLegCover") }
      let s := { s with model := mapInsert s.model "upperLeftLeg" (env.findFile "upperLeftLegCover") }
      let s := { s with model := mapInsert s.model "rightFoot" (env.findFile "rightFootCover") }
      { s with model := mapInsert s.model "leftFoot" (env.findFile "leftFootCover") }
    else s
  let s :=
    if s.actLeftArmCovers = "on" ∨ s.actRightArmCovers = "on" then
      let s := { s with model := mapInsert s.model "lowerLeftArm" (env.findFile "lowerArmCover") }
      { s with model := mapInsert s.model "lowerRightArm" (env.findFile "lowerArmCover") }
    else s
  let s :=
    if s.actLeftArmCovers = "on" then
      let s := { s with model := mapInsert s.model "upperLeftArm" (env.findFile "leftUpperArmCover") }
      { s with model := mapInsert s.model "leftPalm" (env.findFile "leftPalm") }
    else s
  let s :=
    if s.actRightArmCovers = "on" then
      let s := { s with model := mapInsert s.model "upperRightArm" (env.findFile "rightUpperArmCover") }
      { s with model := mapInsert s.model "rightPalm" (env.findFile "rightPalm") }
    else s
  let s :=
    if s.actTorsoCovers = "on" then
      let s := { s with model := mapInsert s.model "torso" (env.findFile "torsoCover") }
      { s with model := mapInsert s.model "waist" (env.findFile "waistCover") }
    else s
  s.model.foldl (fun s itr => initCovers_cover env s itr.1 itr.2) s

/-- Lines 1626-1712 of `ICubSim::init`: the collision spaces, then the bodies and
    collision shapes of every part, then the inertial sensor box. The callees take the
    dimensions and offsets of the shapes from the anchor tables (first in `initLegsOn` at
    line 2007 and in `initLegsOff` at line 1868); these values stay inside the engine, so
    the callees are embedded as the shapes they create. This is what the lines do when the
    anchor entries they read hold their components; `init` runs them under that condition
    (`anchorsSized`) and has no result otherwise. -/
def init_bodies {α : Type} (space : Nat) (s : ICubSim α) : ICubSim α :=
  let s :=
    if s.actSelfCol = "off" then
      let (sp, s) := dSimpleSpaceCreate s space
      let s := { s with iCub := sp }
      let s := { s with iCubLegsSpace := s.iCub }
      let s := { s with iCubRightArmSpace := s.iCubLegsSpace }
      let s := { s with iCubLeftArmSpace := s.iCubRightArmSpace }
      let s := { s with iCubTorsoSpace := s.iCubLeftArmSpace }
      { s with iCubHeadSpace := s.iCubTorsoSpace }
    else
      let (sp, s) := dSimpleSpaceCreate s space
      let s := { s with iCub := sp }
      let (sp, s) := dSimpleSpaceCreate s s.iCub
      let s := { s with iCubHeadSpace := sp }
      let (sp, s) := dSimpleSpaceCreate s s.iCub
      let s := { s with iCubTorsoSpace := sp }
      let (sp, s) := dSimpleSpaceCreate s s.iCub
      let s := { s with iCubLeftArmSpace := sp }
      let (sp, s) := dSimpleSpaceCreate s s.iCub
      let s := { s with iCubRightArmSpace := sp }
      let (sp, s) := dSimpleSpaceCreate s s.iCub
      { s with iCubLegsSpace := sp }
  let s :=
    if s.actScreen = "on" then
      let (g, s) := dCreate s space
      { s with screenGeom := g }
    else s
  let s :=
    if s.actLegs = "off" then
      initLegsOff { s with stages := s.stages ++ [Stage.initLegsOff] } s.iCubLegsSpace
    else initLegsOn { s with stages := s.stages ++ [Stage.initLegsOn] } s.iCubLegsSpace
  let s :=
    if s.actTorso = "off" then
      initTorsoOff { s with stages := s.stages ++ [Stage.initTorsoOff] } s.iCubTorsoSpace
    else initTorsoOn { s with stages := s.stages ++ [Stage.initTorsoOn] } s.iCubTorsoSpace
  let s :=
    if s.actLArm = "off" then
      initLeftArmOff { s with stages := s.stages ++ [Stage.initLeftArmOff] } s.iCubLeftArmSpace
    else initLeftArmOn { s with stages := s.stages ++ [Stage.initLeftArmOn] } s.iCubLeftArmSpace
  let s :=
    if s.actRArm = "off" then
      initRightArmOff { s with stages := s.stages ++ [Stage.initRightArmOff] } s.iCubRightArmSpace
    else initRightArmOn { s with stages := s.stages ++ [Stage.initRightArmOn] } s.iCubRightArmSpace
  let s :=
    if s.actLHand = "off" then
      initLeftHandOff { s with stages := s.stages ++ [Stage.initLeftHandOff] } s.iCubLeftArmSpace
    else initLeftHandOn { s with stages := s.stages ++ [Stage.initLeftHandOn] } s.iCubLeftArmSpace
  let s :=
    if s.actRHand = "off" then
      initRightHandOff { s with stages := s.stages ++ [Stage.initRightHandOff] } s.iCubRightArmSpace
    else initRightHandOn { s with stages := s.stages ++ [Stage.initRightHandOn] } s.iCubRightArmSpace
  let s := initHead { s with stages := s.stages ++ [Stage.initHead] } s.iCubHeadSpace
  let s := initEyes { s with stages := s.stages ++ [Stage.initEyes] } s.iCubHeadSpace
  -- inertial sensor box
  let (g, s) := dCreate s s.iCubHeadSpace
  let s := { s with inertialGeom := g }
  s

/-- Lines 1713-1850 of `ICubSim::init`: everything that follows the creation of the bodies.
    `setPosition`, the creation of the joints, the joint initialisers and the joint
    parameters act on engine positions and joints; they are recorded as stages. They read
    the anchor tables as well, and like `init_bodies` this is what the lines do when the
    entries read hold their components (`anchorsSized`). -/
def init_joints {α : Type} (env : Environment α) (s : ICubSim α) : ICubSim α :=
  let s := { s with stages := s.stages ++ [Stage.setPosition] }
  -- joints initialization
  let s := { s with stages := s.stages ++ [Stage.initLegJoints, Stage.initTorsoJoints,
    Stage.initLeftArmJoints, Stage.initLeftHandJoints, Stage.initRightArmJoints,
    Stage.initRightHandJoints, Stage.initHeadJoints] }
  let s := initCovers env { s with stages := s.stages ++ [Stage.initCovers] }
  { s with stages := s.stages ++ [Stage.initSkinActivationBottles] }

/-- The anchor vectors hold their three components. `loadJointPosition` is the only
    function that sizes them (`resize(3)`, lines 1353-1442; the axes are assigned
    three-component columns): the leg anchors 0..5, the torso anchors and axes 0..2, the arm
    anchors and axes 0..7, the head anchors 0..3, the eye anchors 0..1 and the inertial
    anchor. On a freshly constructed object, and after a load that failed, they are
    unsized. The assembly (`initLegs*` ... `initEyes`, `setPosition`, the joint
    initialisers, `initCovers`) reads entries of these tables with the unchecked
    `operator[]`. The constructor calls `init` once, so when the assembly starts either
    every entry listed is sized or none is. -/
def anchorsSized {α : Type} (s : ICubSim α) : Bool :=
  (List.range 6).all (fun i =>
    decide (3 ≤ (s.jP_leftLeg i).length) && decide (3 ≤ (s.jP_rightLeg i).length)) &&
  (List.range 3).all (fun i =>
    decide (3 ≤ (s.jP_torso i).length) && decide (3 ≤ (s.jA_torso i).length)) &&
  (List.range 8).all (fun i =>
    decide (3 ≤ (s.jP_leftArm i).length) && decide (3 ≤ (s.jA_leftArm i).length) &&
    decide (3 ≤ (s.jP_rightArm i).length) && decide (3 ≤ (s.jA_rightArm i).length)) &&
  (List.range 4).all (fun i => decide (3 ≤ (s.jP_head i).length)) &&
  (List.range 2).all (fun i =>
    decide (3 ≤ (s.jP_leftEye i).length) && decide (3 ≤ (s.jP_rightEye i).length)) &&
  decide (3 ≤ s.jP_inertial.length)

/-- Embedding of `ICubSim::init` (iCub.cpp, lines 1611-1851), which the constructor calls
    once. `space` is the top-level collision space and `file` the content of the
    calibration file (`none` when it cannot be opened). Every member function called is
    recorded in `stages`; the creation of bodies and joints and their parameters, which act
    inside the engine only, are not part of the state. The boolean returned by
    `loadJointPosition` is dropped, as in the source (line 1621): whatever it is, the run
    goes on to the assembly. The result is `none` when the run has no defined result:
    when `loadJointPosition` dereferences a null pointer, and when the assembly reads an
    anchor vector that was never sized (after a load that failed, the first such reads
    are `jP_leftLeg[2][2]` and `jP_leftLeg[1][2]` in `initLegsOn`, line 2007, or
    `jP_leftLeg[1][2]` in `initLegsOff`, line 1868, after the collision spaces and the
    first leg shapes were created). -/
def init {α : Type} [Field α] (env : Environment α) (flags : RobotFlags) (space : Nat)
    (file : Option (Bottle α)) (s : ICubSim α) : Option (ICubSim α) :=
  let s := activateiCubParts flags { s with stages := s.stages ++ [Stage.activateiCubParts] }
  let s := init_iKin env { s with stages := s.stages ++ [Stage.init_iKin] }
  -- load joint positions from file and from iKin
  (loadJointPosition file { s with stages := s.stages ++ [Stage.loadJointPosition] }).bind
    (fun r => if anchorsSized r.2 then some (init_joints env (init_bodies space r.2)) else none)

/-! ## Skin classification -/

/-- The skin parts that the classifier assigns. -/
inductive SkinPart where
  | SKIN_PART_UNKNOWN
  | SKIN_LEFT_HAND
  | SKIN_LEFT_FOREARM
  | SKIN_LEFT_UPPER_ARM
  | SKIN_RIGHT_HAND
  | SKIN_RIGHT_FOREARM
  | SKIN_RIGHT_UPPER_ARM
  | SKIN_FRONT_TORSO
  deriving DecidableEq, Repr

/-- The body parts that the classifier assigns. -/
inductive BodyPart where
  | BODY_PART_UNKNOWN
  | TORSO
  | HEAD
  | LEFT_ARM
  | RIGHT_ARM
  deriving DecidableEq, Repr

/-- The hand parts that the classifier assigns. -/
inductive HandPart where
  | INDEX
  | MIDDLE
  | RING
  | LITTLE
  | THUMB
  deriving DecidableEq, Repr

/-- The five reference parameters of `getSkinAndBodyPartFromSpaceAndGeomID`. -/
structure SkinOutputs where
  skinPart : SkinPart
  bodyPart : BodyPart
  handPart : HandPart
  skinCoverFlag : Bool
  fingertipFlag : Bool
  deriving DecidableEq, Repr

/-- The fall-through of an arm branch of the classifier: the error report and the
    `{SKIN_PART_UNKNOWN, BODY_PART_UNKNOWN}` result. -/
def unknownSkinAndBodyPart (out : SkinOutputs) : SkinOutputs :=
  let out := { out with skinPart := SkinPart.SKIN_PART_UNKNOWN }
  { out with bodyPart := BodyPart.BODY_PART_UNKNOWN }

/-- Lines 4299-4324 of the classifier: the left-arm covers and the fall-through. -/
def leftArmCovers {α : Type} (s : ICubSim α) (geomID : Nat) (out : SkinOutputs) : SkinOutputs :=
  if s.actLeftArmCovers = "on" then
    if geomID = s.model_ThreeD_obj "leftPalm" then
      let out := { out with skinPart := SkinPart.SKIN_LEFT_HAND }
      let out := { out with bodyPart := BodyPart.LEFT_ARM }
      { out with skinCoverFlag := true }
    else if geomID = s.model_ThreeD_obj "lowerLeftArm" then
      let out := { out with skinPart := SkinPart.SKIN_LEFT_FOREARM }
      let out := { out with bodyPart := BodyPart.LEFT_ARM }
      { out with skinCoverFlag := true }
    else if geomID = s.model_ThreeD_obj "upperLeftArm" then
      let out := { out with skinPart := SkinPart.SKIN_LEFT_UPPER_ARM }
      let out := { out with bodyPart := BodyPart.LEFT_ARM }
      { out with skinCoverFlag := true }
    else unknownSkinAndBodyPart out
  else unknownSkinAndBodyPart out

/-- Lines 4275-4298 of the classifier: the upper-arm and forearm shapes of the left
    arm, followed by the covers. -/
def leftArmShapes {α : Type} (s : ICubSim α) (geomID : Nat) (out : SkinOutputs) : SkinOutputs :=
  if s.actLArm = "off" then
    if geomID = s.larm0_geom ∨ geomID = s.larm1_geom ∨ geomID = s.larm2_geom then
      let out := { out with skinPart := SkinPart.SKIN_LEFT_UPPER_ARM }
      { out with bodyPart := BodyPart.LEFT_ARM }
    else if geomID = s.larm3_geom then
      let out := { out with skinPart := SkinPart.SKIN_LEFT_FOREARM }
      { out with bodyPart := BodyPart.LEFT_ARM }
    else leftArmCovers s geomID out
  else
    if geomID = s.geom 0 ∨ geomID = s.geom 2 ∨ geomID = s.geom 4 ∨ geomID = s.geom 6 then
      let out := { out with skinPart := SkinPart.SKIN_LEFT_UPPER_ARM }
      { out with bodyPart := BodyPart.LEFT_ARM }
    else if geomID = s.geom 8 then
      let out := { out with skinPart := SkinPart.SKIN_LEFT_FOREARM }
      { out with bodyPart := BodyPart.LEFT_ARM }
    else leftArmCovers s geomID out

/-- Lines 4229-4325 of the classifier: the branch for the left-arm sub-space. -/
def leftArmSpace {α : Type} (s : ICubSim α) (geomID : Nat) (out : SkinOutputs) : SkinOutputs :=
  if s.actLHand = "off" then
    if geomID = s.l_hand0_geom ∨ geomID = s.l_hand1_geom ∨ geomID = s.l_hand2_geom ∨
        geomID = s.l_hand3_geom ∨ geomID = s.l_hand4_geom ∨ geomID = s.l_hand5_geom then
      let out := { out with skinPart := SkinPart.SKIN_LEFT_HAND }
      { out with bodyPart := BodyPart.LEFT_ARM }
    else leftArmShapes s geomID out
  else
    if geomID = s.geom 10 ∨ geomID = s.geom 12 ∨ geomID = s.geom 13 ∨ geomID = s.geom 16 ∨
        geomID = s.geom 17 ∨ geomID = s.geom 20 ∨ geomID = s.geom 21 ∨ geomID = s.geom 24 ∨
        geomID = s.geom 25 ∨ geomID = s.geom 28 ∨ geomID = s.geom 29 ∨ geomID = s.geom 30 ∨
        geomID = s.lhandfings0_geom ∨ geomID = s.lhandfings1_geom ∨
        geomID = s.lhandfings2_geom ∨ geomID = s.lhandfings3_geom ∨
        geomID = s.lhandfings4_geom ∨ geomID = s.lhandfings5_geom ∨
        geomID = s.lhandfings6_geom ∨ geomID = s.lhandfings7_geom then
      let out := { out with skinPart := SkinPart.SKIN_LEFT_HAND }
      let out := { out with bodyPart := BodyPart.LEFT_ARM }
      if geomID = s.geom 30 then
        let out := { out with handPart := HandPart.THUMB }
        { out with fingertipFlag := true }
      else if geomID = s.geom 24 then
        let out := { out with handPart := HandPart.INDEX }
        { out with fingertipFlag := true }
      else if geomID = s.geom 25 then
        let out := { out with handPart := HandPart.MIDDLE }
        { out with fingertipFlag := true }
      else if geomID = s.lhandfings6_geom then
        let out := { out with handPart := HandPart.RING }
        { out with fingertipFlag := true }
      else if geomID = s.lhandfings7_geom then
        let out := { out with handPart := HandPart.LITTLE }
        { out with fingertipFlag := true }
      else out
    else leftArmShapes s geomID out

/-- Lines 4395-4420 of the classifier: the right-arm covers and the fall-through. -/
def rightArmCovers {α : Type} (s : ICubSim α) (geomID : Nat) (out : SkinOutputs) : SkinOutputs :=
  if s.actRightArmCovers = "on" then
    if geomID = s.model_ThreeD_obj "rightPalm" then
      let out := { out with skinPart := SkinPart.SKIN_RIGHT_HAND }
      let out := { out with bodyPart := BodyPart.RIGHT_ARM }
      { out with skinCoverFlag := true }
    else if geomID = s.model_ThreeD_obj "lowerRightArm" then
      let out := { out with skinPart := SkinPart.SKIN_RIGHT_FOREARM }
      let out := { out with bodyPart := BodyPart.RIGHT_ARM }
      { out with skinCoverFlag := true }
    else if geomID = s.model_ThreeD_obj "upperRightArm" then
      let out := { out with skinPart := SkinPart.SKIN_RIGHT_UPPER_ARM }
      let out := { out with bodyPart := BodyPart.RIGHT_ARM }
      { out with skinCoverFlag := true }
    else unknownSkinAndBodyPart out
  else unknownSkinAndBodyPart out

/-- Lines 4370-4393 of the classifier: the upper-arm and forearm shapes of the right
    arm, followed by the covers. -/
def rightArmShapes {α : Type} (s : ICubSim α) (geomID : Nat) (out : SkinOutputs) : SkinOutputs :=
  if s.actRArm = "off" then
    if geomID = s.rarm0_geom ∨ geomID = s.rarm1_geom ∨ geomID = s.rarm2_geom then
      let out := { out with skinPart := SkinPart.SKIN_RIGHT_UPPER_ARM }
      { out with bodyPart := BodyPart.RIGHT_ARM }
    else if geomID = s.rarm3_geom then
      let out := { out with skinPart := SkinPart.SKIN_RIGHT_FOREARM }
      { out with bodyPart := BodyPart.RIGHT_ARM }
    else rightArmCovers s geomID out
  else
    if geomID = s.geom 1 ∨ geomID = s.geom 3 ∨ geomID = s.geom 5 ∨ geomID = s.geom 7 then
      let out := { out with skinPart := SkinPart.SKIN_RIGHT_UPPER_ARM }
      { out with bodyPart := BodyPart.RIGHT_ARM }
    else if geomID = s.geom 9 then
      let out := { out with skinPart := SkinPart.SKIN_RIGHT_FOREARM }
      { out with bodyPart := BodyPart.RIGHT_ARM }
    else rightArmCovers s geomID out

/-- Lines 4326-4421 of the classifier: the branch for the right-arm sub-space. -/
def rightArmSpace {α : Type} (s : ICubSim α) (geomID : Nat) (out : SkinOutputs) : SkinOutputs :=
  if s.actRHand = "off" then
    if geomID = s.r_hand0_geom ∨ geomID = s.r_hand1_geom ∨ geomID = s.r_hand2_geom ∨
        geomID = s.r_hand3_geom ∨ geomID = s.r_hand4_geom ∨ geomID = s.r_hand5_geom then
      let out := { out with skinPart := SkinPart.SKIN_RIGHT_HAND }
      { out with bodyPart := BodyPart.RIGHT_ARM }
    else rightArmShapes s geomID out
  else
    if geomID = s.geom 11 ∨ geomID = s.geom 31 ∨ geomID = s.geom 32 ∨ geomID = s.geom 35 ∨
        geomID = s.geom 36 ∨ geomID = s.geom 39 ∨ geomID = s.geom 40 ∨ geomID = s.geom 43 ∨
        geomID = s.geom 44 ∨ geomID = s.geom 47 ∨ geomID = s.geom 48 ∨ geomID = s.geom 49 ∨
        geomID = s.rhandfings0_geom ∨ geomID = s.rhandfings1_geom ∨
        geomID = s.rhandfings2_geom ∨ geomID = s.rhandfings3_geom ∨
        geomID = s.rhandfings4_geom ∨ geomID = s.rhandfings5_geom ∨
        geomID = s.rhandfings6_geom ∨ geomID = s.rhandfings7_geom then
      let out := { out with skinPart := SkinPart.SKIN_RIGHT_HAND }
      let out := { out with bodyPart := BodyPart.RIGHT_ARM }
      if geomID = s.geom 49 then
        let out := { out with handPart := HandPart.THUMB }
        { out with fingertipFlag := true }
      else if geomID = s.geom 43 then
        let out := { out with handPart := HandPart.INDEX }
        { out with fingertipFlag := true }
      else if geomID = s.geom 44 then
        let out := { out with handPart := HandPart.MIDDLE }
        { out with fingertipFlag := true }
      else if geomID = s.rhandfings6_geom then
        let out := { out with handPart := HandPart.RING }
        { out with fingertipFlag := true }
      else if geomID = s.rhandfings7_geom then
        let out := { out with handPart := HandPart.LITTLE }
        { out with fingertipFlag := true }
      else out
    else rightArmShapes s geomID out

/-- Embedding of `ICubSim::getSkinAndBodyPartFromSpaceAndGeomID` (iCub.cpp, lines
    4213-4439). `out` holds the values of the five reference parameters before the call,
    the result their values after it. `odeinit._iCub` is the robot `s` itself, and
    `model_ThreeD_obj[name].geom` is read from the table `s.model_ThreeD_obj`. The code
    that follows an `if` whose body returns is the `else` branch here. -/
def getSkinAndBodyPartFromSpaceAndGeomID {α : Type} (s : ICubSim α) (geomSpaceID geomID : Nat)
    (out : SkinOutputs) : SkinOutputs :=
  if geomSpaceID = s.iCubTorsoSpace then
    let out := { out with skinPart := SkinPart.SKIN_FRONT_TORSO }
    let out := { out with bodyPart := BodyPart.TORSO }
    if s.actTorsoCovers = "on" then
      if geomID = s.model_ThreeD_obj "torso" then { out with skinCoverFlag := true } else out
    else out
  else if geomSpaceID = s.iCubLeftArmSpace then leftArmSpace s geomID out
  else if geomSpaceID = s.iCubRightArmSpace then rightArmSpace s geomID out
  else if geomSpaceID = s.iCubHeadSpace then
    let out := { out with skinPart := SkinPart.SKIN_PART_UNKNOWN }
    { out with bodyPart := BodyPart.HEAD }
  else if geomSpaceID = s.iCubLegsSpace then
    let out := { out with skinPart := SkinPart.SKIN_PART_UNKNOWN }
    { out with bodyPart := BodyPart.BODY_PART_UNKNOWN }
  else unknownSkinAndBodyPart out

/-! ## Concrete data for evaluation -/

/-- The identity transform. -/
def Mat4.one {α : Type} [Zero α] [One α] : Mat4 α := fun i j => if i = j then 1 else 0

/-- The inverse of a rigid transform: the transposed rotation block and the matching
    translation. -/
def Mat4.SE3inv {α : Type} [Ring α] (H : Mat4 α) : Mat4 α :=
  fun i j =>
    if i < 3 then
      if j < 3 then H j i
      else if j = 3 then -(H 0 i * H 0 3 + H 1 i * H 1 3 + H 2 i * H 2 3)
      else 0
    else if i = 3 ∧ j = 3 then 1 else 0

/-- An environment in which every file is found, every mesh loads, and both arm chains
    are posed with identity transforms. -/
def sampleEnvironment : Environment ℚ where
  findFile := fun key => key
  dLoadMeshFromX := fun _ => true
  iCubArm := fun _ => { getH0 := Mat4.one, getH := fun _ => Mat4.one }
  SE3inv := Mat4.SE3inv

/-- A freshly constructed robot: nothing assigned yet, an empty engine whose next fresh
    handle is `2` (handle `1` being the top-level space). -/
def blankICubSim : ICubSim ℚ where
  actScreen := ""
  actElevation := ""
  actLegs := ""
  actTorso := ""
  actLArm := ""
  actRArm := ""
  actLHand := ""
  actRHand := ""
  actHead := ""
  actfixedHip := ""
  actSelfCol := ""
  actCoversCol := ""
  actVision := ""
  actPressure := ""
  actSkinEmul := ""
  actWorld := ""
  actHeadCover := ""
  actLegsCovers := ""
  actLeftArmCovers := ""
  actRightArmCovers := ""
  actTorsoCovers := ""
  actStartHomePos := ""
  iKinLeftArm := { getH0 := fun _ _ => 0, getH := fun _ _ _ => 0 }
  iKinRightArm := { getH0 := fun _ _ => 0, getH := fun _ _ _ => 0 }
  H_r2w := fun _ _ => 0
  H_w2r := fun _ _ => 0
  jP_leftLeg := fun _ => []
  jP_rightLeg := fun _ => []
  jP_torso := fun _ => []
  jA_torso := fun _ => []
  jP_leftArm := fun _ => []
  jA_leftArm := fun _ => []
  jP_rightArm := fun _ => []
  jA_rightArm := fun _ => []
  jP_head := fun _ => []
  jP_leftEye := fun _ => []
  jP_rightEye := fun _ => []
  jP_inertial := []
  l_leg0_geom := 0
  l_leg1_geom := 0
  l_leg2_geom := 0
  l_leg3_geom := 0
  l_leg4_geom := 0
  l_leg5_geom := 0
  l_leg6_geom := 0
  l_leg7_geom := 0
  r_leg0_geom := 0
  r_leg1_geom := 0
  r_leg2_geom := 0
  r_leg3_geom := 0
  r_leg4_geom := 0
  r_leg5_geom := 0
  r_leg6_geom := 0
  r_leg7_geom := 0
  leftLeg_2_1 := 0
  leftLeg_2_2 := 0
  leftLeg_3_1 := 0
  leftLeg_3_2 := 0
  leftLeg_4_1 := 0
  leftLeg_4_2 := 0
  rightLeg_2_1 := 0
  rightLeg_2_2 := 0
  rightLeg_3_1 := 0
  rightLeg_3_2 := 0
  rightLeg_4_1 := 0
  rightLeg_4_2 := 0
  torso0_geom := 0
  torso1_geom := 0
  torso2_geom := 0
  torso3_geom := 0
  larm0_geom := 0
  larm1_geom := 0
  larm2_geom := 0
  larm3_geom := 0
  rarm0_geom := 0
  rarm1_geom := 0
  rarm2_geom := 0
  rarm3_geom := 0
  l_hand0_geom := 0
  l_hand1_geom := 0
  l_hand2_geom := 0
  l_hand3_geom := 0
  l_hand4_geom := 0
  l_hand5_geom := 0
  lhandfings0_geom := 0
  lhandfings1_geom := 0
  lhandfings2_geom := 0
  lhandfings3_geom := 0
  lhandfings4_geom := 0
  lhandfings5_geom := 0
  lhandfings6_geom := 0
  lhandfings7_geom := 0
  r_hand0_geom := 0
  r_hand1_geom := 0
  r_hand2_geom := 0
  r_hand3_geom := 0
  r_hand4_geom := 0
  r_hand5_geom := 0
  rhandfings0_geom := 0
  rhandfings1_geom := 0
  rhandfings2_geom := 0
  rhandfings3_geom := 0
  rhandfings4_geom := 0
  rhandfings5_geom := 0
  rhandfings6_geom := 0
  rhandfings7_geom := 0
  neck0_geom := 0
  neck1_geom := 0
  head0_geom := 0
  head1_geom := 0
  head2_geom := 0
  head3_geom := 0
  head4_geom := 0
  head5_geom := 0
  head6_geom := 0
  head7_geom := 0
  eye1_geom := 0
  eye2_geom := 0
  eye3_geom := 0
  eye4_geom := 0
  eye5_geom := 0
  topEyeLid_geom := 0
  bottomEyeLid_geom := 0
  Leye1_geom := 0
  Reye1_geom := 0
  leftLegGeom := fun _ => 0
  rightLegGeom := fun _ => 0
  torsoGeom := fun _ => 0
  geom := fun _ => 0
  neckgeom := fun _ => 0
  elev := 0
  iCub := 0
  iCubHeadSpace := 0
  iCubTorsoSpace := 0
  iCubLeftArmSpace := 0
  iCubRightArmSpace := 0
  iCubLegsSpace := 0
  screenGeom := 0
  inertialGeom := 0
  model := []
  model_ThreeD_obj := fun _ => 0
  ode := { next := 2, geoms := [] }
  stages := []

/-- A point of the calibration document. -/
def Value.point {α : Type} (p : α × α × α) : Value α :=
  Value.list [Value.float64 p.1, Value.float64 p.2.1, Value.float64 p.2.2]

/-- A named group of the calibration document holding the given points. -/
def Value.group {α : Type} (key : String) (pts : List (α × α × α)) : Value α :=
  Value.list (Value.string key :: pts.map Value.point)

/-- A complete calibration document. -/
def sampleJoints : Bottle ℚ :=
  [Value.group "left_leg" [(1, 2, 3), (4, 5, 6), (7, 8, 9), (10, 11, 12), (13, 14, 15), (16, 17, 18)],
   Value.group "right_leg" [(21, 22, 23), (24, 25, 26), (27, 28, 29), (30, 31, 32), (33, 34, 35), (36, 37, 38)],
   Value.group "head" [(41, 42, 43), (44, 45, 46), (47, 48, 49), (50, 51, 52)],
   Value.group "left_eye" [(61, 62, 63), (64, 65, 66)],
   Value.group "right_eye" [(71, 72, 73), (74, 75, 76)],
   Value.group "inertial" [(81, 82, 83)]]

/-- A configuration with self-collision, every body part and the torso and right-arm
    covers switched on, and the left-arm covers switched off. -/
def sampleFlags : RobotFlags where
  actScreen := false
  actElevation := true
  actLegs := true
  actTorso := true
  actLArm := true
  actRArm := true
  actLHand := true
  actRHand := true
  actHead := true
  actfixedHip := true
  actSelfCol := true
  actCoversCol := true
  actVision := false
  actPressure := false
  actSkinEmul := true
  actWorld := false
  actHeadCover := false
  actLegsCovers := false
  actLeftArmCovers := false
  actRightArmCovers := true
  actTorsoCovers := true
  actStartHomePos := false

/-- The values of the five output variables before a call: everything cleared. -/
def clearedOutputs : SkinOutputs where
  skinPart := SkinPart.SKIN_PART_UNKNOWN
  bodyPart := BodyPart.BODY_PART_UNKNOWN
  handPart := HandPart.INDEX
  skinCoverFlag := false
  fingertipFlag := false

/-- The robot assembled by `init` from the sample configuration, environment and
    calibration document. -/
def sampleRobot : ICubSim ℚ :=
  (init sampleEnvironment sampleFlags 1 (some sampleJoints) blankICubSim).getD blankICubSim

/-! ## Vocabulary for the statements about the classifier -/

/-- The two arms. -/
inductive Side where
  | left
  | right
  deriving DecidableEq, Repr

/-- The collision sub-space of an arm. -/
def Side.armSpace {α : Type} (s : ICubSim α) : Side → Nat
  | .left => s.iCubLeftArmSpace
  | .right => s.iCubRightArmSpace

/-- The sub-space handle `sp` is the one of the arm and the classifier reaches the branch
    of that arm for it: it is not also the handle of a sub-space tested earlier. -/
def Side.reached {α : Type} (s : ICubSim α) (side : Side) : Prop :=
  match side with
  | .left => s.iCubLeftArmSpace ≠ s.iCubTorsoSpace
  | .right => s.iCubRightArmSpace ≠ s.iCubTorsoSpace ∧ s.iCubRightArmSpace ≠ s.iCubLeftArmSpace

/-- The configuration string of the hand of an arm (`actLHand` / `actRHand`). -/
def Side.actHand {α : Type} (s : ICubSim α) : Side → String
  | .left => s.actLHand
  | .right => s.actRHand

/-- The configuration string of an arm (`actLArm` / `actRArm`). -/
def Side.actArm {α : Type} (s : ICubSim α) : Side → String
  | .left => s.actLArm
  | .right => s.actRArm

/-- The configuration string of the covers of an arm. -/
def Side.actArmCovers {α : Type} (s : ICubSim α) : Side → String
  | .left => s.actLeftArmCovers
  | .right => s.actRightArmCovers

/-- The five terminal finger shapes of a hand with the finger each one stands for. -/
def Side.fingertips {α : Type} (s : ICubSim α) : Side → List (Nat × HandPart)
  | .left => [(s.geom 30, HandPart.THUMB), (s.geom 24, HandPart.INDEX),
      (s.geom 25, HandPart.MIDDLE), (s.lhandfings6_geom, HandPart.RING),
      (s.lhandfings7_geom, HandPart.LITTLE)]
  | .right => [(s.geom 49, HandPart.THUMB), (s.geom 43, HandPart.INDEX),
      (s.geom 44, HandPart.MIDDLE), (s.rhandfings6_geom, HandPart.RING),
      (s.rhandfings7_geom, HandPart.LITTLE)]

/-- The hand shapes of the active configuration: the six shapes of the lumped hand when
    the hand is "off", the twenty shapes of the articulated hand otherwise. -/
def Side.handShapes {α : Type} (s : ICubSim α) : Side → List Nat
  | .left =>
    if s.actLHand = "off" then
      [s.l_hand0_geom, s.l_hand1_geom, s.l_hand2_geom, s.l_hand3_geom, s.l_hand4_geom,
        s.l_hand5_geom]
    else
      [s.geom 10, s.geom 12, s.geom 13, s.geom 16, s.geom 17, s.geom 20, s.geom 21, s.geom 24,
        s.geom 25, s.geom 28, s.geom 29, s.geom 30, s.lhandfings0_geom, s.lhandfings1_geom,
        s.lhandfings2_geom, s.lhandfings3_geom, s.lhandfings4_geom, s.lhandfings5_geom,
        s.lhandfings6_geom, s.lhandfings7_geom]
  | .right =>
    if s.actRHand = "off" then
      [s.r_hand0_geom, s.r_hand1_geom, s.r_hand2_geom, s.r_hand3_geom, s.r_hand4_geom,
        s.r_hand5_geom]
    else
      [s.geom 11, s.geom 31, s.geom 32, s.geom 35, s.geom 36, s.geom 39, s.geom 40, s.geom 43,
        s.geom 44, s.geom 47, s.geom 48, s.geom 49, s.rhandfings0_geom, s.rhandfings1_geom,
        s.rhandfings2_geom, s.rhandfings3_geom, s.rhandfings4_geom, s.rhandfings5_geom,
        s.rhandfings6_geom, s.rhandfings7_geom]

/-- The upper-arm and forearm shapes of the active configuration. -/
def Side.armShapes {α : Type} (s : ICubSim α) : Side → List Nat
  | .left =>
    if s.actLArm = "off" then [s.larm0_geom, s.larm1_geom, s.larm2_geom, s.larm3_geom]
    else [s.geom 0, s.geom 2, s.geom 4, s.geom 6, s.geom 8]
  | .right =>
    if s.actRArm = "off" then [s.rarm0_geom, s.rarm1_geom, s.rarm2_geom, s.rarm3_geom]
    else [s.geom 1, s.geom 3, s.geom 5, s.geom 7, s.geom 9]

/-- The palm cover shape of an arm. -/
def Side.palmCover {α : Type} (s : ICubSim α) : Side → Nat
  | .left => s.model_ThreeD_obj "leftPalm"
  | .right => s.model_ThreeD_obj "rightPalm"

/-- The lower-arm cover shape of an arm. -/
def Side.lowerArmCover {α : Type} (s : ICubSim α) : Side → Nat
  | .left => s.model_ThreeD_obj "lowerLeftArm"
  | .right => s.model_ThreeD_obj "lowerRightArm"

/-- The upper-arm cover shape of an arm. -/
def Side.upperArmCover {α : Type} (s : ICubSim α) : Side → Nat
  | .left => s.model_ThreeD_obj "upperLeftArm"
  | .right => s.model_ThreeD_obj "upperRightArm"

/-- The hand skin part of an arm. -/
def Side.skinHand : Side → SkinPart
  | .left => SkinPart.SKIN_LEFT_HAND
  | .right => SkinPart.SKIN_RIGHT_HAND

/-- The forearm skin part of an arm. -/
def Side.skinForearm : Side → SkinPart
  | .left => SkinPart.SKIN_LEFT_FOREARM
  | .right => SkinPart.SKIN_RIGHT_FOREARM

/-- The upper-arm skin part of an arm. -/
def Side.skinUpperArm : Side → SkinPart
  | .left => SkinPart.SKIN_LEFT_UPPER_ARM
  | .right => SkinPart.SKIN_RIGHT_UPPER_ARM

/-- The body part of an arm. -/
def Side.bodyPart : Side → BodyPart
  | .left => BodyPart.LEFT_ARM
  | .right => BodyPart.RIGHT_ARM

instance Side.decidableReached {α : Type} (s : ICubSim α) (side : Side) :
    Decidable (side.reached s) := by
  cases side <;> unfold Side.reached <;> infer_instance

/-! ## Touch sensor queries -/

/-- The joint types of the physics engine that the simulator creates or tests for. -/
inductive dJointType where
  | dJointTypeNone
  | dJointTypeBall
  | dJointTypeHinge
  | dJointTypeSlider
  | dJointTypeContact
  | dJointTypeUniversal
  | dJointTypeHinge2
  | dJointTypeFixed
  deriving DecidableEq, Repr

/-- The queries of the physics engine used by the touch sensor: the joint in slot `index`
    of a body, the type of a joint and the feedback structure of a joint. Bodies and
    joints are handles. -/
structure OdeQueries (α : Type) where
  dBodyGetJoint : Nat → Nat → Nat
  dJointGetType : Nat → dJointType
  dJointGetFeedback : Nat → dJointFeedback α

/-- Embedding of `ICubSim::checkTouchSensor_continuousValued(dBodyID id)` (iCub.cpp, lines
    90-103). -/
def checkTouchSensor_continuousValued {α : Type} [LinearOrderedField α] (sqrt : α → α)
    (ode : OdeQueries α) (id : Nat) : α :=
  let result : α := 0
  let j := ode.dBodyGetJoint id 0
  if ode.dJointGetType j = dJointType.dJointTypeContact then
    -- get the feedback from the joint.
    let fb := ode.dJointGetFeedback j
    -- get the sensor value.
    getTouchSensorValue sqrt fb
  else result

/-- Embedding of `ICubSim::checkTouchSensor(dBodyID id)` (iCub.cpp, lines 131-139). -/
def checkTouchSensor {α : Type} (ode : OdeQueries α) (id : Nat) : Bool :=
  let result := false
  let j := ode.dBodyGetJoint id 0
  if ode.dJointGetType j = dJointType.dJointTypeContact then true else result

/-- A feedback structure whose force on the first body is `(x, y, z)`. -/
def forceFeedback {α : Type} (x y z : α) : dJointFeedback α where
  f1 := fun i => if i = 0 then x else if i = 1 then y else z

/-- An engine state in which body `1` has the contact joint `7` in slot 0 and the hinge
    `8` in slot 1, and body `2` has the hinge `9` in slot 0 and the contact joint `10` in
    slot 1; both contact joints carry the force `(300, 400, 0)`. -/
def sampleQueries : OdeQueries ℚ where
  dBodyGetJoint := fun body index =>
    if body = 1 then (if index = 0 then 7 else if index = 1 then 8 else 0)
    else if body = 2 then (if index = 0 then 9 else if index = 1 then 10 else 0)
    else 0
  dJointGetType := fun j =>
    if j = 7 ∨ j = 10 then dJointType.dJointTypeContact
    else if j = 8 ∨ j = 9 then dJointType.dJointTypeHinge
    else dJointType.dJointTypeNone
  dJointGetFeedback := fun _ => forceFeedback 300 400 0

/-! ## Skin activation vectors -/

/-- A `for (i = lo; i < hi; i++)` loop whose body is `body i`, run on the variables `s`
    that the body assigns. -/
def forLoop {σ : Type} (lo hi : Nat) (body : Nat → σ → σ) (s : σ) : σ :=
  (List.range' lo (hi - lo)).foldl (fun s i => body i s) s

/-- The seven bottles of `ICubSim` that `initSkinActivationBottles` fills. -/
structure SkinActivationBottles (α : Type) where
  emptySkinActivationHand : List α
  emptySkinActivationForearm : List α
  fullSkinActivationForearm : List α
  emptySkinActivationUpperArm : List α
  fullSkinActivationUpperArm : List α
  emptySkinActivationTorso : List α
  fullSkinActivationTorso : List α

/-- Embedding of `ICubSim::initSkinActivationBottles` (iCub.cpp, lines 4005-4083).
    `b` holds the seven bottles before the call and `uninit` the indeterminate content of
    the local arrays that are declared without an initialiser. Each loop runs on the
    variables it assigns; `addFloat64` appends to a bottle and `clear` empties it. -/
def initSkinActivationBottles {α : Type} [Ring α] (uninit : Nat → α)
    (b : SkinActivationBottles α) : SkinActivationBottles α :=
  let COUNT_HAND := 192
  let hand_empty : Nat → α := uninit
  let COUNT_FOREARM := 384
  let forearm_empty : Nat → α := uninit
  let forearm_full : Nat → α := uninit
  let COUNT_UPPER_ARM := 768
  let upper_arm_empty : Nat → α := uninit
  let upper_arm_full : Nat → α := uninit
  let COUNT_TORSO := 768
  let torso_empty : Nat → α := fun _ => 0
  let torso_full : Nat → α := fun i => if i = 0 then 255 else 0
  let hand_empty := forLoop 0 COUNT_HAND (fun i a => Function.update a i 0) hand_empty
  let emptySkinActivationHand : List α := []
  let emptySkinActivationHand :=
    forLoop 0 COUNT_HAND (fun i l => l ++ [hand_empty i]) emptySkinActivationHand
  -- init forearm
  let forearm := forLoop 0 COUNT_FOREARM (fun i p =>
    (Function.update p.1 i 0,
      if i % 6 = 0 ∨ i % 10 = 0 then Function.update p.2 i 0
      else Function.update p.2 i 255)) (forearm_empty, forearm_full)
  let forearm_empty := forearm.1
  let forearm_full := forearm.2
  -- the second patch is incomplete - zero the missing modules
  let forearm_full := forLoop 192 204 (fun i a => Function.update a i 0) forearm_full
  let forearm_full := forLoop 216 252 (fun i a => Function.update a i 0) forearm_full
  let forearm_full := forLoop 264 288 (fun i a => Function.update a i 0) forearm_full
  let forearm_full := forLoop 324 336 (fun i a => Function.update a i 0) forearm_full
  let forearm_full := forLoop 360 384 (fun i a => Function.update a i 0) forearm_full
  let emptySkinActivationForearm : List α := []
  let fullSkinActivationForearm : List α := []
  let forearmBottles := forLoop 0 COUNT_FOREARM (fun i p =>
    (p.1 ++ [forearm_empty i], p.2 ++ [forearm_full i]))
    (emptySkinActivationForearm, fullSkinActivationForearm)
  -- init arm
  let upper_arm := forLoop 0 COUNT_UPPER_ARM (fun i p =>
    (Function.update p.1 i 0, Function.update p.2 i 255)) (upper_arm_empty, upper_arm_full)
  let fullSkinActivationUpperArm : List α := []
  let upperArmBottles := forLoop 0 COUNT_UPPER_ARM (fun i p =>
    (p.1 ++ [upper_arm.1 i], p.2 ++ [upper_arm.2 i]))
    (b.emptySkinActivationUpperArm, fullSkinActivationUpperArm)
  let torso := forLoop 0 COUNT_TORSO (fun i p =>
    (Function.update p.1 i 0, Function.update p.2 i 255)) (torso_empty, torso_full)
  let fullSkinActivationTorso : List α := []
  let torsoBottles := forLoop 0 COUNT_TORSO (fun i p =>
    (p.1 ++ [torso.1 i], p.2 ++ [torso.2 i]))
    (b.emptySkinActivationTorso, fullSkinActivationTorso)
  { emptySkinActivationHand := emptySkinActivationHand
    emptySkinActivationForearm := forearmBottles.1
    fullSkinActivationForearm := forearmBottles.2
    emptySkinActivationUpperArm := upperArmBottles.1
    fullSkinActivationUpperArm := upperArmBottles.2
    emptySkinActivationTorso := torsoBottles.1
    fullSkinActivationTorso := torsoBottles.2 }

/-- The seven bottles with their names. -/
def SkinActivationBottles.all {α : Type} (b : SkinActivationBottles α) :
    List (String × List α) :=
  [("emptySkinActivationHand", b.emptySkinActivationHand),
   ("emptySkinActivationForearm", b.emptySkinActivationForearm),
   ("fullSkinActivationForearm", b.fullSkinActivationForearm),
   ("emptySkinActivationUpperArm", b.emptySkinActivationUpperArm),
   ("fullSkinActivationUpperArm", b.fullSkinActivationUpperArm),
   ("emptySkinActivationTorso", b.emptySkinActivationTorso),
   ("fullSkinActivationTorso", b.fullSkinActivationTorso)]

/-- The bottles of a freshly constructed robot: all empty. -/
def freshBottles {α : Type} : SkinActivationBottles α where
  emptySkinActivationHand := []
  emptySkinActivationForearm := []
  fullSkinActivationForearm := []
  emptySkinActivationUpperArm := []
  fullSkinActivationUpperArm := []
  emptySkinActivationTorso := []
  fullSkinActivationTorso := []

/-- The index lies in one of the five ranges of the incomplete second forearm patch. -/
def incompletePatch (i : Nat) : Prop :=
  (192 ≤ i ∧ i < 204) ∨ (216 ≤ i ∧ i < 252) ∨ (264 ≤ i ∧ i < 288) ∨
    (324 ≤ i ∧ i < 336) ∨ (360 ≤ i ∧ i < 384)

instance incompletePatch.decidable (i : Nat) : Decidable (incompletePatch i) := by
  unfold incompletePatch
  infer_instance

/-- The anchors that `loadJointPosition` takes from the calibration document: the leg, head
    and eye tables and the inertial anchor. -/
def fileAnchors {α : Type} (s : ICubSim α) :
    (Nat → List α) × (Nat → List α) × (Nat → List α) × (Nat → List α) × (Nat → List α)
      × List α :=
  (s.jP_leftLeg, s.jP_rightLeg, s.jP_head, s.jP_leftEye, s.jP_rightEye, s.jP_inertial)

/-! ## Vocabulary for the statements about the forward-kinematics anchors -/

/-- The link transform that the `torso` section of `loadJointPosition` uses for torso
    index `i`: `H_w2r * iKinLeftArm.getH0()` for `i = 0`, `H_w2r * iKinLeftArm.getH(i-1)`
    otherwise. -/
def torsoLinkTransform {α : Type} [Ring α] (s : ICubSim α) (i : Nat) : Mat4 α :=
  if i = 0 then Mat4.mul s.H_w2r s.iKinLeftArm.getH0
  else Mat4.mul s.H_w2r (s.iKinLeftArm.getH (i - 1))

/-- The link transform that the `arms` section uses for index `i` of the left arm:
    `H_w2r * iKinLeftArm.getH(i+2)`. -/
def leftArmLinkTransform {α : Type} [Ring α] (s : ICubSim α) (i : Nat) : Mat4 α :=
  Mat4.mul s.H_w2r (s.iKinLeftArm.getH (i + 2))

/-- The link transform that the `arms` section uses for index `i` of the right arm:
    `H_w2r * iKinRightArm.getH(i+2)`. -/
def rightArmLinkTransform {α : Type} [Ring α] (s : ICubSim α) (i : Nat) : Mat4 α :=
  Mat4.mul s.H_w2r (s.iKinRightArm.getH (i + 2))

/-- The translation column of a transform with the axes reordered: `(H(2,3), H(0,3),
    H(1,3))`. -/
def translationZXY {α : Type} (H : Mat4 α) : List α := [H 2 3, H 0 3, H 1 3]

/-- The rotation column `(H(0,2), H(1,2), H(2,2))` of a transform. -/
def rotationColumn {α : Type} (H : Mat4 α) : List α := [H 0 2, H 1 2, H 2 2]

/-- The six tables that the forward-kinematics sections of `loadJointPosition` write. -/
def fkTables {α : Type} (s : ICubSim α) :
    (Nat → List α) × (Nat → List α) × (Nat → List α) × (Nat → List α) × (Nat → List α)
      × (Nat → List α) :=
  (s.jP_torso, s.jA_torso, s.jP_leftArm, s.jA_leftArm, s.jP_rightArm, s.jA_rightArm)

/-- The arm chains and the root transform that the forward-kinematics sections read. -/
def fkInputs {α : Type} (s : ICubSim α) : Mat4 α × iKinChain α × iKinChain α :=
  (s.H_w2r, s.iKinLeftArm, s.iKinRightArm)

/-- A robot whose root transform is the identity and whose arm chains have pairwise
    distinct entries: entry `(r, c)` of link `i` is `100 i + 10 r + c` on the left and the
    negative of that on the right. -/
def fkSample : ICubSim ℚ :=
  { blankICubSim with H_w2r := Mat4.one, iKinLeftArm := { getH0 := fun r c => 10 * r + c + 1000, getH := fun i r c => 100 * i + 10 * r + c }, iKinRightArm := { getH0 := fun r c => -(10 * r + c + 1000), getH := fun i r c => -(100 * i + 10 * r + c) } }

/-- The sample calibration document with the third number of the first `head` point
    left out. -/
def shortPointJoints : Bottle ℚ :=
  [Value.group "left_leg" [(1, 2, 3), (4, 5, 6), (7, 8, 9), (10, 11, 12), (13, 14, 15), (16, 17, 18)],
   Value.group "right_leg" [(21, 22, 23), (24, 25, 26), (27, 28, 29), (30, 31, 32), (33, 34, 35), (36, 37, 38)],
   Value.list [Value.string "head", Value.list [Value.float64 41, Value.float64 42],
     Value.point (44, 45, 46), Value.point (47, 48, 49), Value.point (50, 51, 52)],
   Value.group "left_eye" [(61, 62, 63), (64, 65, 66)],
   Value.group "right_eye" [(71, 72, 73), (74, 75, 76)],
   Value.group "inertial" [(81, 82, 83)]]

/-- The sample calibration document without its `inertial` group. -/
def missingInertialJoints : Bottle ℚ :=
  [Value.group "left_leg" [(1, 2, 3), (4, 5, 6), (7, 8, 9), (10, 11, 12), (13, 14, 15), (16, 17, 18)],
   Value.group "right_leg" [(21, 22, 23), (24, 25, 26), (27, 28, 29), (30, 31, 32), (33, 34, 35), (36, 37, 38)],
   Value.group "head" [(41, 42, 43), (44, 45, 46), (47, 48, 49), (50, 51, 52)],
   Value.group "left_eye" [(61, 62, 63), (64, 65, 66)],
   Value.group "right_eye" [(71, 72, 73), (74, 75, 76)]]

/-- The sample calibration document with only three of the four `head` points. -/
def fewerHeadPointsJoints : Bottle ℚ :=
  [Value.group "left_leg" [(1, 2, 3), (4, 5, 6), (7, 8, 9), (10, 11, 12), (13, 14, 15), (16, 17, 18)],
   Value.group "right_leg" [(21, 22, 23), (24, 25, 26), (27, 28, 29), (30, 31, 32), (33, 34, 35), (36, 37, 38)],
   Value.group "head" [(41, 42, 43), (44, 45, 46), (47, 48, 49)],
   Value.group "left_eye" [(61, 62, 63), (64, 65, 66)],
   Value.group "right_eye" [(71, 72, 73), (74, 75, 76)],
   Value.group "inertial" [(81, 82, 83)]]

/-- The six collision-space handles of the robot: the iCub space and the head, torso,
    left-arm, right-arm and legs sub-spaces. -/
def spaceHandles {α : Type} (s : ICubSim α) : Nat × Nat × Nat × Nat × Nat × Nat :=
  (s.iCub, s.iCubHeadSpace, s.iCubTorsoSpace, s.iCubLeftArmSpace, s.iCubRightArmSpace,
    s.iCubLegsSpace)

/-- The sample configuration with self-collision switched off. -/
def sampleFlagsNoSelfCol : RobotFlags :=
  { sampleFlags with actSelfCol := false }

/-- Control tables in which the right leg (key 5) reports TORQUE for its six joints and
    the torso (key 6) reports VELOCITY for three joints only. -/
def rightLegTorqueControls : Nat → Option (List Int) :=
  fun bodyPart =>
    if bodyPart = 5 then
      some [yarp_VOCAB_CM_TORQUE, yarp_VOCAB_CM_TORQUE, yarp_VOCAB_CM_TORQUE,
        yarp_VOCAB_CM_TORQUE, yarp_VOCAB_CM_TORQUE, yarp_VOCAB_CM_TORQUE]
    else if bodyPart = 6 then
      some [yarp_VOCAB_CM_VELOCITY, yarp_VOCAB_CM_VELOCITY, yarp_VOCAB_CM_VELOCITY]
    else none

/-- The same control tables, except that the right leg reports VELOCITY for its six
    joints. -/
def rightLegVelocityControls : Nat → Option (List Int) :=
  fun bodyPart =>
    if bodyPart = 5 then
      some [yarp_VOCAB_CM_VELOCITY, yarp_VOCAB_CM_VELOCITY, yarp_VOCAB_CM_VELOCITY,
        yarp_VOCAB_CM_VELOCITY, yarp_VOCAB_CM_VELOCITY, yarp_VOCAB_CM_VELOCITY]
    else if bodyPart = 6 then
      some [yarp_VOCAB_CM_VELOCITY, yarp_VOCAB_CM_VELOCITY, yarp_VOCAB_CM_VELOCITY]
    else none

/-! ## Body positions and joint set-up -/

/-- The rigid bodies of `ICubSim`, by the member that holds their handle. -/
inductive dBodyID where
  | legs
  | leftLeg (i : Nat)
  | rightLeg (i : Nat)
  | body_torso
  | torso (i : Nat)
  | larm
  | rarm
  | body (i : Nat)
  | l_hand
  | r_hand
  | lhandfingers0
  | lhandfingers1
  | lhandfingers2
  | lhandfingers3
  | rhandfingers0
  | rhandfingers1
  | rhandfingers2
  | rhandfingers3
  | head
  | neck (i : Nat)
  | eye
  | leye
  | reye
  | topEyeLid
  | bottomEyeLid
  | inertialBody
  deriving DecidableEq, Repr

/-- The read `v[k]` of a component of an anchor or axis vector; `0` stands for a read past
    the end of the vector. -/
def component {α : Type} [Zero α] (v : List α) (k : Nat) : α := v.getD k 0

/-- The ODE joint parameters written when the joints are set up. -/
inductive dStopParam where
  | dParamLoStop
  | dParamHiStop
  | dParamFudgeFactor
  | dParamStopCFM
  | dParamStopERP
  | dParamCFM
  | dParamBounce
  deriving DecidableEq, Repr

/-- The fields of `OdeParams` that the joint initialisers read. -/
structure OdeParams (α : Type) where
  fudgeFactor : α
  stopCFM : α
  stopERP : α
  jointCFM : α
  jointStopBouncyness : α

/-- A call into the physics engine made while a joint is set up. -/
inductive JointSetupCall (α : Type) where
  | dJointAttach (j : dJointID) (b1 b2 : dBodyID)
  | dJointSetHingeAnchor (j : dJointID) (x y z : α)
  | dJointSetHingeAxis (j : dJointID) (x y z : α)
  | dJointSetHingeParam (j : dJointID) (p : dStopParam) (v : α)

/-- The joint a set-up call acts on. -/
def JointSetupCall.joint {α : Type} : JointSetupCall α → dJointID
  | .dJointAttach j _ _ => j
  | .dJointSetHingeAnchor j _ _ _ => j
  | .dJointSetHingeAxis j _ _ _ => j
  | .dJointSetHingeParam j _ _ => j

/-- True for the calls that set the anchor or the axis of a hinge. -/
def JointSetupCall.isGeometry {α : Type} : JointSetupCall α → Bool
  | .dJointSetHingeAnchor _ _ _ _ => true
  | .dJointSetHingeAxis _ _ _ _ => true
  | _ => false

/-- The anchor and axis calls of a trace that act on joint `j`, in order. -/
def geometryFor {α : Type} (j : dJointID) (calls : List (JointSetupCall α)) :
    List (JointSetupCall α) :=
  calls.filter (fun c => c.isGeometry && decide (c.joint = j))

/-- The macro `CTRL_DEG2RAD`, `M_PI/180.0`; `pi` is the value of `M_PI`. -/
def CTRL_DEG2RAD {α : Type} [Field α] (pi : α) : α := pi / 180

/-- Embedding of `ICubSim::initTorsoJoints` (iCub.cpp, lines 3523-3578): the engine calls
    it makes, in program order. `pi` is the value of `M_PI`. -/
def initTorsoJoints {α : Type} [Field α] (pi : α) (p : OdeParams α) (s : ICubSim α) :
    List (JointSetupCall α) :=
  let Torsojoints : Nat → dJointID := fun i => ⟨JointArray.Torsojoints, i⟩
  if s.actTorso = "off" then
    [JointSetupCall.dJointAttach (Torsojoints 3) dBodyID.body_torso (dBodyID.torso 4),
     JointSetupCall.dJointSetHingeAnchor (Torsojoints 3) (component (s.jP_torso 2) 1) (s.elev + component (s.jP_torso 2) 2) (component (s.jP_torso 2) 0),
     JointSetupCall.dJointSetHingeAxis (Torsojoints 3) 0 1 0,
     JointSetupCall.dJointSetHingeParam (Torsojoints 3) dStopParam.dParamLoStop (-(27925 / 10000)),
     JointSetupCall.dJointSetHingeParam (Torsojoints 3) dStopParam.dParamHiStop (27925 / 10000),
     JointSetupCall.dJointAttach (Torsojoints 4) dBodyID.body_torso (dBodyID.torso 5),
     JointSetupCall.dJointSetHingeAnchor (Torsojoints 4) (component (s.jP_torso 2) 1) (s.elev + component (s.jP_torso 2) 2) (component (s.jP_torso 2) 0),
     JointSetupCall.dJointSetHingeAxis (Torsojoints 4) 0 1 0,
     JointSetupCall.dJointSetHingeParam (Torsojoints 4) dStopParam.dParamLoStop (-(27925 / 10000)),
     JointSetupCall.dJointSetHingeParam (Torsojoints 4) dStopParam.dParamHiStop (27925 / 10000)]
  else
    let attach : List (JointSetupCall α) :=
      [JointSetupCall.dJointAttach (Torsojoints 0) (dBodyID.torso 0) (dBodyID.torso 1),
       JointSetupCall.dJointAttach (Torsojoints 1) (dBodyID.torso 1) (dBodyID.torso 2),
       JointSetupCall.dJointAttach (Torsojoints 2) (dBodyID.torso 2) (dBodyID.torso 3),
       JointSetupCall.dJointAttach (Torsojoints 3) (dBodyID.torso 3) (dBodyID.torso 4),
       JointSetupCall.dJointAttach (Torsojoints 4) (dBodyID.torso 3) (dBodyID.torso 5)]
    let geometry : List (JointSetupCall α) :=
      (List.range 5).flatMap (fun j =>
        let i := if j > 2 then 2 else j
        [JointSetupCall.dJointSetHingeAnchor (Torsojoints i) (component (s.jP_torso i) 1) (s.elev + component (s.jP_torso i) 2) (component (s.jP_torso i) 0),
         JointSetupCall.dJointSetHingeAxis (Torsojoints i) (component (s.jA_torso i) 0) (component (s.jA_torso i) 1) (component (s.jA_torso i) 2)])
    let safetyMargin : α := 1 / 10 * CTRL_DEG2RAD pi
    let stops : List (JointSetupCall α) :=
      [JointSetupCall.dJointSetHingeParam (Torsojoints 0) dStopParam.dParamLoStop (-70 * CTRL_DEG2RAD pi - safetyMargin),
       JointSetupCall.dJointSetHingeParam (Torsojoints 0) dStopParam.dParamHiStop (10 * CTRL_DEG2RAD pi + safetyMargin),
       JointSetupCall.dJointSetHingeParam (Torsojoints 1) dStopParam.dParamLoStop (-30 * CTRL_DEG2RAD pi - safetyMargin),
       JointSetupCall.dJointSetHingeParam (Torsojoints 2) dStopParam.dParamLoStop (-50 * CTRL_DEG2RAD pi - safetyMargin),
       JointSetupCall.dJointSetHingeParam (Torsojoints 2) dStopParam.dParamHiStop (50 * CTRL_DEG2RAD pi + safetyMargin),
       JointSetupCall.dJointSetHingeParam (Torsojoints 3) dStopParam.dParamLoStop (-safetyMargin),
       JointSetupCall.dJointSetHingeParam (Torsojoints 3) dStopParam.dParamHiStop safetyMargin,
       JointSetupCall.dJointSetHingeParam (Torsojoints 4) dStopParam.dParamLoStop (-safetyMargin),
       JointSetupCall.dJointSetHingeParam (Torsojoints 4) dStopParam.dParamHiStop safetyMargin]
    let params : List (JointSetupCall α) :=
      (List.range 5).flatMap (fun i =>
        [JointSetupCall.dJointSetHingeParam (Torsojoints i) dStopParam.dParamFudgeFactor p.fudgeFactor,
         JointSetupCall.dJointSetHingeParam (Torsojoints i) dStopParam.dParamStopCFM p.stopCFM,
         JointSetupCall.dJointSetHingeParam (Torsojoints i) dStopParam.dParamStopERP p.stopERP,
         JointSetupCall.dJointSetHingeParam (Torsojoints i) dStopParam.dParamCFM p.jointCFM,
         JointSetupCall.dJointSetHingeParam (Torsojoints i) dStopParam.dParamBounce p.jointStopBouncyness])
    attach ++ geometry ++ stops ++ params

/-- A call of `setPosition` into the physics engine. -/
inductive PositionCall (α : Type) where
  | dGeomSetPosition (g : Nat) (x y z : α)
  | dBodySetPosition (b : dBodyID) (x y z : α)

/-- Embedding of `ICubSim::setPosition` (iCub.cpp, lines 1451-1566): the engine calls it
    makes, in program order. The three arguments are not read by the source. `fabs` is the
    absolute value. -/
def setPosition {α : Type} [LinearOrderedField α] (agentX agentY agentZ : α) (s : ICubSim α) :
    List (PositionCall α) :=
    (if s.actScreen = "on" then
      [PositionCall.dGeomSetPosition s.screenGeom (0) (1) ((7 / 10))]
    else
      []) ++
    (if s.actLegs = "off" then
      [PositionCall.dBodySetPosition dBodyID.legs ((component (s.jP_leftLeg 0) 1)) (0) ((component (s.jP_leftLeg 0) 0))]
    else
      [PositionCall.dBodySetPosition (dBodyID.leftLeg 0) ((component (s.jP_leftLeg 0) 1)) (s.elev + (21 / 10000)) ((component (s.jP_leftLeg 0) 0)),
       PositionCall.dBodySetPosition (dBodyID.leftLeg 1) ((component (s.jP_leftLeg 1) 1)) (s.elev + (component (s.jP_leftLeg 1) 2)) ((component (s.jP_leftLeg 1) 0)),
       PositionCall.dBodySetPosition (dBodyID.leftLeg 2) ((component (s.jP_leftLeg 1) 1)) (s.elev + (component (s.jP_leftLeg 1) 2)) ((component (s.jP_leftLeg 1) 0)),
       PositionCall.dBodySetPosition (dBodyID.leftLeg 3) ((component (s.jP_leftLeg 2) 1)) (s.elev + (component (s.jP_leftLeg 2) 2)) ((component (s.jP_leftLeg 2) 0)),
       PositionCall.dBodySetPosition (dBodyID.leftLeg 4) ((component (s.jP_leftLeg 4) 1)) (s.elev + (component (s.jP_leftLeg 4) 2)) ((component (s.jP_leftLeg 4) 0)),
       PositionCall.dBodySetPosition (dBodyID.leftLeg 5) ((59 / 2000)) (s.elev + (component (s.jP_leftLeg 4) 2)) ((component (s.jP_leftLeg 4) 0)),
       PositionCall.dBodySetPosition (dBodyID.rightLeg 0) ((component (s.jP_rightLeg 0) 1)) (s.elev + (21 / 10000)) ((component (s.jP_rightLeg 0) 0)),
       PositionCall.dBodySetPosition (dBodyID.rightLeg 1) ((component (s.jP_rightLeg 1) 1)) (s.elev + (component (s.jP_rightLeg 1) 2)) ((component (s.jP_rightLeg 1) 0)),
       PositionCall.dBodySetPosition (dBodyID.rightLeg 2) ((component (s.jP_rightLeg 1) 1)) (s.elev + (component (s.jP_rightLeg 1) 2)) ((component (s.jP_rightLeg 1) 0)),
       PositionCall.dBodySetPosition (dBodyID.rightLeg 3) ((component (s.jP_rightLeg 2) 1)) (s.elev + (component (s.jP_rightLeg 2) 2)) ((component (s.jP_rightLeg 2) 0)),
       PositionCall.dBodySetPosition (dBodyID.rightLeg 4) ((component (s.jP_rightLeg 4) 1)) (s.elev + (component (s.jP_rightLeg 4) 2)) ((component (s.jP_rightLeg 4) 0)),
       PositionCall.dBodySetPosition (dBodyID.rightLeg 5) (-(59 / 2000)) (s.elev + (component (s.jP_leftLeg 4) 2)) ((component (s.jP_leftLeg 4) 0))]) ++
    (if s.actTorso = "off" then
      [PositionCall.dBodySetPosition dBodyID.body_torso ((component (s.jP_torso 0) 1)) (s.elev + (1 / 2) * abs (((component (s.jP_torso 0) 2) - (31 / 1000)) + ((component (s.jP_leftLeg 5) 2) - (31 / 1000)))) ((component (s.jP_torso 0) 0)),
       PositionCall.dBodySetPosition (dBodyID.torso 4) ((1 / 2) * ((component (s.jP_leftArm 1) 1) + (component (s.jP_torso 2) 1) - (11 / 1000) - (1 / 2) * (59 / 1000) )) (s.elev + (1 / 2) * abs (((component (s.jP_head 0) 2) - (3 / 200)) + ((component (s.jP_torso 2) 2) + (31 / 1000) + (137 / 5000)))) ((component (s.jP_torso 2) 0)),
       PositionCall.dBodySetPosition (dBodyID.torso 5) ((1 / 2) * ((component (s.jP_rightArm 1) 1) + (component (s.jP_torso 2) 1) + (11 / 1000) + (1 / 2) * (59 / 1000))) (s.elev + (1 / 2) * abs (((component (s.jP_head 0) 2) - (3 / 200)) + ((component (s.jP_torso 2) 2) + (31 / 1000) + (137 / 5000)))) ((component (s.jP_torso 2) 0))]
    else
      [PositionCall.dBodySetPosition (dBodyID.torso 0) ((component (s.jP_torso 0) 1)) (s.elev + (1 / 2) * abs (((component (s.jP_torso 0) 2) - (31 / 1000)) + ((component (s.jP_leftLeg 5) 2) - (31 / 1000)))) ((component (s.jP_torso 0) 0)),
       PositionCall.dBodySetPosition (dBodyID.torso 1) ((component (s.jP_torso 0) 1)) (s.elev + (component (s.jP_torso 0) 2)) ((component (s.jP_torso 0) 0)),
       PositionCall.dBodySetPosition (dBodyID.torso 2) ((component (s.jP_torso 1) 1)) (s.elev + (component (s.jP_torso 1) 2)) ((component (s.jP_torso 1) 0)),
       PositionCall.dBodySetPosition (dBodyID.torso 3) ((component (s.jP_torso 2) 1)) (s.elev + (component (s.jP_torso 2) 2) + (31 / 1000) + (137 / 5000) * (1 / 2)) ((component (s.jP_torso 2) 0)),
       PositionCall.dBodySetPosition (dBodyID.torso 4) ((1 / 2) * ((component (s.jP_leftArm 1) 1) + (component (s.jP_torso 2) 1) - (11 / 1000) - (1 / 2) * (59 / 1000) )) (s.elev + (1 / 2) * abs (((component (s.jP_head 0) 2) - (3 / 200)) + ((component (s.jP_torso 2) 2) + (31 / 1000) + (137 / 5000)))) ((component (s.jP_torso 2) 0)),
       PositionCall.dBodySetPosition (dBodyID.torso 5) ((1 / 2) * ((component (s.jP_rightArm 1) 1) + (component (s.jP_torso 2) 1) + (11 / 1000) + (1 / 2) * (59 / 1000))) (s.elev + (1 / 2) * abs (((component (s.jP_head 0) 2) - (3 / 200)) + ((component (s.jP_torso 2) 2) + (31 / 1000) + (137 / 5000)))) ((component (s.jP_torso 2) 0))]) ++
    (if s.actLArm = "off" then
      [PositionCall.dBodySetPosition dBodyID.larm ((component (s.jP_leftArm 1) 1) - (1 / 2) * ((11 / 1000) + (59 / 1000))) (s.elev + (component (s.jP_leftArm 1) 2)) ((component (s.jP_leftArm 1) 0))]
    else
      [PositionCall.dBodySetPosition (dBodyID.body 0) ((component (s.jP_leftArm 1) 1) - (1 / 2) * ((11 / 1000) + (59 / 1000))) (s.elev + (component (s.jP_leftArm 1) 2)) ((component (s.jP_leftArm 1) 0)),
       PositionCall.dBodySetPosition (dBodyID.body 2) ((component (s.jP_leftArm 2) 1)) (s.elev + (component (s.jP_leftArm 2) 2)) ((component (s.jP_leftArm 2) 0)),
       PositionCall.dBodySetPosition (dBodyID.body 4) ((component (s.jP_leftArm 4) 1)) (s.elev + (1 / 2) * ((component (s.jP_leftArm 4) 2) + (component (s.jP_leftArm 2) 2))) ((component (s.jP_leftArm 4) 0)),
       PositionCall.dBodySetPosition (dBodyID.body 6) ((component (s.jP_leftArm 3) 1)) (s.elev + (component (s.jP_leftArm 3) 2)) ((component (s.jP_leftArm 3) 0)),
       PositionCall.dBodySetPosition (dBodyID.body 8) ((component (s.jP_leftArm 5) 1)) (s.elev + (1 / 2) * ((component (s.jP_leftArm 5) 2) + (component (s.jP_leftArm 3) 2))) ((component (s.jP_leftArm 5) 0))]) ++
    (if s.actRArm = "off" then
      [PositionCall.dBodySetPosition dBodyID.rarm ((component (s.jP_rightArm 1) 1) + (1 / 2) * ((11 / 1000) + (59 / 1000))) (s.elev + (component (s.jP_rightArm 1) 2)) ((component (s.jP_rightArm 1) 0))]
    else
      [PositionCall.dBodySetPosition (dBodyID.body 1) ((component (s.jP_rightArm 1) 1) + (1 / 2) * ((11 / 1000) + (59 / 1000))) (s.elev + (component (s.jP_rightArm 1) 2)) ((component (s.jP_rightArm 1) 0)),
       PositionCall.dBodySetPosition (dBodyID.body 3) ((component (s.jP_rightArm 2) 1)) (s.elev + (component (s.jP_rightArm 2) 2)) ((component (s.jP_rightArm 2) 0)),
       PositionCall.dBodySetPosition (dBodyID.body 5) ((component (s.jP_rightArm 4) 1)) (s.elev + (1 / 2) * ((component (s.jP_rightArm 4) 2) + (component (s.jP_rightArm 2) 2))) ((component (s.jP_rightArm 4) 0)),
       PositionCall.dBodySetPosition (dBodyID.body 7) ((component (s.jP_rightArm 3) 1)) (s.elev + (component (s.jP_rightArm 3) 2)) ((component (s.jP_rightArm 3) 0)),
       PositionCall.dBodySetPosition (dBodyID.body 9) ((component (s.jP_rightArm 5) 1)) (s.elev + (1 / 2) * ((component (s.jP_rightArm 5) 2) + (component (s.jP_rightArm 3) 2))) ((component (s.jP_rightArm 5) 0))]) ++
    (if s.actLHand = "off" then
      [PositionCall.dBodySetPosition dBodyID.l_hand ((component (s.jP_leftArm 7) 1)) (s.elev + (component (s.jP_leftArm 6) 2) - (1 / 2) * abs ((component (s.jP_leftArm 7) 2) - (component (s.jP_leftArm 6) 2))) ((component (s.jP_leftArm 7) 0))]
    else
      [PositionCall.dBodySetPosition (dBodyID.body 10) ((component (s.jP_leftArm 7) 1)) (s.elev + (component (s.jP_leftArm 6) 2) - (1 / 2) * abs ((component (s.jP_leftArm 7) 2) - (component (s.jP_leftArm 6) 2))) ((component (s.jP_leftArm 7) 0)),
       PositionCall.dBodySetPosition (dBodyID.body 12) ((component (s.jP_leftArm 7) 1)) (s.elev + (component (s.jP_leftArm 6) 2) - (1 / 2) * abs ((component (s.jP_leftArm 7) 2) - (component (s.jP_leftArm 6) 2)) - (1 / 25)) ((component (s.jP_leftArm 7) 0) + (1 / 40)),
       PositionCall.dBodySetPosition (dBodyID.body 13) ((component (s.jP_leftArm 7) 1)) (s.elev + (component (s.jP_leftArm 6) 2) - (1 / 2) * abs ((component (s.jP_leftArm 7) 2) - (component (s.jP_leftArm 6) 2)) - (1 / 25)) ((component (s.jP_leftArm 7) 0) + (1 / 100)),
       PositionCall.dBodySetPosition dBodyID.lhandfingers0 ((component (s.jP_leftArm 7) 1)) (s.elev + (component (s.jP_leftArm 6) 2) - (1 / 2) * abs ((component (s.jP_leftArm 7) 2) - (component (s.jP_leftArm 6) 2)) - (1 / 25)) ((component (s.jP_leftArm 7) 0) - (129 / 8000)),
       PositionCall.dBodySetPosition (dBodyID.body 16) ((component (s.jP_leftArm 7) 1)) (s.elev + (component (s.jP_leftArm 6) 2) - (1 / 2) * abs ((component (s.jP_leftArm 7) 2) - (component (s.jP_leftArm 6) 2)) - (59 / 1000)) ((component (s.jP_leftArm 7) 0) + (1 / 40)),
       PositionCall.dBodySetPosition (dBodyID.body 17) ((component (s.jP_leftArm 7) 1)) (s.elev + (component (s.jP_leftArm 6) 2) - (1 / 2) * abs ((component (s.jP_leftArm 7) 2) - (component (s.jP_leftArm 6) 2)) - (3 / 50)) ((component (s.jP_leftArm 7) 0) + (1 / 100)),
       PositionCall.dBodySetPosition dBodyID.lhandfingers1 ((component (s.jP_leftArm 7) 1)) (s.elev + (component (s.jP_leftArm 6) 2) - (1 / 2) * abs ((component (s.jP_leftArm 7) 2) - (component (s.jP_leftArm 6) 2)) - (59 / 1000)) ((component (s.jP_leftArm 7) 0) - (129 / 8000)),
       PositionCall.dBodySetPosition (dBodyID.body 20) ((component (s.jP_leftArm 7) 1)) (s.elev + (component (s.jP_leftArm 6) 2) - (1 / 2) * abs ((component (s.jP_leftArm 7) 2) - (component (s.jP_leftArm 6) 2)) - (83 / 1000)) ((component (s.jP_leftArm 7) 0) + (1 / 40)),
       PositionCall.dBodySetPosition (dBodyID.body 21) ((component (s.jP_leftArm 7) 1)) (s.elev + (component (s.jP_leftArm 6) 2) - (1 / 2) * abs ((component (s.jP_leftArm 7) 2) - (component (s.jP_leftArm 6) 2)) - (43 / 500)) ((component (s.jP_leftArm 7) 0) + (1 / 100)),
       PositionCall.dBodySetPosition dBodyID.lhandfingers2 ((component (s.jP_leftArm 7) 1)) (s.elev + (component (s.jP_leftArm 6) 2) - (1 / 2) * abs ((component (s.jP_leftArm 7) 2) - (component (s.jP_leftArm 6) 2)) - (83 / 1000)) ((component (s.jP_leftArm 7) 0) - (129 / 8000)),
       PositionCall.dBodySetPosition (dBodyID.body 24) ((component (s.jP_leftArm 7) 1)) (s.elev + (component (s.jP_leftArm 6) 2) - (1 / 2) * abs ((component (s.jP_leftArm 7) 2) - (component (s.jP_leftArm 6) 2)) - (13 / 125)) ((component (s.jP_leftArm 7) 0) + (1 / 40)),
       PositionCall.dBodySetPosition (dBodyID.body 25) ((component (s.jP_leftArm 7) 1)) (s.elev + (component (s.jP_leftArm 6) 2) - (1 / 2) * abs ((component (s.jP_leftArm 7) 2) - (component (s.jP_leftArm 6) 2)) - (27 / 250)) ((component (s.jP_leftArm 7) 0) + (1 / 100)),
       PositionCall.dBodySetPosition dBodyID.lhandfingers3 ((component (s.jP_leftArm 7) 1)) (s.elev + (component (s.jP_leftArm 6) 2) - (1 / 2) * abs ((component (s.jP_leftArm 7) 2) - (component (s.jP_leftArm 6) 2)) - (13 / 125)) ((component (s.jP_leftArm 7) 0) - (129 / 8000)),
       PositionCall.dBodySetPosition (dBodyID.body 28) ((component (s.jP_leftArm 7) 1)) (s.elev + (component (s.jP_leftArm 6) 2) - (9 / 200)) ((component (s.jP_leftArm 7) 0) + (9 / 200)),
       PositionCall.dBodySetPosition (dBodyID.body 29) ((component (s.jP_leftArm 7) 1)) (s.elev + (component (s.jP_leftArm 6) 2) - (9 / 200)) ((component (s.jP_leftArm 7) 0) + (69 / 1000)),
       PositionCall.dBodySetPosition (dBodyID.body 30) ((component (s.jP_leftArm 7) 1)) (s.elev + (component (s.jP_leftArm 6) 2) - (9 / 200)) ((component (s.jP_leftArm 7) 0) + (11 / 125))]) ++
    (if s.actRHand = "off" then
      [PositionCall.dBodySetPosition dBodyID.r_hand ((component (s.jP_rightArm 7) 1)) (s.elev + (component (s.jP_rightArm 6) 2) - (1 / 2) * abs ((component (s.jP_rightArm 7) 2) - (component (s.jP_rightArm 6) 2))) ((component (s.jP_rightArm 7) 0))]
    else
      [PositionCall.dBodySetPosition (dBodyID.body 11) ((component (s.jP_rightArm 7) 1)) (s.elev + (component (s.jP_rightArm 6) 2) - (1 / 2) * abs ((component (s.jP_rightArm 7) 2) - (component (s.jP_rightArm 6) 2))) ((component (s.jP_rightArm 7) 0)),
       PositionCall.dBodySetPosition (dBodyID.body 31) ((component (s.jP_rightArm 7) 1)) (s.elev + (component (s.jP_rightArm 6) 2) - (1 / 2) * abs ((component (s.jP_rightArm 7) 2) - (component (s.jP_rightArm 6) 2)) - (1 / 25)) ((component (s.jP_rightArm 7) 0) + (1 / 40)),
       PositionCall.dBodySetPosition (dBodyID.body 32) ((component (s.jP_rightArm 7) 1)) (s.elev + (component (s.jP_rightArm 6) 2) - (1 / 2) * abs ((component (s.jP_rightArm 7) 2) - (component (s.jP_rightArm 6) 2)) - (1 / 25)) ((component (s.jP_rightArm 7) 0) + (1 / 100)),
       PositionCall.dBodySetPosition dBodyID.rhandfingers0 ((component (s.jP_rightArm 7) 1)) (s.elev + (component (s.jP_rightArm 6) 2) - (1 / 2) * abs ((component (s.jP_rightArm 7) 2) - (component (s.jP_rightArm 6) 2)) - (1 / 25)) ((component (s.jP_rightArm 7) 0) - (129 / 8000)),
       PositionCall.dBodySetPosition (dBodyID.body 35) ((component (s.jP_rightArm 7) 1)) (s.elev + (component (s.jP_rightArm 6) 2) - (1 / 2) * abs ((component (s.jP_rightArm 7) 2) - (component (s.jP_rightArm 6) 2)) - (59 / 1000)) ((component (s.jP_rightArm 7) 0) + (1 / 40)),
       PositionCall.dBodySetPosition (dBodyID.body 36) ((component (s.jP_rightArm 7) 1)) (s.elev + (component (s.jP_rightArm 6) 2) - (1 / 2) * abs ((component (s.jP_rightArm 7) 2) - (component (s.jP_rightArm 6) 2)) - (3 / 50)) ((component (s.jP_rightArm 7) 0) + (1 / 100)),
       PositionCall.dBodySetPosition dBodyID.rhandfingers1 ((component (s.jP_rightArm 7) 1)) (s.elev + (component (s.jP_rightArm 6) 2) - (1 / 2) * abs ((component (s.jP_rightArm 7) 2) - (component (s.jP_rightArm 6) 2)) - (59 / 1000)) ((component (s.jP_rightArm 7) 0) - (129 / 8000)),
       PositionCall.dBodySetPosition (dBodyID.body 39) ((component (s.jP_rightArm 7) 1)) (s.elev + (component (s.jP_rightArm 6) 2) - (1 / 2) * abs ((component (s.jP_rightArm 7) 2) - (component (s.jP_rightArm 6) 2)) - (83 / 1000)) ((component (s.jP_rightArm 7) 0) + (1 / 40)),
       PositionCall.dBodySetPosition (dBodyID.body 40) ((component (s.jP_rightArm 7) 1)) (s.elev + (component (s.jP_rightArm 6) 2) - (1 / 2) * abs ((component (s.jP_rightArm 7) 2) - (component (s.jP_rightArm 6) 2)) - (43 / 500)) ((component (s.jP_rightArm 7) 0) + (1 / 100)),
       PositionCall.dBodySetPosition dBodyID.rhandfingers2 ((component (s.jP_rightArm 7) 1)) (s.elev + (component (s.jP_rightArm 6) 2) - (1 / 2) * abs ((component (s.jP_rightArm 7) 2) - (component (s.jP_rightArm 6) 2)) - (83 / 1000)) ((component (s.jP_rightArm 7) 0) - (129 / 8000)),
       PositionCall.dBodySetPosition (dBodyID.body 43) ((component (s.jP_rightArm 7) 1)) (s.elev + (component (s.jP_rightArm 6) 2) - (1 / 2) * abs ((component (s.jP_rightArm 7) 2) - (component (s.jP_rightArm 6) 2)) - (13 / 125)) ((component (s.jP_rightArm 7) 0) + (1 / 40)),
       PositionCall.dBodySetPosition (dBodyID.body 44) ((component (s.jP_rightArm 7) 1)) (s.elev + (component (s.jP_rightArm 6) 2) - (1 / 2) * abs ((component (s.jP_rightArm 7) 2) - (component (s.jP_rightArm 6) 2)) - (27 / 250)) ((component (s.jP_rightArm 7) 0) + (1 / 100)),
       PositionCall.dBodySetPosition dBodyID.rhandfingers3 ((component (s.jP_rightArm 7) 1)) (s.elev + (component (s.jP_rightArm 6) 2) - (1 / 2) * abs ((component (s.jP_rightArm 7) 2) - (component (s.jP_rightArm 6) 2)) - (13 / 125)) ((component (s.jP_rightArm 7) 0) - (129 / 8000)),
       PositionCall.dBodySetPosition (dBodyID.body 47) ((component (s.jP_rightArm 7) 1)) (s.elev + (component (s.jP_rightArm 6) 2) - (9 / 200)) ((component (s.jP_rightArm 7) 0) + (9 / 200)),
       PositionCall.dBodySetPosition (dBodyID.body 48) ((component (s.jP_rightArm 7) 1)) (s.elev + (component (s.jP_rightArm 6) 2) - (9 / 200)) ((component (s.jP_rightArm 7) 0) + (69 / 1000)),
       PositionCall.dBodySetPosition (dBodyID.body 49) ((component (s.jP_rightArm 7) 1)) (s.elev + (component (s.jP_rightArm 6) 2) - (9 / 200)) ((component (s.jP_leftArm 7) 0) + (11 / 125))]) ++
    (if s.actHead = "off" then
      [PositionCall.dBodySetPosition dBodyID.head ((component (s.jP_head 0) 1)) (s.elev + (component (s.jP_head 2) 2) + (3 / 100)) ((component (s.jP_head 0) 0))]
    else
      [PositionCall.dBodySetPosition (dBodyID.neck 0) ((component (s.jP_head 0) 1)) (s.elev + (component (s.jP_head 0) 2)) ((component (s.jP_head 0) 0)),
       PositionCall.dBodySetPosition (dBodyID.neck 1) ((component (s.jP_head 1) 1)) (s.elev + (component (s.jP_head 1) 2)) ((component (s.jP_head 1) 0)),
       PositionCall.dBodySetPosition dBodyID.head ((component (s.jP_head 2) 1)) (s.elev + (component (s.jP_head 2) 2) + (3 / 100)) ((component (s.jP_head 2) 0)),
       PositionCall.dBodySetPosition dBodyID.eye ((component (s.jP_head 3) 1)) (s.elev + (component (s.jP_head 3) 2)) ((component (s.jP_head 3) 0)),
       PositionCall.dBodySetPosition dBodyID.leye ((component (s.jP_leftEye 1) 1)) (s.elev + (component (s.jP_leftEye 1) 2)) ((component (s.jP_leftEye 1) 0)),
       PositionCall.dBodySetPosition dBodyID.reye ((component (s.jP_rightEye 1) 1)) (s.elev + (component (s.jP_rightEye 1) 2)) ((component (s.jP_rightEye 1) 0))]) ++
    [PositionCall.dBodySetPosition dBodyID.topEyeLid (0) (s.elev + (component (s.jP_head 3) 2)) ((7 / 200)),
     PositionCall.dBodySetPosition dBodyID.bottomEyeLid (0) (s.elev + (component (s.jP_head 3) 2)) ((7 / 200)),
     PositionCall.dBodySetPosition dBodyID.inertialBody ((component s.jP_inertial 1)) (s.elev + (component s.jP_inertial 2)) ((component s.jP_inertial 0))]

/-- The position that a trace of `setPosition` assigns to body `b`: the arguments of the
    first `dBodySetPosition(b, ...)` call, if there is one. -/
def positionOf {α : Type} (b : dBodyID) : List (PositionCall α) → Option (α × α × α)
  | [] => none
  | PositionCall.dBodySetPosition b' x y z :: rest =>
      if b' = b then some (x, y, z) else positionOf b rest
  | PositionCall.dGeomSetPosition _ _ _ _ :: rest => positionOf b rest

/-- The right-side bodies that `setPosition` places: the right leg, the right arm and the
    right hand, and the bodies `rarm` and `r_hand` that stand for an arm or hand that is
    off. -/
def rightSideBodies : List dBodyID :=
  [dBodyID.rightLeg 0, dBodyID.rightLeg 1, dBodyID.rightLeg 2, dBodyID.rightLeg 3,
   dBodyID.rightLeg 4, dBodyID.rightLeg 5,
   dBodyID.body 1, dBodyID.body 3, dBodyID.body 5, dBodyID.body 7, dBodyID.body 9,
   dBodyID.body 11, dBodyID.body 31, dBodyID.body 32, dBodyID.rhandfingers0,
   dBodyID.body 35, dBodyID.body 36, dBodyID.rhandfingers1, dBodyID.body 39,
   dBodyID.body 40, dBodyID.rhandfingers2, dBodyID.body 43, dBodyID.body 44,
   dBodyID.rhandfingers3, dBodyID.body 47, dBodyID.body 48, dBodyID.body 49,
   dBodyID.rarm, dBodyID.r_hand]

/-- A robot with every leg and arm anchor set to `(1, 2, 3)`; none of its configuration
    strings is "off", so every body part is placed. -/
def positionSample : ICubSim ℚ :=
  { blankICubSim with jP_leftLeg := fun _ => [1, 2, 3], jP_rightLeg := fun _ => [1, 2, 3], jP_leftArm := fun _ => [1, 2, 3], jP_rightArm := fun _ => [1, 2, 3] }

/-! ## Theorems -/

set_option maxRecDepth 100000

/-- C1: for every contact force vector, `getTouchSensorValue` returns the Euclidean norm of
    the force, clamped to the maximum sensed force of 100, divided by 100. -/
theorem getTouchSensorValue_eq_clamped_norm {α : Type} [LinearOrderedField α]
    (sqrt : α → α) (fb : dJointFeedback α) :
    getTouchSensorValue sqrt fb
      = min (sqrt (fb.f1 0 ^ 2 + fb.f1 1 ^ 2 + fb.f1 2 ^ 2)) 100 / 100 := by
  simp only [getTouchSensorValue, TOUCH_SENSOR_MAX_FORCE, pow_two]
  congr 1
  split_ifs with h
  · exact (min_eq_right (le_of_lt h)).symm
  · exact (min_eq_left (not_lt.mp h)).symm

/-! ### Auxiliary facts about the dispatch loops -/

theorem filter_range_eq (n k : Nat) :
    (List.range n).filter (fun x => decide (x = k)) = if k < n then [k] else [] := by
  induction n with
  | zero => simp
  | succ n ih =>
    rw [List.range_succ, List.filter_append, ih]
    by_cases h1 : k < n
    · have h2 : ¬ n = k := by omega
      have h3 : k < n + 1 := by omega
      simp [h1, h2, h3]
    · by_cases h2 : n = k
      · subst h2
        simp
      · have h3 : ¬ k < n + 1 := by omega
        simp [h1, h2, h3]

theorem joint_dispatch_elem {α : Type} (T : Int) (cm : Nat → Int) (J : JointArray)
    (Tq S : Nat → α) (x : Nat) :
    (if cm x = T then OdeCall.dJointAddHingeTorque ⟨J, x⟩ (Tq x)
      else OdeCall.dJointSetHingeParam ⟨J, x⟩ dParam.dParamVel (S x)).joint = ⟨J, x⟩ := by
  split_ifs <;> rfl

theorem callsFor_append {α : Type} (j : dJointID) (l₁ l₂ : List (OdeCall α)) :
    callsFor j (l₁ ++ l₂) = callsFor j l₁ ++ callsFor j l₂ := by
  simp [callsFor]

theorem callsFor_dispatchLoop {α : Type} (T : Int) (cm : Nat → Int) (n : Nat)
    (J : JointArray) (Tq S : Nat → α) (j : dJointID) :
    callsFor j (dispatchLoop T cm n J Tq S)
      = if j.arr = J ∧ j.idx < n then
          [if cm j.idx = T then OdeCall.dJointAddHingeTorque ⟨J, j.idx⟩ (Tq j.idx)
           else OdeCall.dJointSetHingeParam ⟨J, j.idx⟩ dParam.dParamVel (S j.idx)]
        else [] := by
  obtain ⟨a, k⟩ := j
  simp only [callsFor, dispatchLoop, List.filter_map]
  by_cases ha : a = J
  · subst ha
    have hf : ((fun c : OdeCall α => decide (c.joint = (⟨a, k⟩ : dJointID))) ∘ fun x =>
          if cm x = T then OdeCall.dJointAddHingeTorque ⟨a, x⟩ (Tq x)
          else OdeCall.dJointSetHingeParam ⟨a, x⟩ dParam.dParamVel (S x))
        = fun x => decide (x = k) := by
      funext x
      simp [joint_dispatch_elem]
    rw [hf, filter_range_eq]
    by_cases hk : k < n <;> simp [hk]
  · have hf : ((fun c : OdeCall α => decide (c.joint = (⟨a, k⟩ : dJointID))) ∘ fun x =>
          if cm x = T then OdeCall.dJointAddHingeTorque ⟨J, x⟩ (Tq x)
          else OdeCall.dJointSetHingeParam ⟨J, x⟩ dParam.dParamVel (S x))
        = fun _ => false := by
      funext x
      simp only [Function.comp, joint_dispatch_elem, dJointID.mk.injEq]
      simp [Ne.symm ha]
    rw [hf]
    simp [ha]

theorem mem_dispatchLoop_torque {α : Type} (T : Int) (cm : Nat → Int) (n : Nat)
    (J : JointArray) (Tq S : Nat → α) (j : dJointID) (t : α)
    (h : OdeCall.dJointAddHingeTorque j t ∈ dispatchLoop T cm n J Tq S) :
    j.arr = J ∧ j.idx < n ∧ cm j.idx = T := by
  simp only [dispatchLoop, List.mem_map, List.mem_range] at h
  obtain ⟨x, hx, he⟩ := h
  split_ifs at he with hc
  · simp only [OdeCall.dJointAddHingeTorque.injEq] at he
    obtain ⟨hj, -⟩ := he
    subst hj
    exact ⟨rfl, hx, hc⟩

theorem handCalls_spec {α : Type} (c : JointCommands α) (call : OdeCall α)
    (h : call ∈ handCalls c) :
    call.isTorque = false ∧ 5 ≤ call.joint.idx ∧
      (call.joint.arr = JointArray.LAjoints ∨ call.joint.arr = JointArray.RAjoints) := by
  simp only [handCalls, universalLoop, fingerLoop, List.mem_append, List.mem_flatMap,
    List.mem_range'_1] at h
  rcases h with (⟨x, hx, hm⟩ | ⟨x, hx, hm⟩) | ⟨x, hx, hm⟩
  · simp only [List.mem_cons, List.mem_singleton, List.not_mem_nil, or_false] at hm
    rcases hm with rfl | rfl | rfl | rfl <;> simp [OdeCall.isTorque, OdeCall.joint] <;> omega
  · split_ifs at hm
    · simp only [List.mem_cons, List.mem_singleton, List.not_mem_nil, or_false] at hm
      rcases hm with rfl | rfl <;> simp [OdeCall.isTorque, OdeCall.joint] <;> omega
    · simp at hm
  · simp only [List.mem_cons, List.mem_singleton, List.not_mem_nil, or_false] at hm
    rcases hm with rfl | rfl | rfl | rfl <;> simp [OdeCall.isTorque, OdeCall.joint] <;> omega

theorem callsFor_handCalls {α : Type} (c : JointCommands α) (j : dJointID)
    (h : j.idx < 5 ∨ (j.arr ≠ JointArray.LAjoints ∧ j.arr ≠ JointArray.RAjoints)) :
    callsFor j (handCalls c) = [] := by
  simp only [callsFor, List.filter_eq_nil_iff, decide_eq_true_eq]
  intro call hc heq
  obtain ⟨-, h5, ha⟩ := handCalls_spec c call hc
  rw [heq] at h5 ha
  rcases h with h | ⟨h1, h2⟩
  · omega
  · rcases ha with ha | ha
    · exact h1 ha
    · exact h2 ha

/-- C2: for a region with no entry in the external control table, every mode-dispatched
    joint of the region receives exactly the set-target-velocity call carrying its pending
    velocity, and no joint of the region ever receives an add-torque call, whatever the
    pending torques are; this needs the byte-filled default mode to differ from the
    TORQUE code. -/
theorem setJointControlAction_no_table_velocity {α : Type} (VOCAB_CM_VELOCITY VOCAB_CM_TORQUE : Int)
    (controls : Nat → Option (List Int)) (c : JointCommands α) (r : BodyRegion)
    (hne : memsetInt VOCAB_CM_VELOCITY ≠ VOCAB_CM_TORQUE)
    (hnone : controls r.bodyPart = none) :
    (∀ x, x < r.dispatched →
      callsFor ⟨r.joints, x⟩ (setJointControlAction VOCAB_CM_VELOCITY VOCAB_CM_TORQUE controls c)
        = [OdeCall.dJointSetHingeParam ⟨r.joints, x⟩ dParam.dParamVel (r.speed c x)]) ∧
    (∀ x t, OdeCall.dJointAddHingeTorque ⟨r.joints, x⟩ t
        ∉ setJointControlAction VOCAB_CM_VELOCITY VOCAB_CM_TORQUE controls c) := by
  constructor
  · intro x hx
    cases r <;>
      simp only [BodyRegion.bodyPart, BodyRegion.dispatched, BodyRegion.joints,
        BodyRegion.speed] at hnone hx ⊢ <;>
      simp only [setJointControlAction, callsFor_append, callsFor_dispatchLoop, hnone] <;>
      rw [callsFor_handCalls c _ (by simp; try omega)] <;>
      simp [hx, hne]
  · intro x t hmem
    cases r <;>
      simp only [BodyRegion.bodyPart, BodyRegion.joints] at hnone hmem <;>
      simp only [setJointControlAction, List.mem_append, hnone] at hmem <;>
      rcases hmem with (((((h | h) | h) | h) | h) | h) | h <;>
      first
        | (have h3 := (handCalls_spec c _ h).1
           simp [OdeCall.isTorque] at h3)
        | (have h3 := mem_dispatchLoop_torque _ _ _ _ _ _ _ _ h
           simp at h3
           try exact hne h3.2)

/-- Witness for C2: with the middleware's vocab codes, no control table at all and a
    non-zero pending torque on every joint, the torso joints get velocity calls only. -/
theorem setJointControlAction_no_table_velocity_witness :
    memsetInt yarp_VOCAB_CM_VELOCITY ≠ yarp_VOCAB_CM_TORQUE ∧
    (fun _ => none : Nat → Option (List Int)) BodyRegion.torso.bodyPart = none ∧
    ((∀ x, x < BodyRegion.torso.dispatched →
      callsFor ⟨BodyRegion.torso.joints, x⟩
          (setJointControlAction yarp_VOCAB_CM_VELOCITY yarp_VOCAB_CM_TORQUE
            (fun _ => none) sampleCommands)
        = [OdeCall.dJointSetHingeParam ⟨BodyRegion.torso.joints, x⟩ dParam.dParamVel
            (BodyRegion.torso.speed sampleCommands x)]) ∧
    (∀ x t, OdeCall.dJointAddHingeTorque ⟨BodyRegion.torso.joints, x⟩ t
        ∉ setJointControlAction yarp_VOCAB_CM_VELOCITY yarp_VOCAB_CM_TORQUE
            (fun _ => none) sampleCommands)) :=
  ⟨by decide, rfl,
    setJointControlAction_no_table_velocity yarp_VOCAB_CM_VELOCITY yarp_VOCAB_CM_TORQUE
      (fun _ => none) sampleCommands BodyRegion.torso (by decide) rfl⟩

theorem getControlModesRaw_of_get (t : List Int) (cm : Nat → Int) (x : Nat) (m : Int)
    (h : t[x]? = some m) : getControlModesRaw t cm x = m := by
  obtain ⟨hx, hm⟩ := List.getElem?_eq_some_iff.mp h
  simp only [getControlModesRaw, hx, dite_true, List.get_eq_getElem]
  exact hm

/-- C3: for a region whose control table is present and a mode-dispatched joint `x` of
    it, the step makes exactly one engine call for `x`, either the add-torque call with
    the pending torque or the set-velocity call with the pending velocity; when the
    table's mode for `x` is TORQUE it is the add-torque call, and for any other mode it
    is the set-velocity call. -/
theorem setJointControlAction_table_mode {α : Type} (VOCAB_CM_VELOCITY VOCAB_CM_TORQUE : Int)
    (controls : Nat → Option (List Int)) (c : JointCommands α) (r : BodyRegion)
    (t : List Int) (x : Nat)
    (ht : controls r.bodyPart = some t) (hx : x < r.dispatched) :
    (∃ call, callsFor ⟨r.joints, x⟩
          (setJointControlAction VOCAB_CM_VELOCITY VOCAB_CM_TORQUE controls c) = [call] ∧
        (call = OdeCall.dJointAddHingeTorque ⟨r.joints, x⟩ (r.torques c x) ∨
         call = OdeCall.dJointSetHingeParam ⟨r.joints, x⟩ dParam.dParamVel (r.speed c x))) ∧
    (∀ m, t[x]? = some m →
      callsFor ⟨r.joints, x⟩ (setJointControlAction VOCAB_CM_VELOCITY VOCAB_CM_TORQUE controls c)
        = [if m = VOCAB_CM_TORQUE then
              OdeCall.dJointAddHingeTorque ⟨r.joints, x⟩ (r.torques c x)
           else OdeCall.dJointSetHingeParam ⟨r.joints, x⟩ dParam.dParamVel (r.speed c x)]) := by
  constructor
  · cases r <;>
      simp only [BodyRegion.bodyPart, BodyRegion.dispatched, BodyRegion.joints,
        BodyRegion.speed, BodyRegion.torques] at ht hx ⊢ <;>
      simp only [setJointControlAction, callsFor_append, callsFor_dispatchLoop, ht] <;>
      rw [callsFor_handCalls c _ (by simp; try omega)] <;>
      simp [hx] <;>
      exact em _
  · intro m hm
    cases r <;>
      simp only [BodyRegion.bodyPart, BodyRegion.dispatched, BodyRegion.joints,
        BodyRegion.speed, BodyRegion.torques] at ht hx ⊢ <;>
      simp only [setJointControlAction, callsFor_append, callsFor_dispatchLoop, ht] <;>
      rw [callsFor_handCalls c _ (by simp; try omega)] <;>
      simp [hx, getControlModesRaw_of_get _ _ _ _ hm]

/-- Witness for C3: with a torso table reporting TORQUE for joint 0, the one call for
    torso joint 0 is the add-torque call with its pending torque. -/
theorem setJointControlAction_table_mode_witness :
    sampleControls BodyRegion.torso.bodyPart
        = some [yarp_VOCAB_CM_TORQUE, yarp_VOCAB_CM_VELOCITY, yarp_VOCAB_CM_VELOCITY,
            yarp_VOCAB_CM_VELOCITY, yarp_VOCAB_CM_VELOCITY] ∧
    0 < BodyRegion.torso.dispatched ∧
    callsFor ⟨BodyRegion.torso.joints, 0⟩
        (setJointControlAction yarp_VOCAB_CM_VELOCITY yarp_VOCAB_CM_TORQUE
          sampleControls sampleCommands)
      = [OdeCall.dJointAddHingeTorque ⟨JointArray.Torsojoints, 0⟩ 2] :=
  ⟨rfl, by decide,
    by
      have h := (setJointControlAction_table_mode yarp_VOCAB_CM_VELOCITY yarp_VOCAB_CM_TORQUE
        sampleControls sampleCommands BodyRegion.torso _ 0 rfl (by decide)).2
          yarp_VOCAB_CM_TORQUE rfl
      simpa [BodyRegion.joints, BodyRegion.torques, BodyRegion.speed, sampleCommands] using h⟩

/-! ### Joint calibration: auxiliary facts -/

theorem resize3_set {α : Type} [Zero α] (v : List α) (x y z : α) :
    (((resize v 3).set 0 x).set 1 y).set 2 z = [x, y, z] := by
  rcases v with _ | ⟨a, _ | ⟨b, _ | ⟨c, v⟩⟩⟩ <;> simp [resize, List.replicate]

theorem list_length_six {β : Type} (l : List β) (h : l.length = 6) :
    ∃ a b c d e f, l = [a, b, c, d, e, f] := by
  rcases l with _ | ⟨a, _ | ⟨b, _ | ⟨c, _ | ⟨d, _ | ⟨e, _ | ⟨f, _ | ⟨g, l⟩⟩⟩⟩⟩⟩⟩ <;>
    simp at h
  exact ⟨a, b, c, d, e, f, rfl⟩

theorem foldlM_option_preserves {σ β γ : Type} (f : σ → β → Option σ) (g : σ → γ)
    (hf : ∀ s b s', f s b = some s' → g s' = g s) :
    ∀ (l : List β) (s s' : σ), l.foldlM f s = some s' → g s' = g s := by
  intro l
  induction l with
  | nil =>
    intro s s' h
    simp only [List.foldlM, pure, Option.some.injEq] at h
    rw [h]
  | cons b l ih =>
    intro s s' h
    simp only [List.foldlM, bind, Option.bind_eq_some] at h
    obtain ⟨s1, h1, h2⟩ := h
    rw [ih s1 s' h2, hf s b s1 h1]

/-- The two leg tables after the `legs` section, for groups of six points each. -/
theorem loadJointPosition_legs_points {α : Type} [Zero α] (k1 k2 : String) (s : ICubSim α)
    (p0 p1 p2 p3 p4 p5 q0 q1 q2 q3 q4 q5 : α × α × α) :
    ∃ s1, loadJointPosition_legs
        (Value.string k1 :: [p0, p1, p2, p3, p4, p5].map Value.point)
        (Value.string k2 :: [q0, q1, q2, q3, q4, q5].map Value.point) s = some s1 ∧
      (∀ i p, [p0, p1, p2, p3, p4, p5][i]? = some p →
        s1.jP_leftLeg (5 - i) = [p.1, p.2.1, p.2.2]) ∧
      (∀ i q, [q0, q1, q2, q3, q4, q5][i]? = some q →
        s1.jP_rightLeg (5 - i) = [q.1, q.2.1, q.2.2]) := by
  refine ⟨_, rfl, ?_, ?_⟩
  · intro i p hp
    rcases i with _ | _ | _ | _ | _ | _ | i <;>
      simp only [List.getElem?_cons_zero, List.getElem?_cons_succ, List.getElem?_nil,
        Option.some.injEq, reduceCtorEq] at hp <;>
      subst hp <;>
      exact resize3_set _ _ _ _
  · intro i q hq
    rcases i with _ | _ | _ | _ | _ | _ | i <;>
      simp only [List.getElem?_cons_zero, List.getElem?_cons_succ, List.getElem?_nil,
        Option.some.injEq, reduceCtorEq] at hq <;>
      subst hq <;>
      exact resize3_set _ _ _ _

/-- The sections that follow the `legs` section leave both leg tables alone. -/
theorem loadJointPosition_head_legs {α : Type} [Zero α] (bHead : Bottle α) (s s' : ICubSim α)
    (h : loadJointPosition_head bHead s = some s') :
    (s'.jP_leftLeg, s'.jP_rightLeg) = (s.jP_leftLeg, s.jP_rightLeg) := by
  refine foldlM_option_preserves _ (fun t : ICubSim α => (t.jP_leftLeg, t.jP_rightLeg)) ?_ _ s s' h
  intro t i t' ht
  simp only [bind, Option.bind_eq_some, pure, Option.some.injEq] at ht
  obtain ⟨hj, -, rfl⟩ := ht
  rfl

theorem loadJointPosition_eyes_legs {α : Type} [Zero α] (bL bR : Bottle α) (s s' : ICubSim α)
    (h : loadJointPosition_eyes bL bR s = some s') :
    (s'.jP_leftLeg, s'.jP_rightLeg) = (s.jP_leftLeg, s.jP_rightLeg) := by
  refine foldlM_option_preserves _ (fun t : ICubSim α => (t.jP_leftLeg, t.jP_rightLeg)) ?_ _ s s' h
  intro t i t' ht
  simp only [bind, Option.bind_eq_some, pure, Option.some.injEq] at ht
  obtain ⟨hl, -, hr, -, rfl⟩ := ht
  rfl

theorem loadJointPosition_inertial_legs {α : Type} [Zero α] (b : Bottle α) (s s' : ICubSim α)
    (h : loadJointPosition_inertial b s = some s') :
    (s'.jP_leftLeg, s'.jP_rightLeg) = (s.jP_leftLeg, s.jP_rightLeg) := by
  simp only [loadJointPosition_inertial, bind, Option.bind_eq_some, pure,
    Option.some.injEq] at h
  obtain ⟨hj, -, rfl⟩ := h
  rfl

theorem foldl_preserves {σ β γ : Type} (f : σ → β → σ) (g : σ → γ)
    (hf : ∀ s b, g (f s b) = g s) : ∀ (l : List β) (s : σ), g (l.foldl f s) = g s := by
  intro l
  induction l with
  | nil => intro s; rfl
  | cons b l ih => intro s; rw [List.foldl_cons, ih, hf]

theorem loadJointPosition_torso_legs {α : Type} [Ring α] (s : ICubSim α) :
    ((loadJointPosition_torso s).jP_leftLeg, (loadJointPosition_torso s).jP_rightLeg)
      = (s.jP_leftLeg, s.jP_rightLeg) := by
  refine foldl_preserves _ (fun t : ICubSim α => (t.jP_leftLeg, t.jP_rightLeg)) ?_ _ s
  intro t i
  dsimp only
  split_ifs <;> rfl

theorem loadJointPosition_arms_legs {α : Type} [Ring α] (s : ICubSim α) :
    ((loadJointPosition_arms s).jP_leftLeg, (loadJointPosition_arms s).jP_rightLeg)
      = (s.jP_leftLeg, s.jP_rightLeg) := by
  refine foldl_preserves _ (fun t : ICubSim α => (t.jP_leftLeg, t.jP_rightLeg)) ?_ _ s
  intro t i
  dsimp only
  split_ifs <;> rfl

theorem loadJointPosition_head_points {α : Type} [Zero α] (k : String) (s : ICubSim α)
    (h0 h1 h2 h3 : α × α × α) :
    ∃ s', loadJointPosition_head (Value.string k :: [h0, h1, h2, h3].map Value.point) s
      = some s' :=
  ⟨_, rfl⟩

theorem loadJointPosition_eyes_points {α : Type} [Zero α] (k1 k2 : String) (s : ICubSim α)
    (l0 l1 r0 r1 : α × α × α) :
    ∃ s', loadJointPosition_eyes (Value.string k1 :: [l0, l1].map Value.point)
      (Value.string k2 :: [r0, r1].map Value.point) s = some s' :=
  ⟨_, rfl⟩

theorem loadJointPosition_inertial_points {α : Type} [Zero α] (k : String) (s : ICubSim α)
    (n0 : α × α × α) :
    ∃ s', loadJointPosition_inertial (Value.string k :: [n0].map Value.point) s = some s' :=
  ⟨_, rfl⟩

/-- C4: when the `left_leg` and `right_leg` groups of the calibration document each list
    six 3-D points in file order, the anchors stored by `loadJointPosition` are reversed:
    `jP_leftLeg[5-i]` is the `i`-th left point and `jP_rightLeg[5-i]` the `i`-th right
    point, component by component. The load does return (with `true`) once the head, eye
    and inertial groups hold their points too. -/
theorem loadJointPosition_legs_reversed {α : Type} [Ring α] (bJoints : Bottle α)
    (s : ICubSim α) (PL PR : List (α × α × α))
    (hl : PL.length = 6) (hr : PR.length = 6)
    (hL : Bottle.findGroup bJoints "left_leg" = Value.string "left_leg" :: PL.map Value.point)
    (hR : Bottle.findGroup bJoints "right_leg"
            = Value.string "right_leg" :: PR.map Value.point) :
    (∀ ok s', loadJointPosition (some bJoints) s = some (ok, s') →
      ∀ i p q, PL[i]? = some p → PR[i]? = some q →
        s'.jP_leftLeg (5 - i) = [p.1, p.2.1, p.2.2] ∧
        s'.jP_rightLeg (5 - i) = [q.1, q.2.1, q.2.2]) ∧
    (∀ h0 h1 h2 h3 l0 l1 r0 r1 n0 : α × α × α,
      Bottle.findGroup bJoints "head"
          = Value.string "head" :: [h0, h1, h2, h3].map Value.point →
      Bottle.findGroup bJoints "left_eye"
          = Value.string "left_eye" :: [l0, l1].map Value.point →
      Bottle.findGroup bJoints "right_eye"
          = Value.string "right_eye" :: [r0, r1].map Value.point →
      Bottle.findGroup bJoints "inertial"
          = Value.string "inertial" :: [n0].map Value.point →
      ∃ s', loadJointPosition (some bJoints) s = some (true, s')) := by
  obtain ⟨p0, p1, p2, p3, p4, p5, rfl⟩ := list_length_six PL hl
  obtain ⟨q0, q1, q2, q3, q4, q5, rfl⟩ := list_length_six PR hr
  obtain ⟨s1, hs1, hleft, hright⟩ :=
    loadJointPosition_legs_points "left_leg" "right_leg" s p0 p1 p2 p3 p4 p5 q0 q1 q2 q3 q4 q5
  constructor
  · intro ok s' hload i p q hp hq
    simp only [loadJointPosition, hL, hR, hs1, bind, Option.bind_eq_some, pure,
      Option.some.injEq, Prod.mk.injEq, Option.some_bind] at hload
    obtain ⟨s2, h2, s3, h3, s4, h4, -, rfl⟩ := hload
    have e4 := loadJointPosition_inertial_legs _ _ _ h4
    have e3 := loadJointPosition_eyes_legs _ _ _ _ h3
    have e2 := loadJointPosition_head_legs _ _ _ h2
    rw [e2, loadJointPosition_arms_legs, loadJointPosition_torso_legs] at e3
    rw [e3] at e4
    simp only [Prod.mk.injEq] at e4
    rw [e4.1, e4.2]
    exact ⟨hleft i p hp, hright i q hq⟩
  · intro h0 h1 h2 h3 l0 l1 r0 r1 n0 hH hLE hRE hI
    obtain ⟨s2, h2⟩ := loadJointPosition_head_points "head"
      (loadJointPosition_arms (loadJointPosition_torso s1)) h0 h1 h2 h3
    obtain ⟨s3, h3⟩ := loadJointPosition_eyes_points "left_eye" "right_eye" s2 l0 l1 r0 r1
    obtain ⟨s4, h4⟩ := loadJointPosition_inertial_points "inertial" s3 n0
    refine ⟨s4, ?_⟩
    simp only [loadJointPosition, hL, hR, hs1, hH, hLE, hRE, hI, bind, pure,
      Option.some_bind, h2, h3, h4]

/-- Witness for C4: on the sample document the first left-leg point `(1, 2, 3)` ends up in
    `jP_leftLeg[5]` and the first right-leg point `(21, 22, 23)` in `jP_rightLeg[5]`. -/
theorem loadJointPosition_legs_reversed_witness :
    ∃ s', loadJointPosition (some sampleJoints) blankICubSim = some (true, s') ∧
      s'.jP_leftLeg 5 = [1, 2, 3] ∧ s'.jP_rightLeg 5 = [21, 22, 23] := by
  have h := loadJointPosition_legs_reversed sampleJoints blankICubSim
    [(1, 2, 3), (4, 5, 6), (7, 8, 9), (10, 11, 12), (13, 14, 15), (16, 17, 18)]
    [(21, 22, 23), (24, 25, 26), (27, 28, 29), (30, 31, 32), (33, 34, 35), (36, 37, 38)]
    rfl rfl rfl rfl
  obtain ⟨s', hs'⟩ := h.2 (41, 42, 43) (44, 45, 46) (47, 48, 49) (50, 51, 52)
    (61, 62, 63) (64, 65, 66) (71, 72, 73) (74, 75, 76) (81, 82, 83)
    rfl rfl rfl rfl
  exact ⟨s', hs', h.1 true s' hs' 0 (1, 2, 3) (21, 22, 23) rfl rfl⟩

/-! ### Skeleton assembly and skin classification -/

/-- C5 (evaluation at the failing input): with self-collision on, the left-arm covers
    "off" and the right-arm covers "on", assembly creates the "lowerLeftArm" cover mesh in
    the left-arm sub-space, and the classifier maps that shape to
    `{SKIN_PART_UNKNOWN, BODY_PART_UNKNOWN}`. -/
theorem lower_left_arm_cover_unknown :
    (init sampleEnvironment sampleFlags 1 (some sampleJoints) blankICubSim).map
      (fun s => (s.actSelfCol, s.actLeftArmCovers, s.actRightArmCovers,
        decide ((s.model_ThreeD_obj "lowerLeftArm", s.iCubLeftArmSpace) ∈ s.ode.geoms),
        getSkinAndBodyPartFromSpaceAndGeomID s s.iCubLeftArmSpace
          (s.model_ThreeD_obj "lowerLeftArm") clearedOutputs))
      = some ("on", "off", "on", true,
          { skinPart := SkinPart.SKIN_PART_UNKNOWN, bodyPart := BodyPart.BODY_PART_UNKNOWN,
            handPart := HandPart.INDEX, skinCoverFlag := false, fingertipFlag := false }) := by
  decide

/-- C6 (counterexample): two calls with the same sub-space (torso) and the same shape
    (`torsoGeom[0]`) on the same robot give different results when the output variables
    held different values before the calls. -/
theorem classification_depends_on_prior_outputs :
    getSkinAndBodyPartFromSpaceAndGeomID sampleRobot sampleRobot.iCubTorsoSpace
        (sampleRobot.torsoGeom 0) clearedOutputs
      ≠ getSkinAndBodyPartFromSpaceAndGeomID sampleRobot sampleRobot.iCubTorsoSpace
        (sampleRobot.torsoGeom 0)
        { clearedOutputs with handPart := HandPart.THUMB, skinCoverFlag := true,
                              fingertipFlag := true } := by
  decide

/-- What a call writes: its result is a fixed skin part and body part, and for each of
    the three other outputs either a fixed value or the value held before the call. -/
theorem leftArmCovers_writes {α : Type} (s : ICubSim α) (g : Nat) :
    ∃ (sk : SkinPart) (bd : BodyPart) (cv : Bool), ∀ out : SkinOutputs,
      leftArmCovers s g out
        = { skinPart := sk, bodyPart := bd, handPart := out.handPart,
            skinCoverFlag := cv || out.skinCoverFlag, fingertipFlag := out.fingertipFlag } := by
  simp only [leftArmCovers, unknownSkinAndBodyPart]
  split_ifs <;>
    first
      | exact ⟨_, _, false, fun _ => rfl⟩
      | exact ⟨_, _, true, fun _ => rfl⟩

theorem leftArmShapes_writes {α : Type} (s : ICubSim α) (g : Nat) :
    ∃ (sk : SkinPart) (bd : BodyPart) (cv : Bool), ∀ out : SkinOutputs,
      leftArmShapes s g out
        = { skinPart := sk, bodyPart := bd, handPart := out.handPart,
            skinCoverFlag := cv || out.skinCoverFlag, fingertipFlag := out.fingertipFlag } := by
  obtain ⟨sk, bd, cv, h⟩ := leftArmCovers_writes s g
  simp only [leftArmShapes, h]
  split_ifs <;>
    first
      | exact ⟨_, _, false, fun _ => rfl⟩
      | exact ⟨_, _, cv, fun _ => rfl⟩

theorem leftArmSpace_writes {α : Type} (s : ICubSim α) (g : Nat) :
    ∃ (sk : SkinPart) (bd : BodyPart) (hp : Option HandPart) (cv ft : Bool),
      ∀ out : SkinOutputs,
      leftArmSpace s g out
        = { skinPart := sk, bodyPart := bd, handPart := hp.getD out.handPart,
            skinCoverFlag := cv || out.skinCoverFlag,
            fingertipFlag := ft || out.fingertipFlag } := by
  obtain ⟨sk, bd, cv, h⟩ := leftArmShapes_writes s g
  simp only [leftArmSpace, h]
  split_ifs <;>
    first
      | exact ⟨_, _, none, false, false, fun _ => rfl⟩
      | exact ⟨_, _, none, cv, false, fun _ => rfl⟩
      | exact ⟨_, _, some _, false, true, fun _ => rfl⟩

theorem rightArmCovers_writes {α : Type} (s : ICubSim α) (g : Nat) :
    ∃ (sk : SkinPart) (bd : BodyPart) (cv : Bool), ∀ out : SkinOutputs,
      rightArmCovers s g out
        = { skinPart := sk, bodyPart := bd, handPart := out.handPart,
            skinCoverFlag := cv || out.skinCoverFlag, fingertipFlag := out.fingertipFlag } := by
  simp only [rightArmCovers, unknownSkinAndBodyPart]
  split_ifs <;>
    first
      | exact ⟨_, _, false, fun _ => rfl⟩
      | exact ⟨_, _, true, fun _ => rfl⟩

theorem rightArmShapes_writes {α : Type} (s : ICubSim α) (g : Nat) :
    ∃ (sk : SkinPart) (bd : BodyPart) (cv : Bool), ∀ out : SkinOutputs,
      rightArmShapes s g out
        = { skinPart := sk, bodyPart := bd, handPart := out.handPart,
            skinCoverFlag := cv || out.skinCoverFlag, fingertipFlag := out.fingertipFlag } := by
  obtain ⟨sk, bd, cv, h⟩ := rightArmCovers_writes s g
  simp only [rightArmShapes, h]
  split_ifs <;>
    first
      | exact ⟨_, _, false, fun _ => rfl⟩
      | exact ⟨_, _, cv, fun _ => rfl⟩

theorem rightArmSpace_writes {α : Type} (s : ICubSim α) (g : Nat) :
    ∃ (sk : SkinPart) (bd : BodyPart) (hp : Option HandPart) (cv ft : Bool),
      ∀ out : SkinOutputs,
      rightArmSpace s g out
        = { skinPart := sk, bodyPart := bd, handPart := hp.getD out.handPart,
            skinCoverFlag := cv || out.skinCoverFlag,
            fingertipFlag := ft || out.fingertipFlag } := by
  obtain ⟨sk, bd, cv, h⟩ := rightArmShapes_writes s g
  simp only [rightArmSpace, h]
  split_ifs <;>
    first
      | exact ⟨_, _, none, false, false, fun _ => rfl⟩
      | exact ⟨_, _, none, cv, false, fun _ => rfl⟩
      | exact ⟨_, _, some _, false, true, fun _ => rfl⟩

theorem classification_writes {α : Type} (s : ICubSim α) (sp g : Nat) :
    ∃ (sk : SkinPart) (bd : BodyPart) (hp : Option HandPart) (cv ft : Bool),
      ∀ out : SkinOutputs,
      getSkinAndBodyPartFromSpaceAndGeomID s sp g out
        = { skinPart := sk, bodyPart := bd, handPart := hp.getD out.handPart,
            skinCoverFlag := cv || out.skinCoverFlag,
            fingertipFlag := ft || out.fingertipFlag } := by
  obtain ⟨skl, bdl, hpl, cvl, ftl, hl⟩ := leftArmSpace_writes s g
  obtain ⟨skr, bdr, hpr, cvr, ftr, hr⟩ := rightArmSpace_writes s g
  simp only [getSkinAndBodyPartFromSpaceAndGeomID, hl, hr, unknownSkinAndBodyPart]
  split_ifs <;>
    first
      | exact ⟨_, _, none, false, false, fun _ => rfl⟩
      | exact ⟨_, _, none, true, false, fun _ => rfl⟩
      | exact ⟨_, _, hpl, cvl, ftl, fun _ => rfl⟩
      | exact ⟨_, _, hpr, cvr, ftr, fun _ => rfl⟩

/-- C6 (amended): for a fixed robot, two calls with the same sub-space and the same shape
    handle return the same skin part and the same body part whatever the output variables
    held before; each of the hand part, the cover flag and the fingertip flag is either
    equal in the two results or, in both results, the value the variable held before its
    call (the call did not write it). -/
theorem classification_prior_outputs {α : Type} (s : ICubSim α) (sp g : Nat)
    (o1 o2 : SkinOutputs) :
    (getSkinAndBodyPartFromSpaceAndGeomID s sp g o1).skinPart
      = (getSkinAndBodyPartFromSpaceAndGeomID s sp g o2).skinPart ∧
    (getSkinAndBodyPartFromSpaceAndGeomID s sp g o1).bodyPart
      = (getSkinAndBodyPartFromSpaceAndGeomID s sp g o2).bodyPart ∧
    ((getSkinAndBodyPartFromSpaceAndGeomID s sp g o1).handPart
        = (getSkinAndBodyPartFromSpaceAndGeomID s sp g o2).handPart ∨
      ((getSkinAndBodyPartFromSpaceAndGeomID s sp g o1).handPart = o1.handPart ∧
       (getSkinAndBodyPartFromSpaceAndGeomID s sp g o2).handPart = o2.handPart)) ∧
    ((getSkinAndBodyPartFromSpaceAndGeomID s sp g o1).skinCoverFlag
        = (getSkinAndBodyPartFromSpaceAndGeomID s sp g o2).skinCoverFlag ∨
      ((getSkinAndBodyPartFromSpaceAndGeomID s sp g o1).skinCoverFlag = o1.skinCoverFlag ∧
       (getSkinAndBodyPartFromSpaceAndGeomID s sp g o2).skinCoverFlag = o2.skinCoverFlag)) ∧
    ((getSkinAndBodyPartFromSpaceAndGeomID s sp g o1).fingertipFlag
        = (getSkinAndBodyPartFromSpaceAndGeomID s sp g o2).fingertipFlag ∨
      ((getSkinAndBodyPartFromSpaceAndGeomID s sp g o1).fingertipFlag = o1.fingertipFlag ∧
       (getSkinAndBodyPartFromSpaceAndGeomID s sp g o2).fingertipFlag = o2.fingertipFlag)) := by
  obtain ⟨sk, bd, hp, cv, ft, h⟩ := classification_writes s sp g
  rw [h o1, h o2]
  refine ⟨rfl, rfl, ?_, ?_, ?_⟩
  · cases hp
    · exact Or.inr ⟨rfl, rfl⟩
    · exact Or.inl rfl
  · cases cv
    · exact Or.inr ⟨by simp, by simp⟩
    · exact Or.inl rfl
  · cases ft
    · exact Or.inr ⟨by simp, by simp⟩
    · exact Or.inl rfl

theorem initCovers_cover_stages {α : Type} (env : Environment α) (s : ICubSim α)
    (name file : String) : (initCovers_cover env s name file).stages = s.stages := by
  simp only [initCovers_cover, dCreate]
  split_ifs <;> rfl

theorem initCovers_stages {α : Type} (env : Environment α) (s : ICubSim α) :
    (initCovers env s).stages = s.stages := by
  simp only [initCovers]
  rw [foldl_preserves (fun t (itr : String × String) => initCovers_cover env t itr.1 itr.2)
    (fun t : ICubSim α => t.stages) (fun t itr => initCovers_cover_stages env t itr.1 itr.2)]
  split_ifs <;> rfl

theorem init_joints_stages {α : Type} (env : Environment α) (s : ICubSim α) :
    (init_joints env s).stages
      = s.stages ++ [Stage.setPosition, Stage.initLegJoints, Stage.initTorsoJoints,
        Stage.initLeftArmJoints, Stage.initLeftHandJoints, Stage.initRightArmJoints,
        Stage.initRightHandJoints, Stage.initHeadJoints, Stage.initCovers,
        Stage.initSkinActivationBottles] := by
  simp only [init_joints, initCovers_stages, List.append_assoc, List.cons_append,
    List.nil_append]

/-- The functions that run before the load leave the anchor tables alone. -/
theorem anchorsSized_before_load {α : Type} [Field α] (env : Environment α)
    (flags : RobotFlags) (s : ICubSim α) (l₁ l₂ l₃ : List Stage) :
    anchorsSized { init_iKin env { activateiCubParts flags { s with stages := l₁ } with
        stages := l₂ } with stages := l₃ }
      = anchorsSized s := by
  unfold activateiCubParts
  dsimp only
  split_ifs <;> rfl

/-- The result of `loadJointPosition` is not consulted: on a robot whose anchor vectors
    hold their components already, a load that fails is followed by the whole assembly. -/
theorem init_unopened_file_sized {α : Type} [Field α] (env : Environment α)
    (flags : RobotFlags) (space : Nat) (s : ICubSim α) (h : anchorsSized s = true) :
    ∃ s', init env flags space none s = some s' ∧
      [Stage.setPosition, Stage.initLegJoints, Stage.initTorsoJoints,
        Stage.initLeftArmJoints, Stage.initLeftHandJoints, Stage.initRightArmJoints,
        Stage.initRightHandJoints, Stage.initHeadJoints, Stage.initCovers,
        Stage.initSkinActivationBottles] <:+ s'.stages := by
  have hg := anchorsSized_before_load env flags s
    (s.stages ++ [Stage.activateiCubParts])
    ((activateiCubParts flags { s with stages := s.stages ++ [Stage.activateiCubParts] }).stages
      ++ [Stage.init_iKin])
    ((init_iKin env { activateiCubParts flags { s with stages := s.stages ++ [Stage.activateiCubParts] } with stages := (activateiCubParts flags { s with stages := s.stages ++ [Stage.activateiCubParts] }).stages ++ [Stage.init_iKin] }).stages
      ++ [Stage.loadJointPosition])
  rw [h] at hg
  unfold init
  simp only [loadJointPosition, Option.some_bind]
  rw [if_pos hg]
  exact ⟨_, rfl, by rw [init_joints_stages]; exact List.suffix_append _ _⟩

/-- C7 (evaluation at the failing input): when the calibration file cannot be opened,
    `loadJointPosition` returns `false` and leaves the robot as it was. `init` does not
    look at that result and runs on into the assembly, which reads the anchor vectors of
    the freshly constructed robot, still unsized: in every configuration the run has no
    defined result, and no robot is returned. -/
theorem init_after_failed_load :
    (∀ s : ICubSim ℚ, loadJointPosition none s = some (false, s)) ∧
    anchorsSized blankICubSim = false ∧
    (∀ (env : Environment ℚ) (flags : RobotFlags) (space : Nat),
      init env flags space none blankICubSim = none) := by
  refine ⟨fun _ => rfl, by decide, fun env flags space => ?_⟩
  have hg := anchorsSized_before_load env flags blankICubSim
    (blankICubSim.stages ++ [Stage.activateiCubParts])
    ((activateiCubParts flags { blankICubSim with stages := blankICubSim.stages ++ [Stage.activateiCubParts] }).stages
      ++ [Stage.init_iKin])
    ((init_iKin env { activateiCubParts flags { blankICubSim with stages := blankICubSim.stages ++ [Stage.activateiCubParts] } with stages := (activateiCubParts flags { blankICubSim with stages := blankICubSim.stages ++ [Stage.activateiCubParts] }).stages ++ [Stage.init_iKin] }).stages
      ++ [Stage.loadJointPosition])
  have hb : anchorsSized blankICubSim = false := by decide
  rw [hb] at hg
  unfold init
  simp only [loadJointPosition, Option.some_bind]
  rw [hg]
  rfl

/-- C8: in the torso sub-space every shape handle is classified
    `{SKIN_FRONT_TORSO, TORSO}`; starting from a cleared cover flag, the flag is raised
    exactly when the torso covers are "on" and the shape is the "torso" cover shape, so
    every other shape (the "waist" cover, the primary torso shapes) leaves it cleared. -/
theorem torso_space_classification {α : Type} (s : ICubSim α) (geomID : Nat)
    (out : SkinOutputs) (hclear : out.skinCoverFlag = false) :
    (getSkinAndBodyPartFromSpaceAndGeomID s s.iCubTorsoSpace geomID out).skinPart
        = SkinPart.SKIN_FRONT_TORSO ∧
    (getSkinAndBodyPartFromSpaceAndGeomID s s.iCubTorsoSpace geomID out).bodyPart
        = BodyPart.TORSO ∧
    ((getSkinAndBodyPartFromSpaceAndGeomID s s.iCubTorsoSpace geomID out).skinCoverFlag = true
        ↔ s.actTorsoCovers = "on" ∧ geomID = s.model_ThreeD_obj "torso") ∧
    (geomID ≠ s.model_ThreeD_obj "torso" →
      (getSkinAndBodyPartFromSpaceAndGeomID s s.iCubTorsoSpace geomID out).skinCoverFlag
        = false) := by
  simp only [getSkinAndBodyPartFromSpaceAndGeomID, if_true]
  split_ifs with h1 h2 <;> simp_all

/-- Witness for C8: on the assembled sample robot (torso covers "on") the "torso" cover
    shape raises the cover flag and the "waist" cover shape does not. -/
theorem torso_space_classification_witness :
    clearedOutputs.skinCoverFlag = false ∧
    (getSkinAndBodyPartFromSpaceAndGeomID sampleRobot sampleRobot.iCubTorsoSpace
      (sampleRobot.model_ThreeD_obj "torso") clearedOutputs).skinCoverFlag = true ∧
    (getSkinAndBodyPartFromSpaceAndGeomID sampleRobot sampleRobot.iCubTorsoSpace
      (sampleRobot.model_ThreeD_obj "waist") clearedOutputs).skinCoverFlag = false :=
  ⟨rfl,
    (torso_space_classification sampleRobot (sampleRobot.model_ThreeD_obj "torso")
      clearedOutputs rfl).2.2.1.mpr ⟨by decide, rfl⟩,
    (torso_space_classification sampleRobot (sampleRobot.model_ThreeD_obj "waist")
      clearedOutputs rfl).2.2.2 (by decide)⟩

theorem leftArmShapes_fingertip {α : Type} (s : ICubSim α) (geomID : Nat) (out : SkinOutputs) :
    (leftArmShapes s geomID out).fingertipFlag = out.fingertipFlag ∧
    (leftArmShapes s geomID out).handPart = out.handPart := by
  simp only [leftArmShapes, leftArmCovers, unknownSkinAndBodyPart]
  split_ifs <;> exact ⟨rfl, rfl⟩

theorem rightArmShapes_fingertip {α : Type} (s : ICubSim α) (geomID : Nat) (out : SkinOutputs) :
    (rightArmShapes s geomID out).fingertipFlag = out.fingertipFlag ∧
    (rightArmShapes s geomID out).handPart = out.handPart := by
  simp only [rightArmShapes, rightArmCovers, unknownSkinAndBodyPart]
  split_ifs <;> exact ⟨rfl, rfl⟩

theorem classify_left_arm_space {α : Type} (s : ICubSim α) (geomID : Nat) (out : SkinOutputs)
    (h : s.iCubLeftArmSpace ≠ s.iCubTorsoSpace) :
    getSkinAndBodyPartFromSpaceAndGeomID s s.iCubLeftArmSpace geomID out
      = leftArmSpace s geomID out := by
  simp [getSkinAndBodyPartFromSpaceAndGeomID, h]

theorem classify_right_arm_space {α : Type} (s : ICubSim α) (geomID : Nat) (out : SkinOutputs)
    (h : s.iCubRightArmSpace ≠ s.iCubTorsoSpace ∧ s.iCubRightArmSpace ≠ s.iCubLeftArmSpace) :
    getSkinAndBodyPartFromSpaceAndGeomID s s.iCubRightArmSpace geomID out
      = rightArmSpace s geomID out := by
  simp [getSkinAndBodyPartFromSpaceAndGeomID, h.1, h.2]

/-- C9 (amended): in an arm sub-space whose handle differs from the handle of the torso
    sub-space (for the right arm also from the handle of the left-arm sub-space), starting
    from a cleared fingertip flag: with the hand enabled, each of the five terminal shapes
    of that hand (their handles pairwise distinct) raises the fingertip flag and sets its
    finger (thumb `geom[30]`, index `geom[24]`, middle `geom[25]`, ring
    `lhandfings6_geom`, little `lhandfings7_geom` on the left; `geom[49]`, `geom[43]`,
    `geom[44]`, `rhandfings6_geom`, `rhandfings7_geom` on the right); every other shape,
    and every shape when the hand is "off", leaves the flag cleared and the hand part
    untouched. -/
theorem fingertip_flag_exact {α : Type} (s : ICubSim α) (side : Side) (geomID : Nat)
    (out : SkinOutputs) (hsp : side.reached s) (hclear : out.fingertipFlag = false) :
    (side.actHand s ≠ "off" → ((side.fingertips s).map Prod.fst).Nodup →
      ∀ tip ∈ side.fingertips s, geomID = tip.1 →
      (getSkinAndBodyPartFromSpaceAndGeomID s (side.armSpace s) geomID out).fingertipFlag = true ∧
      (getSkinAndBodyPartFromSpaceAndGeomID s (side.armSpace s) geomID out).handPart = tip.2) ∧
    ((side.actHand s = "off" ∨ geomID ∉ (side.fingertips s).map Prod.fst) →
      (getSkinAndBodyPartFromSpaceAndGeomID s (side.armSpace s) geomID out).fingertipFlag = false ∧
      (getSkinAndBodyPartFromSpaceAndGeomID s (side.armSpace s) geomID out).handPart
        = out.handPart) := by
  cases side
  · simp only [Side.reached] at hsp
    simp only [Side.armSpace, Side.actHand, Side.fingertips, classify_left_arm_space s _ _ hsp]
    have hA := leftArmShapes_fingertip s geomID out
    constructor
    · intro hon hnd tip htip hg
      simp only [List.map_cons, List.map_nil, List.nodup_cons, List.mem_cons,
        List.mem_singleton, List.not_mem_nil, not_or, not_false_eq_true, List.nodup_nil,
        and_true, or_false] at hnd
      simp only [List.mem_cons, List.mem_singleton, List.not_mem_nil, or_false] at htip
      rcases htip with rfl | rfl | rfl | rfl | rfl <;>
        simp only at hg <;> subst hg <;>
        simp only [leftArmSpace, hon, if_false, true_or, or_true, if_true] <;>
        first
          | exact ⟨trivial, trivial⟩
          | (split_ifs <;> first | (exfalso; omega) | exact ⟨rfl, rfl⟩)
    · intro hcase
      simp only [List.map_cons, List.map_nil, List.mem_cons, List.mem_singleton,
        List.not_mem_nil, or_false, not_or] at hcase
      simp only [leftArmSpace]
      split_ifs <;> simp_all
  · simp only [Side.reached] at hsp
    simp only [Side.armSpace, Side.actHand, Side.fingertips, classify_right_arm_space s _ _ hsp]
    have hA := rightArmShapes_fingertip s geomID out
    constructor
    · intro hon hnd tip htip hg
      simp only [List.map_cons, List.map_nil, List.nodup_cons, List.mem_cons,
        List.mem_singleton, List.not_mem_nil, not_or, not_false_eq_true, List.nodup_nil,
        and_true, or_false] at hnd
      simp only [List.mem_cons, List.mem_singleton, List.not_mem_nil, or_false] at htip
      rcases htip with rfl | rfl | rfl | rfl | rfl <;>
        simp only at hg <;> subst hg <;>
        simp only [rightArmSpace, hon, if_false, true_or, or_true, if_true] <;>
        first
          | exact ⟨trivial, trivial⟩
          | (split_ifs <;> first | (exfalso; omega) | exact ⟨rfl, rfl⟩)
    · intro hcase
      simp only [List.map_cons, List.map_nil, List.mem_cons, List.mem_singleton,
        List.not_mem_nil, or_false, not_or] at hcase
      simp only [rightArmSpace]
      split_ifs <;> simp_all

/-- Witness for C9 (amended): on the sample robot assembled with self-collision on (left
    hand "on") the shape `geom[30]` raises the fingertip flag and is the thumb. -/
theorem fingertip_flag_exact_witness :
    Side.reached sampleRobot Side.left ∧ clearedOutputs.fingertipFlag = false ∧
    ((Side.fingertips sampleRobot Side.left).map Prod.fst).Nodup ∧
    (getSkinAndBodyPartFromSpaceAndGeomID sampleRobot (Side.armSpace sampleRobot Side.left)
      (sampleRobot.geom 30) clearedOutputs).fingertipFlag = true ∧
    (getSkinAndBodyPartFromSpaceAndGeomID sampleRobot (Side.armSpace sampleRobot Side.left)
      (sampleRobot.geom 30) clearedOutputs).handPart = HandPart.THUMB :=
  ⟨by decide, rfl, by decide,
    (fingertip_flag_exact sampleRobot Side.left (sampleRobot.geom 30) clearedOutputs
      (by decide) rfl).1 (by decide) (by decide) (sampleRobot.geom 30, HandPart.THUMB)
      (by simp [Side.fingertips]) rfl⟩

theorem leftArmSpace_unmatched {α : Type} (s : ICubSim α) (g : Nat) (out : SkinOutputs)
    (hh : g ∉ Side.handShapes s Side.left) (ha : g ∉ Side.armShapes s Side.left) :
    leftArmSpace s g out = leftArmCovers s g out := by
  by_cases h1 : s.actLHand = "off" <;> by_cases h2 : s.actLArm = "off" <;>
    simp only [Side.handShapes, Side.armShapes, h1, h2, if_true, if_false, List.mem_cons,
      List.mem_singleton, List.not_mem_nil, or_false, not_or] at hh ha <;>
    simp only [leftArmSpace, leftArmShapes, h1, h2, if_true, if_false] <;>
    rw [if_neg (by tauto), if_neg (by tauto), if_neg (by tauto)]

theorem rightArmSpace_unmatched {α : Type} (s : ICubSim α) (g : Nat) (out : SkinOutputs)
    (hh : g ∉ Side.handShapes s Side.right) (ha : g ∉ Side.armShapes s Side.right) :
    rightArmSpace s g out = rightArmCovers s g out := by
  by_cases h1 : s.actRHand = "off" <;> by_cases h2 : s.actRArm = "off" <;>
    simp only [Side.handShapes, Side.armShapes, h1, h2, if_true, if_false, List.mem_cons,
      List.mem_singleton, List.not_mem_nil, or_false, not_or] at hh ha <;>
    simp only [rightArmSpace, rightArmShapes, h1, h2, if_true, if_false] <;>
    rw [if_neg (by tauto), if_neg (by tauto), if_neg (by tauto)]

theorem leftArmShapes_matched {α : Type} (s : ICubSim α) (g : Nat) (out : SkinOutputs)
    (h : g ∈ Side.armShapes s Side.left) :
    (leftArmShapes s g out).skinCoverFlag = out.skinCoverFlag ∧
    (leftArmShapes s g out).bodyPart = BodyPart.LEFT_ARM := by
  by_cases h2 : s.actLArm = "off" <;>
    simp only [Side.armShapes, h2, if_true, if_false, List.mem_cons,
      List.mem_singleton, List.not_mem_nil, or_false] at h <;>
    simp only [leftArmShapes, h2, if_true, if_false] <;>
    split_ifs <;> first | exact ⟨rfl, rfl⟩ | (exfalso; omega)

theorem rightArmShapes_matched {α : Type} (s : ICubSim α) (g : Nat) (out : SkinOutputs)
    (h : g ∈ Side.armShapes s Side.right) :
    (rightArmShapes s g out).skinCoverFlag = out.skinCoverFlag ∧
    (rightArmShapes s g out).bodyPart = BodyPart.RIGHT_ARM := by
  by_cases h2 : s.actRArm = "off" <;>
    simp only [Side.armShapes, h2, if_true, if_false, List.mem_cons,
      List.mem_singleton, List.not_mem_nil, or_false] at h <;>
    simp only [rightArmShapes, h2, if_true, if_false] <;>
    split_ifs <;> first | exact ⟨rfl, rfl⟩ | (exfalso; omega)

theorem leftArmSpace_matched {α : Type} (s : ICubSim α) (g : Nat) (out : SkinOutputs)
    (h : g ∈ Side.handShapes s Side.left ∨ g ∈ Side.armShapes s Side.left) :
    (leftArmSpace s g out).skinCoverFlag = out.skinCoverFlag ∧
    (leftArmSpace s g out).bodyPart = BodyPart.LEFT_ARM := by
  by_cases h1 : s.actLHand = "off"
  · simp only [leftArmSpace, h1, if_true]
    split_ifs with c
    · exact ⟨rfl, rfl⟩
    · refine leftArmShapes_matched s g out (h.resolve_left ?_)
      simp only [Side.handShapes, h1, if_true, List.mem_cons, List.mem_singleton,
        List.not_mem_nil, or_false]
      exact c
  · by_cases c : g ∈ Side.handShapes s Side.left
    · simp only [Side.handShapes, h1, if_false, List.mem_cons, List.mem_singleton,
        List.not_mem_nil, or_false] at c
      simp only [leftArmSpace, h1, if_false, if_pos c]
      split_ifs <;> exact ⟨rfl, rfl⟩
    · have hm := leftArmShapes_matched s g out (h.resolve_left c)
      simp only [Side.handShapes, h1, if_false, List.mem_cons, List.mem_singleton,
        List.not_mem_nil, or_false] at c
      simp only [leftArmSpace, h1, if_false, if_neg c]
      exact hm

theorem rightArmSpace_matched {α : Type} (s : ICubSim α) (g : Nat) (out : SkinOutputs)
    (h : g ∈ Side.handShapes s Side.right ∨ g ∈ Side.armShapes s Side.right) :
    (rightArmSpace s g out).skinCoverFlag = out.skinCoverFlag ∧
    (rightArmSpace s g out).bodyPart = BodyPart.RIGHT_ARM := by
  by_cases h1 : s.actRHand = "off"
  · simp only [rightArmSpace, h1, if_true]
    split_ifs with c
    · exact ⟨rfl, rfl⟩
    · refine rightArmShapes_matched s g out (h.resolve_left ?_)
      simp only [Side.handShapes, h1, if_true, List.mem_cons, List.mem_singleton,
        List.not_mem_nil, or_false]
      exact c
  · by_cases c : g ∈ Side.handShapes s Side.right
    · simp only [Side.handShapes, h1, if_false, List.mem_cons, List.mem_singleton,
        List.not_mem_nil, or_false] at c
      simp only [rightArmSpace, h1, if_false, if_pos c]
      split_ifs <;> exact ⟨rfl, rfl⟩
    · have hm := rightArmShapes_matched s g out (h.resolve_left c)
      simp only [Side.handShapes, h1, if_false, List.mem_cons, List.mem_singleton,
        List.not_mem_nil, or_false] at c
      simp only [rightArmSpace, h1, if_false, if_neg c]
      exact hm

/-- C10 (amended): in an arm sub-space whose handle differs from the handle of the torso
    sub-space (for the right arm also from the handle of the left-arm sub-space): when the
    covers of that arm are "on", a shape that matches none of the hand, upper-arm and
    forearm shapes of the active configuration is tested against the three cover shapes of
    that arm (their handles pairwise distinct), and each cover shape raises the cover flag
    with the classification palm -> {hand skin of that side, that arm}, lower-arm cover ->
    {forearm, arm}, upper-arm cover -> {upper arm, arm}; a shape that matches a hand,
    upper-arm or forearm shape is classified to that arm without touching the cover
    flag. -/
theorem arm_covers_when_enabled {α : Type} (s : ICubSim α) (side : Side) (geomID : Nat)
    (out : SkinOutputs) (hsp : side.reached s) :
    (side.actArmCovers s = "on" →
      [side.palmCover s, side.lowerArmCover s, side.upperArmCover s].Nodup →
      geomID ∉ side.handShapes s → geomID ∉ side.armShapes s →
      (geomID = side.palmCover s →
        getSkinAndBodyPartFromSpaceAndGeomID s (side.armSpace s) geomID out
          = { out with skinPart := side.skinHand, bodyPart := side.bodyPart,
                       skinCoverFlag := true }) ∧
      (geomID = side.lowerArmCover s →
        getSkinAndBodyPartFromSpaceAndGeomID s (side.armSpace s) geomID out
          = { out with skinPart := side.skinForearm, bodyPart := side.bodyPart,
                       skinCoverFlag := true }) ∧
      (geomID = side.upperArmCover s →
        getSkinAndBodyPartFromSpaceAndGeomID s (side.armSpace s) geomID out
          = { out with skinPart := side.skinUpperArm, bodyPart := side.bodyPart,
                       skinCoverFlag := true })) ∧
    ((geomID ∈ side.handShapes s ∨ geomID ∈ side.armShapes s) →
      (getSkinAndBodyPartFromSpaceAndGeomID s (side.armSpace s) geomID out).skinCoverFlag
          = out.skinCoverFlag ∧
      (getSkinAndBodyPartFromSpaceAndGeomID s (side.armSpace s) geomID out).bodyPart
          = side.bodyPart) := by
  cases side
  · simp only [Side.reached] at hsp
    simp only [Side.armSpace, classify_left_arm_space s _ _ hsp, Side.actArmCovers,
      Side.palmCover, Side.lowerArmCover, Side.upperArmCover, Side.skinHand,
      Side.skinForearm, Side.skinUpperArm, Side.bodyPart]
    refine ⟨fun hon hd hh ha => ?_, fun hm => leftArmSpace_matched s geomID out hm⟩
    simp only [List.nodup_cons, List.mem_cons, List.mem_singleton, List.not_mem_nil, not_or,
      or_false, not_false_eq_true, List.nodup_nil, and_true] at hd
    obtain ⟨⟨hd1, hd2⟩, hd3⟩ := hd
    rw [leftArmSpace_unmatched s geomID out hh ha]
    simp only [leftArmCovers, hon, if_true]
    refine ⟨fun h => ?_, fun h => ?_, fun h => ?_⟩
    · rw [if_pos h]
    · rw [if_neg (by rw [h]; exact Ne.symm hd1), if_pos h]
    · rw [if_neg (by rw [h]; exact Ne.symm hd2), if_neg (by rw [h]; exact Ne.symm hd3),
        if_pos h]
  · simp only [Side.reached] at hsp
    simp only [Side.armSpace, classify_right_arm_space s _ _ hsp, Side.actArmCovers,
      Side.palmCover, Side.lowerArmCover, Side.upperArmCover, Side.skinHand,
      Side.skinForearm, Side.skinUpperArm, Side.bodyPart]
    refine ⟨fun hon hd hh ha => ?_, fun hm => rightArmSpace_matched s geomID out hm⟩
    simp only [List.nodup_cons, List.mem_cons, List.mem_singleton, List.not_mem_nil, not_or,
      or_false, not_false_eq_true, List.nodup_nil, and_true] at hd
    obtain ⟨⟨hd1, hd2⟩, hd3⟩ := hd
    rw [rightArmSpace_unmatched s geomID out hh ha]
    simp only [rightArmCovers, hon, if_true]
    refine ⟨fun h => ?_, fun h => ?_, fun h => ?_⟩
    · rw [if_pos h]
    · rw [if_neg (by rw [h]; exact Ne.symm hd1), if_pos h]
    · rw [if_neg (by rw [h]; exact Ne.symm hd2), if_neg (by rw [h]; exact Ne.symm hd3),
        if_pos h]

/-- Witness for C10 (amended): on the sample robot assembled with self-collision on
    (right-arm covers "on") the right palm cover shape is classified
    `{SKIN_RIGHT_HAND, RIGHT_ARM}` with the cover flag raised. -/
theorem arm_covers_when_enabled_witness :
    Side.reached sampleRobot Side.right ∧
    [Side.palmCover sampleRobot Side.right, Side.lowerArmCover sampleRobot Side.right,
      Side.upperArmCover sampleRobot Side.right].Nodup ∧
    getSkinAndBodyPartFromSpaceAndGeomID sampleRobot (Side.armSpace sampleRobot Side.right)
        (Side.palmCover sampleRobot Side.right) clearedOutputs
      = { clearedOutputs with skinPart := SkinPart.SKIN_RIGHT_HAND,
                              bodyPart := BodyPart.RIGHT_ARM, skinCoverFlag := true } :=
  ⟨by decide, by decide,
    ((arm_covers_when_enabled sampleRobot Side.right (Side.palmCover sampleRobot Side.right)
      clearedOutputs (by decide)).1 (by decide) (by decide) (by decide) (by decide)).1 rfl⟩

/-! ### Unknown classifications -/

theorem leftArmCovers_unmatched {α : Type} (s : ICubSim α) (g : Nat) (out : SkinOutputs)
    (h : s.actLeftArmCovers ≠ "on" ∨
      g ∉ [Side.palmCover s Side.left, Side.lowerArmCover s Side.left,
        Side.upperArmCover s Side.left]) :
    leftArmCovers s g out = unknownSkinAndBodyPart out := by
  simp only [Side.palmCover, Side.lowerArmCover, Side.upperArmCover, List.mem_cons,
    List.mem_singleton, List.not_mem_nil, or_false, not_or] at h
  simp only [leftArmCovers]
  split_ifs with h1 h2 h3 h4 <;> first | rfl | (exfalso; rcases h with h | h <;> tauto)

theorem rightArmCovers_unmatched {α : Type} (s : ICubSim α) (g : Nat) (out : SkinOutputs)
    (h : s.actRightArmCovers ≠ "on" ∨
      g ∉ [Side.palmCover s Side.right, Side.lowerArmCover s Side.right,
        Side.upperArmCover s Side.right]) :
    rightArmCovers s g out = unknownSkinAndBodyPart out := by
  simp only [Side.palmCover, Side.lowerArmCover, Side.upperArmCover, List.mem_cons,
    List.mem_singleton, List.not_mem_nil, or_false, not_or] at h
  simp only [rightArmCovers]
  split_ifs with h1 h2 h3 h4 <;> first | rfl | (exfalso; rcases h with h | h <;> tauto)

theorem leftArmCovers_matched {α : Type} (s : ICubSim α) (g : Nat) (out : SkinOutputs)
    (hon : s.actLeftArmCovers = "on")
    (h : g ∈ [Side.palmCover s Side.left, Side.lowerArmCover s Side.left,
        Side.upperArmCover s Side.left]) :
    (leftArmCovers s g out).bodyPart = BodyPart.LEFT_ARM := by
  simp only [Side.palmCover, Side.lowerArmCover, Side.upperArmCover, List.mem_cons,
    List.mem_singleton, List.not_mem_nil, or_false] at h
  simp only [leftArmCovers, hon, if_true]
  split_ifs <;> first | rfl | (exfalso; tauto)

theorem rightArmCovers_matched {α : Type} (s : ICubSim α) (g : Nat) (out : SkinOutputs)
    (hon : s.actRightArmCovers = "on")
    (h : g ∈ [Side.palmCover s Side.right, Side.lowerArmCover s Side.right,
        Side.upperArmCover s Side.right]) :
    (rightArmCovers s g out).bodyPart = BodyPart.RIGHT_ARM := by
  simp only [Side.palmCover, Side.lowerArmCover, Side.upperArmCover, List.mem_cons,
    List.mem_singleton, List.not_mem_nil, or_false] at h
  simp only [rightArmCovers, hon, if_true]
  split_ifs <;> first | rfl | (exfalso; tauto)

/-- In an arm sub-space the body part returned is `BODY_PART_UNKNOWN` exactly when the
    shape matches no hand, upper-arm or forearm shape of the active configuration and no
    cover shape of an arm whose covers are "on". -/
theorem arm_space_unknown_iff {α : Type} (s : ICubSim α) (side : Side) (g : Nat)
    (out : SkinOutputs) (hsp : side.reached s) :
    (getSkinAndBodyPartFromSpaceAndGeomID s (side.armSpace s) g out).bodyPart
        = BodyPart.BODY_PART_UNKNOWN ↔
      (g ∉ side.handShapes s ∧ g ∉ side.armShapes s ∧
        (side.actArmCovers s ≠ "on" ∨
          g ∉ [side.palmCover s, side.lowerArmCover s, side.upperArmCover s])) := by
  cases side
  · simp only [Side.reached] at hsp
    simp only [Side.armSpace, classify_left_arm_space s _ _ hsp, Side.actArmCovers]
    constructor
    · intro hu
      by_cases hm : g ∈ Side.handShapes s Side.left ∨ g ∈ Side.armShapes s Side.left
      · rw [(leftArmSpace_matched s g out hm).2] at hu
        exact absurd hu (by decide)
      · rw [not_or] at hm
        refine ⟨hm.1, hm.2, ?_⟩
        rw [leftArmSpace_unmatched s g out hm.1 hm.2] at hu
        by_contra hc
        rw [not_or, not_not, not_not] at hc
        rw [leftArmCovers_matched s g out hc.1 hc.2] at hu
        exact absurd hu (by decide)
    · rintro ⟨hh, ha, hc⟩
      rw [leftArmSpace_unmatched s g out hh ha, leftArmCovers_unmatched s g out hc]
      rfl
  · simp only [Side.reached] at hsp
    simp only [Side.armSpace, classify_right_arm_space s _ _ hsp, Side.actArmCovers]
    constructor
    · intro hu
      by_cases hm : g ∈ Side.handShapes s Side.right ∨ g ∈ Side.armShapes s Side.right
      · rw [(rightArmSpace_matched s g out hm).2] at hu
        exact absurd hu (by decide)
      · rw [not_or] at hm
        refine ⟨hm.1, hm.2, ?_⟩
        rw [rightArmSpace_unmatched s g out hm.1 hm.2] at hu
        by_contra hc
        rw [not_or, not_not, not_not] at hc
        rw [rightArmCovers_matched s g out hc.1 hc.2] at hu
        exact absurd hu (by decide)
    · rintro ⟨hh, ha, hc⟩
      rw [rightArmSpace_unmatched s g out hh ha, rightArmCovers_unmatched s g out hc]
      rfl

theorem arm_space_unknown_skin {α : Type} (s : ICubSim α) (side : Side) (g : Nat)
    (out : SkinOutputs) (hsp : side.reached s)
    (h : g ∉ side.handShapes s ∧ g ∉ side.armShapes s ∧
        (side.actArmCovers s ≠ "on" ∨
          g ∉ [side.palmCover s, side.lowerArmCover s, side.upperArmCover s])) :
    (getSkinAndBodyPartFromSpaceAndGeomID s (side.armSpace s) g out).skinPart
        = SkinPart.SKIN_PART_UNKNOWN := by
  obtain ⟨hh, ha, hc⟩ := h
  cases side
  · simp only [Side.reached] at hsp
    simp only [Side.armSpace, classify_left_arm_space s _ _ hsp, Side.actArmCovers] at hc ⊢
    rw [leftArmSpace_unmatched s g out hh ha, leftArmCovers_unmatched s g out hc]
    rfl
  · simp only [Side.reached] at hsp
    simp only [Side.armSpace, classify_right_arm_space s _ _ hsp, Side.actArmCovers] at hc ⊢
    rw [rightArmSpace_unmatched s g out hh ha, rightArmCovers_unmatched s g out hc]
    rfl

/-- C11 (amended): the classifier returns `{SKIN_PART_UNKNOWN, BODY_PART_UNKNOWN}` whenever
    the sub-space is none of the five known sub-spaces, and whenever the sub-space is an
    arm sub-space whose handle differs from the handle of the torso sub-space (for the
    right arm also from the handle of the left-arm sub-space) and the shape matches no
    hand, upper-arm, forearm or enabled cover shape of the active configuration;
    conversely, in such an arm sub-space a result whose body part is not unknown was
    produced for a shape that did match. -/
theorem unknown_when_unmatched {α : Type} (s : ICubSim α) (sp g : Nat) (out : SkinOutputs) :
    (sp ≠ s.iCubTorsoSpace → sp ≠ s.iCubLeftArmSpace → sp ≠ s.iCubRightArmSpace →
      sp ≠ s.iCubHeadSpace → sp ≠ s.iCubLegsSpace →
      (getSkinAndBodyPartFromSpaceAndGeomID s sp g out).skinPart = SkinPart.SKIN_PART_UNKNOWN ∧
      (getSkinAndBodyPartFromSpaceAndGeomID s sp g out).bodyPart
        = BodyPart.BODY_PART_UNKNOWN) ∧
    (∀ side : Side, side.reached s →
      g ∉ side.handShapes s → g ∉ side.armShapes s →
      (side.actArmCovers s ≠ "on" ∨
        g ∉ [side.palmCover s, side.lowerArmCover s, side.upperArmCover s]) →
      (getSkinAndBodyPartFromSpaceAndGeomID s (side.armSpace s) g out).skinPart
        = SkinPart.SKIN_PART_UNKNOWN ∧
      (getSkinAndBodyPartFromSpaceAndGeomID s (side.armSpace s) g out).bodyPart
        = BodyPart.BODY_PART_UNKNOWN) ∧
    (∀ side : Side, side.reached s →
      (getSkinAndBodyPartFromSpaceAndGeomID s (side.armSpace s) g out).bodyPart
        ≠ BodyPart.BODY_PART_UNKNOWN →
      g ∈ side.handShapes s ∨ g ∈ side.armShapes s ∨
        (side.actArmCovers s = "on" ∧
          g ∈ [side.palmCover s, side.lowerArmCover s, side.upperArmCover s])) := by
  refine ⟨?_, ?_, ?_⟩
  · intro h1 h2 h3 h4 h5
    simp only [getSkinAndBodyPartFromSpaceAndGeomID, if_neg h1, if_neg h2, if_neg h3,
      if_neg h4, if_neg h5, unknownSkinAndBodyPart, and_self]
  · intro side hsp hh ha hc
    exact ⟨arm_space_unknown_skin s side g out hsp ⟨hh, ha, hc⟩,
      (arm_space_unknown_iff s side g out hsp).mpr ⟨hh, ha, hc⟩⟩
  · intro side hsp hne
    by_contra hc
    apply hne
    rw [arm_space_unknown_iff s side g out hsp]
    rw [not_or, not_or] at hc
    refine ⟨hc.1, hc.2.1, ?_⟩
    by_cases hon : side.actArmCovers s = "on"
    · exact Or.inr (fun hm => hc.2.2 ⟨hon, hm⟩)
    · exact Or.inl hon

/-- Witness for C11 (amended): on the sample robot assembled with self-collision on, a
    handle that belongs to no sub-space (the top-level space handle `1`) and, in the
    right-arm sub-space, the handle of a left-hand shape are both classified
    `{SKIN_PART_UNKNOWN, BODY_PART_UNKNOWN}`. -/
theorem unknown_when_unmatched_witness :
    (getSkinAndBodyPartFromSpaceAndGeomID sampleRobot 1 (sampleRobot.geom 30)
        clearedOutputs).bodyPart = BodyPart.BODY_PART_UNKNOWN ∧
    Side.reached sampleRobot Side.right ∧
    (getSkinAndBodyPartFromSpaceAndGeomID sampleRobot (Side.armSpace sampleRobot Side.right)
        (sampleRobot.geom 30) clearedOutputs).skinPart = SkinPart.SKIN_PART_UNKNOWN ∧
    (getSkinAndBodyPartFromSpaceAndGeomID sampleRobot (Side.armSpace sampleRobot Side.right)
        (sampleRobot.geom 30) clearedOutputs).bodyPart = BodyPart.BODY_PART_UNKNOWN :=
  ⟨((unknown_when_unmatched sampleRobot 1 (sampleRobot.geom 30) clearedOutputs).1
      (by decide) (by decide) (by decide) (by decide) (by decide)).2,
    by decide,
    (unknown_when_unmatched sampleRobot 1 (sampleRobot.geom 30) clearedOutputs).2.1
      Side.right (by decide) (by decide) (by decide) (Or.inr (by decide))⟩

/-- C12 (amended): for every shape handle, a head sub-space whose handle differs from the
    handles of the torso, left-arm and right-arm sub-spaces gives `SKIN_PART_UNKNOWN` with
    the body part `HEAD`, and a legs sub-space whose handle differs from the handles of the
    torso, left-arm, right-arm and head sub-spaces gives `SKIN_PART_UNKNOWN` with
    `BODY_PART_UNKNOWN`. -/
theorem head_and_legs_space {α : Type} (s : ICubSim α) (g : Nat) (out : SkinOutputs) :
    (s.iCubHeadSpace ≠ s.iCubTorsoSpace → s.iCubHeadSpace ≠ s.iCubLeftArmSpace →
      s.iCubHeadSpace ≠ s.iCubRightArmSpace →
      (getSkinAndBodyPartFromSpaceAndGeomID s s.iCubHeadSpace g out).skinPart
        = SkinPart.SKIN_PART_UNKNOWN ∧
      (getSkinAndBodyPartFromSpaceAndGeomID s s.iCubHeadSpace g out).bodyPart
        = BodyPart.HEAD) ∧
    (s.iCubLegsSpace ≠ s.iCubTorsoSpace → s.iCubLegsSpace ≠ s.iCubLeftArmSpace →
      s.iCubLegsSpace ≠ s.iCubRightArmSpace → s.iCubLegsSpace ≠ s.iCubHeadSpace →
      (getSkinAndBodyPartFromSpaceAndGeomID s s.iCubLegsSpace g out).skinPart
        = SkinPart.SKIN_PART_UNKNOWN ∧
      (getSkinAndBodyPartFromSpaceAndGeomID s s.iCubLegsSpace g out).bodyPart
        = BodyPart.BODY_PART_UNKNOWN) := by
  constructor
  · intro h1 h2 h3
    simp only [getSkinAndBodyPartFromSpaceAndGeomID, if_neg h1, if_neg h2, if_neg h3,
      if_true, and_self]
  · intro h1 h2 h3 h4
    simp only [getSkinAndBodyPartFromSpaceAndGeomID, if_neg h1, if_neg h2, if_neg h3,
      if_neg h4, if_true, and_self]

/-- Witness for C12 (amended): on the sample robot assembled with self-collision on, a
    head shape (`head0_geom`) is classified `{SKIN_PART_UNKNOWN, HEAD}` and a leg shape
    (`leftLegGeom[0]`) `{SKIN_PART_UNKNOWN, BODY_PART_UNKNOWN}`. -/
theorem head_and_legs_space_witness :
    ((getSkinAndBodyPartFromSpaceAndGeomID sampleRobot sampleRobot.iCubHeadSpace
        sampleRobot.head0_geom clearedOutputs).skinPart = SkinPart.SKIN_PART_UNKNOWN ∧
      (getSkinAndBodyPartFromSpaceAndGeomID sampleRobot sampleRobot.iCubHeadSpace
        sampleRobot.head0_geom clearedOutputs).bodyPart = BodyPart.HEAD) ∧
    ((getSkinAndBodyPartFromSpaceAndGeomID sampleRobot sampleRobot.iCubLegsSpace
        (sampleRobot.leftLegGeom 0) clearedOutputs).skinPart = SkinPart.SKIN_PART_UNKNOWN ∧
      (getSkinAndBodyPartFromSpaceAndGeomID sampleRobot sampleRobot.iCubLegsSpace
        (sampleRobot.leftLegGeom 0) clearedOutputs).bodyPart
          = BodyPart.BODY_PART_UNKNOWN) :=
  ⟨(head_and_legs_space sampleRobot sampleRobot.head0_geom clearedOutputs).1
      (by decide) (by decide) (by decide),
    (head_and_legs_space sampleRobot (sampleRobot.leftLegGeom 0) clearedOutputs).2
      (by decide) (by decide) (by decide) (by decide)⟩

/-! ### Touch sensor -/

/-- C17: `checkTouchSensor(body)` is true exactly when the joint in slot 0 of the body has
    the contact type, `checkTouchSensor_continuousValued(body)` is 0 whenever it has not,
    and the boolean is the same for any two engine states that agree on the type of the
    joint in slot 0 of the body, whatever feedback forces and other joints they hold. -/
theorem checkTouchSensor_first_joint {α : Type} [LinearOrderedField α] (sqrt : α → α)
    (ode : OdeQueries α) (id : Nat) :
    (checkTouchSensor ode id = true ↔
      ode.dJointGetType (ode.dBodyGetJoint id 0) = dJointType.dJointTypeContact) ∧
    (ode.dJointGetType (ode.dBodyGetJoint id 0) ≠ dJointType.dJointTypeContact →
      checkTouchSensor_continuousValued sqrt ode id = 0) ∧
    (∀ ode' : OdeQueries α,
      ode'.dJointGetType (ode'.dBodyGetJoint id 0)
        = ode.dJointGetType (ode.dBodyGetJoint id 0) →
      checkTouchSensor ode' id = checkTouchSensor ode id) := by
  refine ⟨?_, ?_, ?_⟩
  · simp only [checkTouchSensor]
    split_ifs with h <;> simp [h]
  · intro h
    simp only [checkTouchSensor_continuousValued, if_neg h]
  · intro ode' h
    simp only [checkTouchSensor, h]

/-- Witness for C17: in the sample engine state body `2` has a hinge in slot 0 and a
    contact joint with a large force in slot 1; the continuous query returns 0 for it. -/
theorem checkTouchSensor_first_joint_witness :
    sampleQueries.dJointGetType (sampleQueries.dBodyGetJoint 2 0)
        ≠ dJointType.dJointTypeContact ∧
    sampleQueries.dJointGetType (sampleQueries.dBodyGetJoint 2 1)
        = dJointType.dJointTypeContact ∧
    checkTouchSensor_continuousValued (fun x => x) sampleQueries 2 = 0 :=
  ⟨by decide, by decide,
    (checkTouchSensor_first_joint (fun x => x) sampleQueries 2).2.1 (by decide)⟩

/-- C18: `getTouchSensorValue` is monotonically non-decreasing in the force magnitude:
    when the norm of the force of `f` is at most the norm of the force of `g`, the value
    for `f` is at most the value for `g`. -/
theorem getTouchSensorValue_monotone {α : Type} [LinearOrderedField α] (sqrt : α → α)
    (f g : dJointFeedback α)
    (h : sqrt (f.f1 0 * f.f1 0 + f.f1 1 * f.f1 1 + f.f1 2 * f.f1 2)
        ≤ sqrt (g.f1 0 * g.f1 0 + g.f1 1 * g.f1 1 + g.f1 2 * g.f1 2)) :
    getTouchSensorValue sqrt f ≤ getTouchSensorValue sqrt g := by
  simp only [getTouchSensorValue, TOUCH_SENSOR_MAX_FORCE]
  apply div_le_div_of_nonneg_right _ (by norm_num : (0 : α) ≤ 100)
  split_ifs with h1 h2 h2
  · exact le_refl _
  · exact absurd (lt_of_lt_of_le h1 h) h2
  · exact le_of_not_lt h1
  · exact h

/-- Witness for C18: over the reals with the real square root, the force `(3, 4, 0)` of
    norm 5 gives a value that is at most the value of the force `(6, 8, 0)` of norm 10. -/
theorem getTouchSensorValue_monotone_witness :
    getTouchSensorValue Real.sqrt (forceFeedback (3 : ℝ) 4 0)
      ≤ getTouchSensorValue Real.sqrt (forceFeedback (6 : ℝ) 8 0) :=
  getTouchSensorValue_monotone Real.sqrt (forceFeedback 3 4 0) (forceFeedback 6 8 0)
    (Real.sqrt_le_sqrt (by simp only [forceFeedback]; norm_num))

/-- C19: with a square root that is non-negative and maps 0 to 0, `getTouchSensorValue`
    stays in [0, 1]; it is exactly 1 when the norm of the force is at least 100, lies in
    [0, 1) when the norm is below 100, and is 0 for the zero force. -/
theorem getTouchSensorValue_range {α : Type} [LinearOrderedField α] (sqrt : α → α)
    (hnn : ∀ x, 0 ≤ sqrt x) (h0 : sqrt 0 = 0) (fb : dJointFeedback α) :
    (0 ≤ getTouchSensorValue sqrt fb ∧ getTouchSensorValue sqrt fb ≤ 1) ∧
    (100 ≤ sqrt (fb.f1 0 * fb.f1 0 + fb.f1 1 * fb.f1 1 + fb.f1 2 * fb.f1 2) →
      getTouchSensorValue sqrt fb = 1) ∧
    (sqrt (fb.f1 0 * fb.f1 0 + fb.f1 1 * fb.f1 1 + fb.f1 2 * fb.f1 2) < 100 →
      0 ≤ getTouchSensorValue sqrt fb ∧ getTouchSensorValue sqrt fb < 1) ∧
    (fb.f1 0 = 0 → fb.f1 1 = 0 → fb.f1 2 = 0 → getTouchSensorValue sqrt fb = 0) := by
  have h100 : (0 : α) < 100 := by norm_num
  have hn := hnn (fb.f1 0 * fb.f1 0 + fb.f1 1 * fb.f1 1 + fb.f1 2 * fb.f1 2)
  refine ⟨?_, ?_, ?_, ?_⟩
  · simp only [getTouchSensorValue, TOUCH_SENSOR_MAX_FORCE]
    split_ifs with h
    · rw [div_self (ne_of_gt h100)]
      exact ⟨zero_le_one, le_refl _⟩
    · exact ⟨div_nonneg hn (le_of_lt h100), (div_le_one h100).mpr (le_of_not_lt h)⟩
  · intro h
    simp only [getTouchSensorValue, TOUCH_SENSOR_MAX_FORCE]
    split_ifs with h1
    · exact div_self (ne_of_gt h100)
    · rw [le_antisymm (le_of_not_lt h1) h]
      exact div_self (ne_of_gt h100)
  · intro h
    simp only [getTouchSensorValue, TOUCH_SENSOR_MAX_FORCE]
    rw [if_neg (not_lt.mpr (le_of_lt h))]
    exact ⟨div_nonneg hn (le_of_lt h100), (div_lt_one h100).mpr h⟩
  · intro hx hy hz
    simp only [getTouchSensorValue, TOUCH_SENSOR_MAX_FORCE, hx, hy, hz, mul_zero, add_zero, h0]
    rw [if_neg (not_lt.mpr (le_of_lt h100)), zero_div]

/-- Witness for C19: over the reals with the real square root, the value of the zero
    force is 0 and the value of the force `(60, 80, 0)` of norm 100 is 1. -/
theorem getTouchSensorValue_range_witness :
    (∀ x : ℝ, 0 ≤ Real.sqrt x) ∧ Real.sqrt 0 = 0 ∧
    getTouchSensorValue Real.sqrt (forceFeedback (0 : ℝ) 0 0) = 0 ∧
    getTouchSensorValue Real.sqrt (forceFeedback (60 : ℝ) 80 0) = 1 :=
  ⟨Real.sqrt_nonneg, Real.sqrt_zero,
    (getTouchSensorValue_range Real.sqrt Real.sqrt_nonneg Real.sqrt_zero
      (forceFeedback 0 0 0)).2.2.2 rfl rfl rfl,
    (getTouchSensorValue_range Real.sqrt Real.sqrt_nonneg Real.sqrt_zero
      (forceFeedback 60 80 0)).2.1
      (by
        have h : (forceFeedback (60 : ℝ) 80 0).f1 0 * (forceFeedback (60 : ℝ) 80 0).f1 0
            + (forceFeedback (60 : ℝ) 80 0).f1 1 * (forceFeedback (60 : ℝ) 80 0).f1 1
            + (forceFeedback (60 : ℝ) 80 0).f1 2 * (forceFeedback (60 : ℝ) 80 0).f1 2
            = 100 ^ 2 := by
          simp only [forceFeedback]
          norm_num
        rw [h, Real.sqrt_sq (by norm_num)])⟩

/-! ### Skin activation vectors -/

theorem foldl_range'_update {α : Type} (v : Nat → α) :
    ∀ (n lo : Nat) (a : Nat → α),
      (List.range' lo n).foldl (fun a i => Function.update a i (v i)) a
        = fun j => if lo ≤ j ∧ j < lo + n then v j else a j := by
  intro n
  induction n with
  | zero =>
    intro lo a
    funext j
    simp only [List.range'_zero, List.foldl_nil, add_zero]
    rw [if_neg (by omega)]
  | succ n ih =>
    intro lo a
    funext j
    simp only [List.range'_succ, List.foldl_cons, ih]
    by_cases h : j = lo
    · subst h
      simp
    · simp only [Function.update_noteq h]
      by_cases h2 : lo + 1 ≤ j ∧ j < lo + 1 + n
      · rw [if_pos h2, if_pos (by omega)]
      · rw [if_neg h2, if_neg (by omega)]

theorem forLoop_update {α : Type} (v : Nat → α) (lo hi : Nat) (a : Nat → α) :
    forLoop lo hi (fun i a => Function.update a i (v i)) a
      = fun j => if lo ≤ j ∧ j < hi then v j else a j := by
  simp only [forLoop, foldl_range'_update]
  funext j
  by_cases h : lo ≤ j ∧ j < hi
  · rw [if_pos h, if_pos (by omega)]
  · rw [if_neg h, if_neg (by omega)]

theorem forLoop_append {α : Type} (arr : Nat → α) (lo hi : Nat) (l : List α) :
    forLoop lo hi (fun i l => l ++ [arr i]) l = l ++ (List.range' lo (hi - lo)).map arr := by
  simp only [forLoop]
  generalize hi - lo = n
  induction n generalizing lo l with
  | zero => simp
  | succ n ih => simp [List.range'_succ, ih]

theorem forLoop_pair {σ τ : Type} (f : Nat → σ → σ) (g : Nat → τ → τ) (lo hi : Nat)
    (a : σ) (b : τ) :
    forLoop lo hi (fun i p => (f i p.1, g i p.2)) (a, b)
      = (forLoop lo hi f a, forLoop lo hi g b) := by
  simp only [forLoop]
  generalize hi - lo = n
  induction n generalizing lo a b with
  | zero => simp
  | succ n ih => simp [List.range'_succ, ih]

theorem forLoop_pair_update {α : Type} (v w : Nat → α) (lo hi : Nat) (a b : Nat → α) :
    forLoop lo hi (fun i p => (Function.update p.1 i (v i), Function.update p.2 i (w i))) (a, b)
      = (fun j => if lo ≤ j ∧ j < hi then v j else a j,
         fun j => if lo ≤ j ∧ j < hi then w j else b j) := by
  rw [forLoop_pair (fun i a => Function.update a i (v i)) (fun i a => Function.update a i (w i)),
    forLoop_update, forLoop_update]

theorem forLoop_pair_append {α : Type} (v w : Nat → α) (lo hi : Nat) (l m : List α) :
    forLoop lo hi (fun i p => (p.1 ++ [v i], p.2 ++ [w i])) (l, m)
      = (l ++ (List.range' lo (hi - lo)).map v, m ++ (List.range' lo (hi - lo)).map w) := by
  rw [forLoop_pair (fun i l => l ++ [v i]) (fun i l => l ++ [w i]),
    forLoop_append, forLoop_append]

/-- What `initSkinActivationBottles` leaves in each of the seven bottles. -/
theorem initSkinActivationBottles_eq {α : Type} [Ring α] (uninit : Nat → α)
    (b : SkinActivationBottles α) :
    initSkinActivationBottles uninit b =
      { emptySkinActivationHand := (List.range' 0 192).map (fun _ => 0)
        emptySkinActivationForearm := (List.range' 0 384).map (fun _ => 0)
        fullSkinActivationForearm := (List.range' 0 384).map
          (fun i => if incompletePatch i then 0 else if i % 6 = 0 ∨ i % 10 = 0 then 0 else 255)
        emptySkinActivationUpperArm :=
          b.emptySkinActivationUpperArm ++ (List.range' 0 768).map (fun _ => 0)
        fullSkinActivationUpperArm := (List.range' 0 768).map (fun _ => 255)
        emptySkinActivationTorso :=
          b.emptySkinActivationTorso ++ (List.range' 0 768).map (fun _ => 0)
        fullSkinActivationTorso := (List.range' 0 768).map (fun _ => 255) } := by
  have hbody : (fun (i : Nat) (p : (Nat → α) × (Nat → α)) =>
      (Function.update p.1 i 0,
        if i % 6 = 0 ∨ i % 10 = 0 then Function.update p.2 i 0 else Function.update p.2 i 255))
      = fun i p => (Function.update p.1 i ((fun _ => (0 : α)) i),
          Function.update p.2 i ((fun i => if i % 6 = 0 ∨ i % 10 = 0 then (0 : α) else 255) i)) := by
    funext i p
    split_ifs with h <;> simp [h]
  have hfill : ∀ a b : Nat → α,
      forLoop 0 768 (fun i p => (Function.update p.1 i 0, Function.update p.2 i 255)) (a, b)
        = (fun j => if 0 ≤ j ∧ j < 768 then 0 else a j,
           fun j => if 0 ≤ j ∧ j < 768 then 255 else b j) :=
    fun a b => forLoop_pair_update (fun _ => 0) (fun _ => 255) 0 768 a b
  simp only [initSkinActivationBottles, hbody, hfill, forLoop_pair_update, forLoop_update,
    forLoop_append, forLoop_pair_append, List.nil_append, Nat.sub_zero,
    SkinActivationBottles.mk.injEq]
  have hmap : ∀ (f g : Nat → α) (n : Nat), (∀ i, i < n → f i = g i) →
      (List.range' 0 n).map f = (List.range' 0 n).map g := by
    intro f g n h
    apply List.map_congr_left
    intro i hi
    simp only [List.mem_range'_1] at hi
    exact h i (by omega)
  refine ⟨hmap _ _ _ ?_, hmap _ _ _ ?_, hmap _ _ _ ?_, congrArg _ (hmap _ _ _ ?_),
    hmap _ _ _ ?_, congrArg _ (hmap _ _ _ ?_), hmap _ _ _ ?_⟩ <;>
    (intro i hi
     try simp only [incompletePatch]
     split_ifs <;> first | rfl | (exfalso; omega))

theorem map_range'_const {α : Type} (c : α) (n : Nat) :
    (List.range' 0 n).map (fun _ => c) = List.replicate n c := by
  rw [List.map_const', List.length_range']

/-- C13 fails in the code: the full forearm bottle has 384 entries, but the code zeroes the
    indices that are multiples of 6 or of 10 (and the five ranges of the incomplete patch),
    not the indices at offset 6 or 10 of each 12-taxel module. Entry 0 is 0 although index
    0 is at offset 0 of its module and outside the five ranges; entry 22 is 255 although
    index 22 is at offset 10 of its module. -/
theorem fullSkinActivationForearm_mask {α : Type} [LinearOrderedField α] (uninit : Nat → α)
    (b : SkinActivationBottles α) :
    (initSkinActivationBottles uninit b).fullSkinActivationForearm
        = (List.range' 0 384).map
            (fun i => if incompletePatch i ∨ i % 6 = 0 ∨ i % 10 = 0 then 0 else 255)
      ∧ (initSkinActivationBottles uninit b).fullSkinActivationForearm.length = 384
      ∧ ((initSkinActivationBottles uninit b).fullSkinActivationForearm[0]? = some 0
          ∧ 0 % 12 ≠ 6 ∧ 0 % 12 ≠ 10 ∧ ¬ incompletePatch 0)
      ∧ ((initSkinActivationBottles uninit b).fullSkinActivationForearm[22]? = some 255
          ∧ 22 % 12 = 10 ∧ (255 : α) ≠ 0) := by
  rw [initSkinActivationBottles_eq]
  refine ⟨?_, ?_, ⟨?_, by decide, by decide, by decide⟩, ?_, by decide, by norm_num⟩
  · apply List.map_congr_left
    intro i _
    by_cases h : incompletePatch i
    · simp [h]
    · simp [h]
  · simp
  · simp [incompletePatch]
  · simp [incompletePatch]

/-- C14 as stated fails: on a fresh robot none of the seven bottles that
    `initSkinActivationBottles` fills is a 192-entry vector holding a 255; the only bottle
    of 192 entries is the empty hand vector. -/
theorem no_full_hand_vector :
    ¬ ∃ p ∈ (initSkinActivationBottles (fun _ => (0 : ℚ)) freshBottles).all,
        p.2.length = 192 ∧ (255 : ℚ) ∈ p.2 := by
  rw [initSkinActivationBottles_eq]
  rintro ⟨p, hp, hlen, hmem⟩
  simp only [SkinActivationBottles.all, freshBottles, List.nil_append, List.mem_cons,
    List.mem_singleton, List.not_mem_nil, or_false] at hp
  rcases hp with rfl | rfl | rfl | rfl | rfl | rfl | rfl <;>
    simp only [List.length_map, List.length_range'] at hlen <;>
    first
      | omega
      | (simp only [List.mem_map] at hmem
         obtain ⟨_, _, h⟩ := hmem
         norm_num at h)

/-- C14 amended: for the hand `initSkinActivationBottles` produces only the empty vector,
    192 entries all 0; the other six bottles it fills are the forearm pair (384 entries
    each) and the upper-arm and torso pairs (768 entries appended or stored), so there is
    no full hand vector, and the masking pattern is carried by the full forearm vector
    alone. -/
theorem hand_vector_empty_only {α : Type} [LinearOrderedField α] (uninit : Nat → α)
    (b : SkinActivationBottles α) :
    (initSkinActivationBottles uninit b).emptySkinActivationHand = List.replicate 192 0
      ∧ ((initSkinActivationBottles uninit b).all.map (fun p => (p.1, p.2.length))
          = [("emptySkinActivationHand", 192),
             ("emptySkinActivationForearm", 384),
             ("fullSkinActivationForearm", 384),
             ("emptySkinActivationUpperArm", b.emptySkinActivationUpperArm.length + 768),
             ("fullSkinActivationUpperArm", 768),
             ("emptySkinActivationTorso", b.emptySkinActivationTorso.length + 768),
             ("fullSkinActivationTorso", 768)]) := by
  rw [initSkinActivationBottles_eq]
  refine ⟨map_range'_const 0 192, ?_⟩
  simp only [SkinActivationBottles.all, List.map_cons, List.map_nil, List.length_map,
    List.length_range', List.length_append]

/-- C15: when the empty upper-arm and torso bottles hold nothing before the call, as on a
    freshly constructed robot, `initSkinActivationBottles` leaves the four empty vectors
    with 192 (hand), 384 (forearm), 768 (upper arm) and 768 (torso) entries, all 0. -/
theorem empty_vectors_all_zero {α : Type} [LinearOrderedField α] (uninit : Nat → α)
    (b : SkinActivationBottles α) (hU : b.emptySkinActivationUpperArm = [])
    (hT : b.emptySkinActivationTorso = []) :
    (initSkinActivationBottles uninit b).emptySkinActivationHand = List.replicate 192 0
      ∧ (initSkinActivationBottles uninit b).emptySkinActivationForearm = List.replicate 384 0
      ∧ (initSkinActivationBottles uninit b).emptySkinActivationUpperArm = List.replicate 768 0
      ∧ (initSkinActivationBottles uninit b).emptySkinActivationTorso
          = List.replicate 768 0 := by
  rw [initSkinActivationBottles_eq]
  simp only [hU, hT, List.nil_append]
  exact ⟨map_range'_const 0 192, map_range'_const 0 384, map_range'_const 0 768,
    map_range'_const 0 768⟩

/-- A fresh robot satisfies the hypotheses of `empty_vectors_all_zero`; its empty upper-arm
    vector then has 768 entries. -/
theorem empty_vectors_all_zero_witness :
    (initSkinActivationBottles (fun _ => (7 : ℚ)) freshBottles).emptySkinActivationHand
        = List.replicate 192 0
      ∧ (initSkinActivationBottles (fun _ => (7 : ℚ)) freshBottles).emptySkinActivationForearm
        = List.replicate 384 0
      ∧ (initSkinActivationBottles (fun _ => (7 : ℚ)) freshBottles).emptySkinActivationUpperArm
        = List.replicate 768 0
      ∧ (initSkinActivationBottles (fun _ => (7 : ℚ)) freshBottles).emptySkinActivationTorso
        = List.replicate 768 0 :=
  empty_vectors_all_zero (fun _ => (7 : ℚ)) freshBottles rfl rfl

/-- C16: whatever the bottles held before, `initSkinActivationBottles` leaves the full
    upper-arm vector and the full torso vector with exactly 768 entries, every one 255,
    and 255 is not 0. -/
theorem full_upper_arm_torso_saturated {α : Type} [LinearOrderedField α] (uninit : Nat → α)
    (b : SkinActivationBottles α) :
    (initSkinActivationBottles uninit b).fullSkinActivationUpperArm = List.replicate 768 255
      ∧ (initSkinActivationBottles uninit b).fullSkinActivationTorso = List.replicate 768 255
      ∧ (initSkinActivationBottles uninit b).fullSkinActivationUpperArm.length = 768
      ∧ (initSkinActivationBottles uninit b).fullSkinActivationTorso.length = 768
      ∧ (255 : α) ≠ 0 := by
  rw [initSkinActivationBottles_eq]
  exact ⟨map_range'_const 255 768, map_range'_const 255 768, by simp, by simp, by norm_num⟩

/-! ### Joint calibration: the anchors taken from the file -/

theorem foldl_congr_proj {σ β γ : Type} (f : σ → β → σ) (g : σ → γ)
    (hf : ∀ s t b, g s = g t → g (f s b) = g (f t b)) :
    ∀ (l : List β) (s t : σ), g s = g t → g (l.foldl f s) = g (l.foldl f t) := by
  intro l
  induction l with
  | nil => intro s t h; exact h
  | cons b l ih => intro s t h; exact ih _ _ (hf s t b h)

theorem option_bind_congr_proj {σ τ γ δ : Type} (g : σ → γ) (g' : τ → δ)
    (x y : Option σ) (k k' : σ → Option τ) (hxy : x.map g = y.map g)
    (hk : ∀ a b, g a = g b → (k a).map g' = (k' b).map g') :
    (x.bind k).map g' = (y.bind k').map g' := by
  cases x <;> cases y <;> simp at hxy
  · rfl
  · exact hk _ _ hxy

theorem foldlM_option_congr_proj {σ β γ : Type} (f : σ → β → Option σ) (g : σ → γ)
    (hf : ∀ s t b, g s = g t → (f s b).map g = (f t b).map g) :
    ∀ (l : List β) (s t : σ), g s = g t →
      (l.foldlM f s).map g = (l.foldlM f t).map g := by
  intro l
  induction l with
  | nil =>
    intro s t h
    simp only [List.foldlM, pure, Option.map_some', h]
  | cons b l ih =>
    intro s t h
    simp only [List.foldlM, bind]
    exact option_bind_congr_proj g g _ _ _ _ (hf s t b h) (fun a b hab => ih a b hab)

/-- The `legs` section computes the file anchors from the file anchors alone. -/
theorem loadJointPosition_legs_fileAnchors {α : Type} [Zero α] (bL bR : Bottle α)
    (s t : ICubSim α) (h : fileAnchors s = fileAnchors t) :
    (loadJointPosition_legs bL bR s).map fileAnchors
      = (loadJointPosition_legs bL bR t).map fileAnchors := by
  refine foldlM_option_congr_proj _ fileAnchors ?_ _ s t h
  intro s t i h
  cases hl : Value.asList (bL.get (i + 1)) with
  | none => simp [hl, bind]
  | some lj =>
    cases hr : Value.asList (bR.get (i + 1)) with
    | none => simp [hr, bind]
    | some rj =>
      simp only [hl, hr, bind, Option.some_bind, pure, Option.map_some', Option.some.injEq]
      refine foldl_congr_proj _ fileAnchors ?_ _ _ _ ?_
      · intro s t j h
        simp only [fileAnchors, Prod.mk.injEq] at h ⊢
        obtain ⟨h1, h2, h3, h4, h5, h6⟩ := h
        simp only [h1, h2, h3, h4, h5, h6, and_self]
      · simp only [fileAnchors, Prod.mk.injEq] at h ⊢
        obtain ⟨h1, h2, h3, h4, h5, h6⟩ := h
        simp only [h1, h2, h3, h4, h5, h6, and_self]

theorem loadJointPosition_head_fileAnchors {α : Type} [Zero α] (bHead : Bottle α)
    (s t : ICubSim α) (h : fileAnchors s = fileAnchors t) :
    (loadJointPosition_head bHead s).map fileAnchors
      = (loadJointPosition_head bHead t).map fileAnchors := by
  refine foldlM_option_congr_proj _ fileAnchors ?_ _ s t h
  intro s t i h
  cases hj : Value.asList (bHead.get (i + 1)) with
  | none => simp [hj, bind]
  | some lj =>
    simp only [hj, bind, Option.some_bind, pure, Option.map_some', Option.some.injEq]
    refine foldl_congr_proj _ fileAnchors ?_ _ _ _ ?_
    · intro s t j h
      simp only [fileAnchors, Prod.mk.injEq] at h ⊢
      obtain ⟨h1, h2, h3, h4, h5, h6⟩ := h
      simp only [h1, h2, h3, h4, h5, h6, and_self]
    · simp only [fileAnchors, Prod.mk.injEq] at h ⊢
      obtain ⟨h1, h2, h3, h4, h5, h6⟩ := h
      simp only [h1, h2, h3, h4, h5, h6, and_self]

theorem loadJointPosition_eyes_fileAnchors {α : Type} [Zero α] (bL bR : Bottle α)
    (s t : ICubSim α) (h : fileAnchors s = fileAnchors t) :
    (loadJointPosition_eyes bL bR s).map fileAnchors
      = (loadJointPosition_eyes bL bR t).map fileAnchors := by
  refine foldlM_option_congr_proj _ fileAnchors ?_ _ s t h
  intro s t i h
  cases hl : Value.asList (bL.get (i + 1)) with
  | none => simp [hl, bind]
  | some lj =>
    cases hr : Value.asList (bR.get (i + 1)) with
    | none => simp [hr, bind]
    | some rj =>
      simp only [hl, hr, bind, Option.some_bind, pure, Option.map_some', Option.some.injEq]
      refine foldl_congr_proj _ fileAnchors ?_ _ _ _ ?_
      · intro s t j h
        simp only [fileAnchors, Prod.mk.injEq] at h ⊢
        obtain ⟨h1, h2, h3, h4, h5, h6⟩ := h
        simp only [h1, h2, h3, h4, h5, h6, and_self]
      · simp only [fileAnchors, Prod.mk.injEq] at h ⊢
        obtain ⟨h1, h2, h3, h4, h5, h6⟩ := h
        simp only [h1, h2, h3, h4, h5, h6, and_self]

theorem loadJointPosition_inertial_fileAnchors {α : Type} [Zero α] (b : Bottle α)
    (s t : ICubSim α) (h : fileAnchors s = fileAnchors t) :
    (loadJointPosition_inertial b s).map fileAnchors
      = (loadJointPosition_inertial b t).map fileAnchors := by
  unfold loadJointPosition_inertial
  cases hj : Value.asList (b.get 1) with
  | none => simp [bind]
  | some lj =>
    simp only [bind, Option.some_bind, pure, Option.map_some', Option.some.injEq]
    refine foldl_congr_proj _ fileAnchors ?_ _ _ _ ?_
    · intro s t j h
      simp only [fileAnchors, Prod.mk.injEq] at h ⊢
      obtain ⟨h1, h2, h3, h4, h5, h6⟩ := h
      simp only [h1, h2, h3, h4, h5, h6, and_self]
    · simp only [fileAnchors, Prod.mk.injEq] at h ⊢
      obtain ⟨h1, h2, h3, h4, h5, h6⟩ := h
      simp only [h1, h2, h3, h4, h5, h6, and_self]

/-- The `torso` and `arms` sections leave the file anchors alone. -/
theorem loadJointPosition_torso_fileAnchors {α : Type} [Ring α] (s : ICubSim α) :
    fileAnchors (loadJointPosition_torso s) = fileAnchors s := by
  refine foldl_preserves _ fileAnchors ?_ _ s
  intro t i
  dsimp only
  split_ifs <;> rfl

theorem loadJointPosition_arms_fileAnchors {α : Type} [Ring α] (s : ICubSim α) :
    fileAnchors (loadJointPosition_arms s) = fileAnchors s := by
  refine foldl_preserves _ fileAnchors ?_ _ s
  intro t i
  dsimp only
  split_ifs <;> rfl

/-- The file anchors after `loadJointPosition` depend on the state before the call only
    through its file anchors. -/
theorem loadJointPosition_fileAnchors {α : Type} [Ring α] (bJoints : Bottle α)
    (s t : ICubSim α) (h : fileAnchors s = fileAnchors t) :
    (loadJointPosition (some bJoints) s).map (fun r => (r.1, fileAnchors r.2))
      = (loadJointPosition (some bJoints) t).map (fun r => (r.1, fileAnchors r.2)) := by
  simp only [loadJointPosition, bind, pure]
  refine option_bind_congr_proj fileAnchors _ _ _ _ _
    (loadJointPosition_legs_fileAnchors _ _ s t h) ?_
  intro s1 t1 h1
  refine option_bind_congr_proj fileAnchors _ _ _ _ _
    (loadJointPosition_head_fileAnchors _ _ _ ?_) ?_
  · rw [loadJointPosition_arms_fileAnchors, loadJointPosition_torso_fileAnchors,
      loadJointPosition_arms_fileAnchors, loadJointPosition_torso_fileAnchors, h1]
  intro s2 t2 h2
  refine option_bind_congr_proj fileAnchors _ _ _ _ _
    (loadJointPosition_eyes_fileAnchors _ _ s2 t2 h2) ?_
  intro s3 t3 h3
  refine option_bind_congr_proj fileAnchors _ _ _ _ _
    (loadJointPosition_inertial_fileAnchors _ s3 t3 h3) ?_
  intro s4 t4 h4
  simp only [Option.map_some', h4]

theorem foldl_invariant {σ β : Type} (f : σ → β → σ) (P : σ → Prop)
    (hf : ∀ s b, P s → P (f s b)) : ∀ (l : List β) (s : σ), P s → P (l.foldl f s) := by
  intro l
  induction l with
  | nil => intro s h; exact h
  | cons b l ih => intro s h; exact ih _ (hf s b h)

/-- The `torso` section writes the torso anchor and axis tables only. -/
theorem loadJointPosition_torso_frame {α : Type} [Ring α] (s : ICubSim α) :
    ∃ jPt jAt, loadJointPosition_torso s = { s with jP_torso := jPt, jA_torso := jAt } := by
  refine foldl_invariant _
    (fun t => ∃ jPt jAt, t = { s with jP_torso := jPt, jA_torso := jAt }) ?_ _ s
    ⟨s.jP_torso, s.jA_torso, rfl⟩
  rintro t i ⟨jPt, jAt, rfl⟩
  dsimp only
  split_ifs <;> exact ⟨_, _, rfl⟩

/-- The `arms` section writes the arm anchor and axis tables only. -/
theorem loadJointPosition_arms_frame {α : Type} [Ring α] (s : ICubSim α) :
    ∃ jPl jAl jPr jAr, loadJointPosition_arms s
      = { s with jP_leftArm := jPl, jA_leftArm := jAl, jP_rightArm := jPr, jA_rightArm := jAr } := by
  refine foldl_invariant _
    (fun t => ∃ jPl jAl jPr jAr, t
      = { s with jP_leftArm := jPl, jA_leftArm := jAl, jP_rightArm := jPr, jA_rightArm := jAr })
    ?_ _ s ⟨s.jP_leftArm, s.jA_leftArm, s.jP_rightArm, s.jA_rightArm, rfl⟩
  rintro t i ⟨jPl, jAl, jPr, jAr, rfl⟩
  dsimp only
  split_ifs <;> exact ⟨_, _, _, _, rfl⟩

/-- The later sections leave the head and eye tables alone. -/
theorem loadJointPosition_eyes_head {α : Type} [Zero α] (bL bR : Bottle α) (s s' : ICubSim α)
    (h : loadJointPosition_eyes bL bR s = some s') : s'.jP_head = s.jP_head := by
  refine foldlM_option_preserves _ (fun t : ICubSim α => t.jP_head) ?_ _ s s' h
  intro t i t' ht
  simp only [bind, Option.bind_eq_some, pure, Option.some.injEq] at ht
  obtain ⟨hl, -, hr, -, rfl⟩ := ht
  rfl

theorem loadJointPosition_inertial_head_eyes {α : Type} [Zero α] (b : Bottle α)
    (s s' : ICubSim α) (h : loadJointPosition_inertial b s = some s') :
    (s'.jP_head, s'.jP_leftEye, s'.jP_rightEye) = (s.jP_head, s.jP_leftEye, s.jP_rightEye) := by
  simp only [loadJointPosition_inertial, bind, Option.bind_eq_some, pure,
    Option.some.injEq] at h
  obtain ⟨hj, -, rfl⟩ := h
  rfl

/-- The head table after the `head` section, for a group of four points. -/
theorem loadJointPosition_head_values {α : Type} [Zero α] (k : String) (s : ICubSim α)
    (h0 h1 h2 h3 : α × α × α) :
    ∃ s', loadJointPosition_head (Value.string k :: [h0, h1, h2, h3].map Value.point) s
        = some s' ∧
      ∀ i p, [h0, h1, h2, h3][i]? = some p → s'.jP_head i = [p.1, p.2.1, p.2.2] := by
  refine ⟨_, rfl, ?_⟩
  intro i p hp
  rcases i with _ | _ | _ | _ | i <;>
    simp only [List.getElem?_cons_zero, List.getElem?_cons_succ, List.getElem?_nil,
      Option.some.injEq, reduceCtorEq] at hp <;>
    subst hp <;>
    exact resize3_set _ _ _ _

/-- The eye tables after the `eyes` section, for groups of two points each. -/
theorem loadJointPosition_eyes_values {α : Type} [Zero α] (k1 k2 : String) (s : ICubSim α)
    (l0 l1 r0 r1 : α × α × α) :
    ∃ s', loadJointPosition_eyes (Value.string k1 :: [l0, l1].map Value.point)
        (Value.string k2 :: [r0, r1].map Value.point) s = some s' ∧
      (∀ i p, [l0, l1][i]? = some p → s'.jP_leftEye i = [p.1, p.2.1, p.2.2]) ∧
      (∀ i p, [r0, r1][i]? = some p → s'.jP_rightEye i = [p.1, p.2.1, p.2.2]) := by
  refine ⟨_, rfl, ?_, ?_⟩
  · intro i p hp
    rcases i with _ | _ | i <;>
      simp only [List.getElem?_cons_zero, List.getElem?_cons_succ, List.getElem?_nil,
        Option.some.injEq, reduceCtorEq] at hp <;>
      subst hp <;>
      exact resize3_set _ _ _ _
  · intro i p hp
    rcases i with _ | _ | i <;>
      simp only [List.getElem?_cons_zero, List.getElem?_cons_succ, List.getElem?_nil,
        Option.some.injEq, reduceCtorEq] at hp <;>
      subst hp <;>
      exact resize3_set _ _ _ _

/-- The inertial anchor after the `inertial` section, for a group of one point. -/
theorem loadJointPosition_inertial_values {α : Type} [Zero α] (k : String) (s : ICubSim α)
    (n0 : α × α × α) :
    ∃ s', loadJointPosition_inertial (Value.string k :: [n0].map Value.point) s = some s' ∧
      s'.jP_inertial = [n0.1, n0.2.1, n0.2.2] :=
  ⟨_, rfl, resize3_set _ _ _ _⟩

/-- C20: for every calibration document, replacing the two arm chains and the two root
    transforms of the robot does not change what `loadJointPosition` returns nor the leg,
    head, eye and inertial anchors it stores. When the six groups of the document hold
    their points, the load returns `true` and the stored anchors are the file values,
    component by component: leg anchor `5-i` is the `i`-th leg point, head anchor `i` the
    `i`-th point of `head`, eye anchor `i` the `i`-th point of `left_eye` / `right_eye`,
    and the inertial anchor the point of `inertial`. The forward-kinematics sections
    (`torso`, `arms`) change only the six tables `jP_torso`, `jA_torso`, `jP_leftArm`,
    `jA_leftArm`, `jP_rightArm`, `jA_rightArm`. -/
theorem loadJointPosition_file_anchors {α : Type} [Ring α] (bJoints : Bottle α)
    (s : ICubSim α) (cL cR : iKinChain α) (Hr Hw : Mat4 α) :
    ((loadJointPosition (some bJoints)
        { s with iKinLeftArm := cL, iKinRightArm := cR, H_r2w := Hr, H_w2r := Hw }).map
          (fun r => (r.1, fileAnchors r.2))
      = (loadJointPosition (some bJoints) s).map (fun r => (r.1, fileAnchors r.2))) ∧
    (∀ (PL PR : List (α × α × α)) (h0 h1 h2 h3 l0 l1 r0 r1 n0 : α × α × α),
      PL.length = 6 → PR.length = 6 →
      Bottle.findGroup bJoints "left_leg" = Value.string "left_leg" :: PL.map Value.point →
      Bottle.findGroup bJoints "right_leg" = Value.string "right_leg" :: PR.map Value.point →
      Bottle.findGroup bJoints "head"
          = Value.string "head" :: [h0, h1, h2, h3].map Value.point →
      Bottle.findGroup bJoints "left_eye"
          = Value.string "left_eye" :: [l0, l1].map Value.point →
      Bottle.findGroup bJoints "right_eye"
          = Value.string "right_eye" :: [r0, r1].map Value.point →
      Bottle.findGroup bJoints "inertial"
          = Value.string "inertial" :: [n0].map Value.point →
      ∃ s', loadJointPosition (some bJoints) s = some (true, s') ∧
        (∀ i p, PL[i]? = some p → s'.jP_leftLeg (5 - i) = [p.1, p.2.1, p.2.2]) ∧
        (∀ i p, PR[i]? = some p → s'.jP_rightLeg (5 - i) = [p.1, p.2.1, p.2.2]) ∧
        (∀ i p, [h0, h1, h2, h3][i]? = some p → s'.jP_head i = [p.1, p.2.1, p.2.2]) ∧
        (∀ i p, [l0, l1][i]? = some p → s'.jP_leftEye i = [p.1, p.2.1, p.2.2]) ∧
        (∀ i p, [r0, r1][i]? = some p → s'.jP_rightEye i = [p.1, p.2.1, p.2.2]) ∧
        s'.jP_inertial = [n0.1, n0.2.1, n0.2.2]) ∧
    (∃ jPt jAt jPl jAl jPr jAr, loadJointPosition_arms (loadJointPosition_torso s)
      = { s with jP_torso := jPt, jA_torso := jAt, jP_leftArm := jPl, jA_leftArm := jAl, jP_rightArm := jPr, jA_rightArm := jAr }) := by
  refine ⟨loadJointPosition_fileAnchors bJoints _ s rfl, ?_, ?_⟩
  · intro PL PR h0 h1 h2 h3 l0 l1 r0 r1 n0 hl hr hL hR hH hLE hRE hI
    obtain ⟨p0, p1, p2, p3, p4, p5, rfl⟩ := list_length_six PL hl
    obtain ⟨q0, q1, q2, q3, q4, q5, rfl⟩ := list_length_six PR hr
    obtain ⟨s1, hs1, hleft, hright⟩ :=
      loadJointPosition_legs_points "left_leg" "right_leg" s p0 p1 p2 p3 p4 p5 q0 q1 q2 q3 q4 q5
    obtain ⟨s2, hs2, hhead⟩ := loadJointPosition_head_values "head"
      (loadJointPosition_arms (loadJointPosition_torso s1)) h0 h1 h2 h3
    obtain ⟨s3, hs3, hleye, hreye⟩ :=
      loadJointPosition_eyes_values "left_eye" "right_eye" s2 l0 l1 r0 r1
    obtain ⟨s4, hs4, hin⟩ := loadJointPosition_inertial_values "inertial" s3 n0
    have e4 := loadJointPosition_inertial_legs _ _ _ hs4
    have e3 := loadJointPosition_eyes_legs _ _ _ _ hs3
    have e2 := loadJointPosition_head_legs _ _ _ hs2
    rw [loadJointPosition_arms_legs, loadJointPosition_torso_legs] at e2
    rw [e3, e2] at e4
    simp only [Prod.mk.injEq] at e4
    have f4 := loadJointPosition_inertial_head_eyes _ _ _ hs4
    have f3 := loadJointPosition_eyes_head _ _ _ _ hs3
    simp only [Prod.mk.injEq] at f4
    refine ⟨s4, ?_, ?_, ?_, ?_, ?_, ?_, hin⟩
    · simp only [loadJointPosition, hL, hR, hs1, hH, hLE, hRE, hI, bind, pure,
        Option.some_bind, hs2, hs3, hs4]
    · intro i p hp
      rw [e4.1]
      exact hleft i p hp
    · intro i p hp
      rw [e4.2]
      exact hright i p hp
    · intro i p hp
      rw [f4.1, f3]
      exact hhead i p hp
    · intro i p hp
      rw [f4.2.1]
      exact hleye i p hp
    · intro i p hp
      rw [f4.2.2]
      exact hreye i p hp
  · obtain ⟨jPt, jAt, ht⟩ := loadJointPosition_torso_frame s
    obtain ⟨jPl, jAl, jPr, jAr, ha⟩ := loadJointPosition_arms_frame (loadJointPosition_torso s)
    refine ⟨jPt, jAt, jPl, jAl, jPr, jAr, ?_⟩
    rw [ha, ht]

/-- Witness for C20: on the sample document the load returns `true`, head anchor 0 is the
    first head point `(41, 42, 43)`, head anchor 3 the last one, the eye anchors and the
    inertial anchor are the file points, and a robot with other arm chains and root
    transforms stores the same file anchors. -/
theorem loadJointPosition_file_anchors_witness :
    ∃ s', loadJointPosition (some sampleJoints) blankICubSim = some (true, s') ∧
      s'.jP_head 0 = [41, 42, 43] ∧ s'.jP_head 3 = [50, 51, 52] ∧
      s'.jP_leftEye 1 = [64, 65, 66] ∧ s'.jP_rightEye 0 = [71, 72, 73] ∧
      s'.jP_inertial = [81, 82, 83] ∧
      (loadJointPosition (some sampleJoints)
        { blankICubSim with iKinLeftArm := { getH0 := fun _ _ => 1, getH := fun _ _ _ => 2 }, iKinRightArm := { getH0 := fun _ _ => 3, getH := fun _ _ _ => 4 }, H_r2w := fun _ _ => 5, H_w2r := fun _ _ => 6 }).map
          (fun r => (r.1, fileAnchors r.2)) = some (true, fileAnchors s') := by
  have h := loadJointPosition_file_anchors sampleJoints blankICubSim
    { getH0 := fun _ _ => 1, getH := fun _ _ _ => 2 }
    { getH0 := fun _ _ => 3, getH := fun _ _ _ => 4 } (fun _ _ => 5) (fun _ _ => 6)
  obtain ⟨s', hs', -, -, hhead, hleye, hreye, hin⟩ := h.2.1
    [(1, 2, 3), (4, 5, 6), (7, 8, 9), (10, 11, 12), (13, 14, 15), (16, 17, 18)]
    [(21, 22, 23), (24, 25, 26), (27, 28, 29), (30, 31, 32), (33, 34, 35), (36, 37, 38)]
    (41, 42, 43) (44, 45, 46) (47, 48, 49) (50, 51, 52)
    (61, 62, 63) (64, 65, 66) (71, 72, 73) (74, 75, 76) (81, 82, 83)
    rfl rfl rfl rfl rfl rfl rfl rfl
  refine ⟨s', hs', hhead 0 _ rfl, hhead 3 _ rfl, hleye 1 _ rfl, hreye 0 _ rfl, hin, ?_⟩
  rw [h.1, hs']
  rfl

/-! ### Joint calibration: the anchors and axes from forward kinematics -/

theorem foldlM_option_invariant {σ β : Type} (f : σ → β → Option σ) (P : σ → Prop)
    (hf : ∀ s b s', P s → f s b = some s' → P s') :
    ∀ (l : List β) (s s' : σ), P s → l.foldlM f s = some s' → P s' := by
  intro l
  induction l with
  | nil =>
    intro s s' hs h
    simp only [List.foldlM, pure, Option.some.injEq] at h
    exact h ▸ hs
  | cons b l ih =>
    intro s s' hs h
    simp only [List.foldlM, bind, Option.bind_eq_some] at h
    obtain ⟨s1, h1, h2⟩ := h
    exact ih s1 s' (hf s b s1 hs h1) h2

/-- The `legs` section writes the two leg tables only. -/
theorem loadJointPosition_legs_frame {α : Type} [Zero α] (bL bR : Bottle α) (s s' : ICubSim α)
    (h : loadJointPosition_legs bL bR s = some s') :
    ∃ a b, s' = { s with jP_leftLeg := a, jP_rightLeg := b } := by
  refine foldlM_option_invariant _
    (fun t => ∃ a b, t = { s with jP_leftLeg := a, jP_rightLeg := b }) ?_ _ s s'
    ⟨s.jP_leftLeg, s.jP_rightLeg, rfl⟩ h
  rintro t i t' ⟨a, b, rfl⟩ ht
  simp only [bind, Option.bind_eq_some, pure, Option.some.injEq] at ht
  obtain ⟨lj, -, rj, -, rfl⟩ := ht
  refine foldl_invariant _
    (fun t => ∃ a b, t = { s with jP_leftLeg := a, jP_rightLeg := b }) ?_ _ _ ?_
  · rintro t j ⟨a, b, rfl⟩
    exact ⟨_, _, rfl⟩
  · exact ⟨_, _, rfl⟩

/-- The `head` section writes the head table only. -/
theorem loadJointPosition_head_frame {α : Type} [Zero α] (bHead : Bottle α) (s s' : ICubSim α)
    (h : loadJointPosition_head bHead s = some s') :
    ∃ a, s' = { s with jP_head := a } := by
  refine foldlM_option_invariant _ (fun t => ∃ a, t = { s with jP_head := a }) ?_ _ s s'
    ⟨s.jP_head, rfl⟩ h
  rintro t i t' ⟨a, rfl⟩ ht
  simp only [bind, Option.bind_eq_some, pure, Option.some.injEq] at ht
  obtain ⟨lj, -, rfl⟩ := ht
  refine foldl_invariant _ (fun t => ∃ a, t = { s with jP_head := a }) ?_ _ _ ?_
  · rintro t j ⟨a, rfl⟩
    exact ⟨_, rfl⟩
  · exact ⟨_, rfl⟩

/-- The `eyes` section writes the two eye tables only. -/
theorem loadJointPosition_eyes_frame {α : Type} [Zero α] (bL bR : Bottle α) (s s' : ICubSim α)
    (h : loadJointPosition_eyes bL bR s = some s') :
    ∃ a b, s' = { s with jP_leftEye := a, jP_rightEye := b } := by
  refine foldlM_option_invariant _
    (fun t => ∃ a b, t = { s with jP_leftEye := a, jP_rightEye := b }) ?_ _ s s'
    ⟨s.jP_leftEye, s.jP_rightEye, rfl⟩ h
  rintro t i t' ⟨a, b, rfl⟩ ht
  simp only [bind, Option.bind_eq_some, pure, Option.some.injEq] at ht
  obtain ⟨lj, -, rj, -, rfl⟩ := ht
  refine foldl_invariant _
    (fun t => ∃ a b, t = { s with jP_leftEye := a, jP_rightEye := b }) ?_ _ _ ?_
  · rintro t j ⟨a, b, rfl⟩
    exact ⟨_, _, rfl⟩
  · exact ⟨_, _, rfl⟩

/-- The `inertial` section writes the inertial anchor only. -/
theorem loadJointPosition_inertial_frame {α : Type} [Zero α] (b : Bottle α) (s s' : ICubSim α)
    (h : loadJointPosition_inertial b s = some s') :
    ∃ a, s' = { s with jP_inertial := a } := by
  simp only [loadJointPosition_inertial, bind, Option.bind_eq_some, pure,
    Option.some.injEq] at h
  obtain ⟨lj, -, rfl⟩ := h
  refine foldl_invariant _ (fun t => ∃ a, t = { s with jP_inertial := a }) ?_ _ _ ?_
  · rintro t j ⟨a, rfl⟩
    exact ⟨_, rfl⟩
  · exact ⟨_, rfl⟩

/-- The sections of a load that returns: the state after each of them. -/
theorem loadJointPosition_sections {α : Type} [Ring α] (bJoints : Bottle α) (s s' : ICubSim α)
    (ok : Bool) (h : loadJointPosition (some bJoints) s = some (ok, s')) :
    ok = true ∧ ∃ s1 s2 s3,
      loadJointPosition_legs (Bottle.findGroup bJoints "left_leg")
        (Bottle.findGroup bJoints "right_leg") s = some s1 ∧
      loadJointPosition_head (Bottle.findGroup bJoints "head")
        (loadJointPosition_arms (loadJointPosition_torso s1)) = some s2 ∧
      loadJointPosition_eyes (Bottle.findGroup bJoints "left_eye")
        (Bottle.findGroup bJoints "right_eye") s2 = some s3 ∧
      loadJointPosition_inertial (Bottle.findGroup bJoints "inertial") s3 = some s' := by
  simp only [loadJointPosition, bind, Option.bind_eq_some, pure, Option.some.injEq,
    Prod.mk.injEq] at h
  obtain ⟨s1, h1, s2, h2, s3, h3, s4, h4, hok, rfl⟩ := h
  exact ⟨hok.symm, s1, s2, s3, h1, h2, h3, h4⟩

/-- The torso tables after the `torso` section. -/
theorem loadJointPosition_torso_values {α : Type} [Ring α] (s : ICubSim α) (i : Nat)
    (hi : i < 3) :
    (loadJointPosition_torso s).jP_torso i = translationZXY (torsoLinkTransform s i) ∧
    (loadJointPosition_torso s).jA_torso i
      = if i > 0 then scale (-1) (rotationColumn (torsoLinkTransform s i))
        else rotationColumn (torsoLinkTransform s i) := by
  rcases i with _ | _ | _ | i
  · exact ⟨resize3_set _ _ _ _, rfl⟩
  · exact ⟨resize3_set _ _ _ _, rfl⟩
  · exact ⟨resize3_set _ _ _ _, rfl⟩
  · omega

theorem foldl_range_table {σ γ : Type} (f : σ → Nat → σ) (tab : σ → Nat → γ) (v : Nat → γ)
    (P : σ → Prop) (hP : ∀ t i, P t → P (f t i))
    (hstep : ∀ t i, P t → tab (f t i) = Function.update (tab t) i (v i)) :
    ∀ (n : Nat) (s : σ), P s →
      P ((List.range n).foldl f s) ∧ ∀ k, k < n → tab ((List.range n).foldl f s) k = v k := by
  intro n
  induction n with
  | zero =>
    intro s hs
    exact ⟨hs, fun k hk => absurd hk (Nat.not_lt_zero k)⟩
  | succ n ih =>
    intro s hs
    obtain ⟨h1, h2⟩ := ih s hs
    rw [List.range_succ, List.foldl_append, List.foldl_cons, List.foldl_nil]
    refine ⟨hP _ _ h1, ?_⟩
    intro k hk
    rw [hstep _ _ h1]
    by_cases hkn : k = n
    · subst hkn
      exact Function.update_same _ _ _
    · rw [Function.update_noteq hkn]
      exact h2 k (by omega)

/-- The arm tables after the `arms` section. -/
theorem loadJointPosition_arms_values {α : Type} [Ring α] (s : ICubSim α) (i : Nat)
    (hi : i < 8) :
    ((loadJointPosition_arms s).jP_leftArm i = translationZXY (leftArmLinkTransform s i) ∧
     (loadJointPosition_arms s).jA_leftArm i
      = if i > 1 then scale (-1) (rotationColumn (leftArmLinkTransform s i))
        else rotationColumn (leftArmLinkTransform s i)) ∧
    ((loadJointPosition_arms s).jP_rightArm i = translationZXY (rightArmLinkTransform s i) ∧
     (loadJointPosition_arms s).jA_rightArm i
      = if i = 1 ∨ i = 3 then scale (-1) (rotationColumn (rightArmLinkTransform s i))
        else rotationColumn (rightArmLinkTransform s i)) := by
  have key : ((loadJointPosition_arms s).jP_leftArm i, (loadJointPosition_arms s).jA_leftArm i,
      (loadJointPosition_arms s).jP_rightArm i, (loadJointPosition_arms s).jA_rightArm i)
      = (translationZXY (leftArmLinkTransform s i),
          (if i > 1 then scale (-1) (rotationColumn (leftArmLinkTransform s i))
            else rotationColumn (leftArmLinkTransform s i)),
          translationZXY (rightArmLinkTransform s i),
          (if i = 1 ∨ i = 3 then scale (-1) (rotationColumn (rightArmLinkTransform s i))
            else rotationColumn (rightArmLinkTransform s i))) := by
    unfold loadJointPosition_arms
    refine (foldl_range_table _
      (fun (t : ICubSim α) k =>
        (t.jP_leftArm k, t.jA_leftArm k, t.jP_rightArm k, t.jA_rightArm k))
      (fun k => (translationZXY (leftArmLinkTransform s k),
        (if k > 1 then scale (-1) (rotationColumn (leftArmLinkTransform s k))
          else rotationColumn (leftArmLinkTransform s k)),
        translationZXY (rightArmLinkTransform s k),
        (if k = 1 ∨ k = 3 then scale (-1) (rotationColumn (rightArmLinkTransform s k))
          else rotationColumn (rightArmLinkTransform s k))))
      (fun t => fkInputs t = fkInputs s) ?_ ?_ 8 s rfl).2 i hi
    · intro t k ht
      rw [← ht]
      dsimp only
      split_ifs <;> rfl
    · intro t k ht
      simp only [fkInputs, Prod.mk.injEq] at ht
      obtain ⟨h1, h2, h3⟩ := ht
      funext j
      by_cases hj : j = k
      · subst hj
        rw [Function.update_same]
        dsimp only
        split_ifs <;>
          simp only [Function.update_same, Function.update_idem, resize3_set, h1, h2, h3] <;>
          rfl
      · rw [Function.update_noteq hj]
        dsimp only
        split_ifs <;>
          simp only [Function.update_noteq hj]
  simp only [Prod.mk.injEq] at key
  exact ⟨⟨key.1, key.2.1⟩, ⟨key.2.2.1, key.2.2.2⟩⟩

/-- The link transforms depend on the state through the chains and the root transform. -/
theorem linkTransform_congr {α : Type} [Ring α] (s t : ICubSim α)
    (h : fkInputs t = fkInputs s) :
    torsoLinkTransform t = torsoLinkTransform s ∧
    leftArmLinkTransform t = leftArmLinkTransform s ∧
    rightArmLinkTransform t = rightArmLinkTransform s := by
  simp only [fkInputs, Prod.mk.injEq] at h
  obtain ⟨h1, h2, h3⟩ := h
  refine ⟨?_, ?_, ?_⟩ <;> funext i <;>
    simp only [torsoLinkTransform, leftArmLinkTransform, rightArmLinkTransform, h1, h2, h3]

/-- The torso and arm tables in the state that a load returns. -/
theorem loadJointPosition_fk_values {α : Type} [Ring α] (bJoints : Bottle α)
    (s s' : ICubSim α) (ok : Bool)
    (h : loadJointPosition (some bJoints) s = some (ok, s')) :
    (∀ i, i < 3 →
      s'.jP_torso i = translationZXY (torsoLinkTransform s i) ∧
      s'.jA_torso i
        = if i > 0 then scale (-1) (rotationColumn (torsoLinkTransform s i))
          else rotationColumn (torsoLinkTransform s i)) ∧
    (∀ i, i < 8 →
      (s'.jP_leftArm i = translationZXY (leftArmLinkTransform s i) ∧
       s'.jA_leftArm i
        = if i > 1 then scale (-1) (rotationColumn (leftArmLinkTransform s i))
          else rotationColumn (leftArmLinkTransform s i)) ∧
      (s'.jP_rightArm i = translationZXY (rightArmLinkTransform s i) ∧
       s'.jA_rightArm i
        = if i = 1 ∨ i = 3 then scale (-1) (rotationColumn (rightArmLinkTransform s i))
          else rotationColumn (rightArmLinkTransform s i))) := by
  obtain ⟨-, s1, s2, s3, h1, h2, h3, h4⟩ := loadJointPosition_sections bJoints s s' ok h
  obtain ⟨a1, a2, rfl⟩ := loadJointPosition_legs_frame _ _ _ _ h1
  obtain ⟨a3, rfl⟩ := loadJointPosition_head_frame _ _ _ h2
  obtain ⟨a4, a5, rfl⟩ := loadJointPosition_eyes_frame _ _ _ _ h3
  obtain ⟨a6, rfl⟩ := loadJointPosition_inertial_frame _ _ _ h4
  have e1 : fkInputs (loadJointPosition_torso
      { s with jP_leftLeg := a1, jP_rightLeg := a2 }) = fkInputs s := by
    obtain ⟨x, y, hx⟩ := loadJointPosition_torso_frame
      { s with jP_leftLeg := a1, jP_rightLeg := a2 }
    rw [hx]
    rfl
  have e2 : ∀ i, ((loadJointPosition_arms (loadJointPosition_torso
        { s with jP_leftLeg := a1, jP_rightLeg := a2 })).jP_torso i,
      (loadJointPosition_arms (loadJointPosition_torso
        { s with jP_leftLeg := a1, jP_rightLeg := a2 })).jA_torso i)
      = ((loadJointPosition_torso { s with jP_leftLeg := a1, jP_rightLeg := a2 }).jP_torso i,
        (loadJointPosition_torso { s with jP_leftLeg := a1, jP_rightLeg := a2 }).jA_torso i) := by
    intro i
    obtain ⟨x, y, z, w, hx⟩ := loadJointPosition_arms_frame
      (loadJointPosition_torso { s with jP_leftLeg := a1, jP_rightLeg := a2 })
    rw [hx]
  obtain ⟨c1, c2, c3⟩ := linkTransform_congr s _ e1
  have c0 : torsoLinkTransform { s with jP_leftLeg := a1, jP_rightLeg := a2 }
      = torsoLinkTransform s := rfl
  constructor
  · intro i hi
    have hv := loadJointPosition_torso_values { s with jP_leftLeg := a1, jP_rightLeg := a2 } i hi
    have he := e2 i
    simp only [Prod.mk.injEq] at he
    rw [c0] at hv
    exact ⟨he.1.trans hv.1, he.2.trans hv.2⟩
  · intro i hi
    have hv := loadJointPosition_arms_values
      (loadJointPosition_torso { s with jP_leftLeg := a1, jP_rightLeg := a2 }) i hi
    rw [c2, c3] at hv
    exact hv

/-- A document whose six groups hold their points is loaded with result `true`. -/
theorem loadJointPosition_returns {α : Type} [Ring α] (bJoints : Bottle α) (s : ICubSim α)
    (PL PR : List (α × α × α)) (h0 h1 h2 h3 l0 l1 r0 r1 n0 : α × α × α)
    (hl : PL.length = 6) (hr : PR.length = 6)
    (hL : Bottle.findGroup bJoints "left_leg" = Value.string "left_leg" :: PL.map Value.point)
    (hR : Bottle.findGroup bJoints "right_leg"
            = Value.string "right_leg" :: PR.map Value.point)
    (hH : Bottle.findGroup bJoints "head"
            = Value.string "head" :: [h0, h1, h2, h3].map Value.point)
    (hLE : Bottle.findGroup bJoints "left_eye"
            = Value.string "left_eye" :: [l0, l1].map Value.point)
    (hRE : Bottle.findGroup bJoints "right_eye"
            = Value.string "right_eye" :: [r0, r1].map Value.point)
    (hI : Bottle.findGroup bJoints "inertial"
            = Value.string "inertial" :: [n0].map Value.point) :
    ∃ s', loadJointPosition (some bJoints) s = some (true, s') := by
  obtain ⟨p0, p1, p2, p3, p4, p5, rfl⟩ := list_length_six PL hl
  obtain ⟨q0, q1, q2, q3, q4, q5, rfl⟩ := list_length_six PR hr
  obtain ⟨s1, hs1, -, -⟩ :=
    loadJointPosition_legs_points "left_leg" "right_leg" s p0 p1 p2 p3 p4 p5 q0 q1 q2 q3 q4 q5
  obtain ⟨s2, hs2⟩ := loadJointPosition_head_points "head"
    (loadJointPosition_arms (loadJointPosition_torso s1)) h0 h1 h2 h3
  obtain ⟨s3, hs3⟩ := loadJointPosition_eyes_points "left_eye" "right_eye" s2 l0 l1 r0 r1
  obtain ⟨s4, hs4⟩ := loadJointPosition_inertial_points "inertial" s3 n0
  refine ⟨s4, ?_⟩
  simp only [loadJointPosition, hL, hR, hs1, hH, hLE, hRE, hI, bind, pure,
    Option.some_bind, hs2, hs3, hs4]

/-- The sample document is loaded with result `true` on any robot over the rationals. -/
theorem loadJointPosition_sampleJoints (s : ICubSim ℚ) :
    ∃ s', loadJointPosition (some sampleJoints) s = some (true, s') :=
  loadJointPosition_returns sampleJoints s
    [(1, 2, 3), (4, 5, 6), (7, 8, 9), (10, 11, 12), (13, 14, 15), (16, 17, 18)]
    [(21, 22, 23), (24, 25, 26), (27, 28, 29), (30, 31, 32), (33, 34, 35), (36, 37, 38)]
    (41, 42, 43) (44, 45, 46) (47, 48, 49) (50, 51, 52)
    (61, 62, 63) (64, 65, 66) (71, 72, 73) (74, 75, 76) (81, 82, 83)
    rfl rfl rfl rfl rfl rfl rfl rfl

/-- C21: in the state that `loadJointPosition` returns, for every arm link index `i` in
    0..7 and each arm chain, with `H = H_w2r * chain.getH(i+2)`, the stored anchor is
    `(H(2,3), H(0,3), H(1,3))` and the stored axis is the rotation column
    `(H(0,2), H(1,2), H(2,2))` or `-1` times it; for torso index `i` in 0..2 the same
    holds with `H = H_w2r * iKinLeftArm.getH0()` when `i = 0` and
    `H = H_w2r * iKinLeftArm.getH(i-1)` otherwise. -/
theorem loadJointPosition_fk_anchors {α : Type} [Ring α] (bJoints : Bottle α)
    (s s' : ICubSim α) (ok : Bool)
    (h : loadJointPosition (some bJoints) s = some (ok, s')) :
    (∀ i, i < 8 →
      (s'.jP_leftArm i = [leftArmLinkTransform s i 2 3, leftArmLinkTransform s i 0 3,
          leftArmLinkTransform s i 1 3] ∧
        (s'.jA_leftArm i = rotationColumn (leftArmLinkTransform s i) ∨
         s'.jA_leftArm i = scale (-1) (rotationColumn (leftArmLinkTransform s i)))) ∧
      (s'.jP_rightArm i = [rightArmLinkTransform s i 2 3, rightArmLinkTransform s i 0 3,
          rightArmLinkTransform s i 1 3] ∧
        (s'.jA_rightArm i = rotationColumn (rightArmLinkTransform s i) ∨
         s'.jA_rightArm i = scale (-1) (rotationColumn (rightArmLinkTransform s i))))) ∧
    (∀ i, i < 3 →
      s'.jP_torso i = [torsoLinkTransform s i 2 3, torsoLinkTransform s i 0 3,
          torsoLinkTransform s i 1 3] ∧
      (s'.jA_torso i = rotationColumn (torsoLinkTransform s i) ∨
       s'.jA_torso i = scale (-1) (rotationColumn (torsoLinkTransform s i)))) ∧
    torsoLinkTransform s 0 = Mat4.mul s.H_w2r s.iKinLeftArm.getH0 ∧
    (∀ i, 0 < i → torsoLinkTransform s i = Mat4.mul s.H_w2r (s.iKinLeftArm.getH (i - 1))) := by
  obtain ⟨ht, ha⟩ := loadJointPosition_fk_values bJoints s s' ok h
  refine ⟨?_, ?_, rfl, ?_⟩
  · intro i hi
    obtain ⟨⟨hl1, hl2⟩, ⟨hr1, hr2⟩⟩ := ha i hi
    refine ⟨⟨hl1, ?_⟩, ⟨hr1, ?_⟩⟩
    · rw [hl2]
      split_ifs
      · exact Or.inr rfl
      · exact Or.inl rfl
    · rw [hr2]
      split_ifs
      · exact Or.inr rfl
      · exact Or.inl rfl
  · intro i hi
    obtain ⟨h1, h2⟩ := ht i hi
    refine ⟨h1, ?_⟩
    rw [h2]
    split_ifs
    · exact Or.inr rfl
    · exact Or.inl rfl
  · intro i hi
    simp only [torsoLinkTransform, if_neg (Nat.pos_iff_ne_zero.mp hi)]

/-- Witness for C21: the sample document is loaded on a robot whose chains have distinct
    entries; left-arm anchor 0 is read from link 2, `(H(2,3), H(0,3), H(1,3)) =
    (223, 203, 213)`, and torso anchor 0 from the root link of the left chain. -/
theorem loadJointPosition_fk_anchors_witness :
    ∃ s', loadJointPosition (some sampleJoints) fkSample = some (true, s') ∧
      s'.jP_leftArm 0 = [223, 203, 213] ∧ s'.jP_rightArm 7 = [-923, -903, -913] ∧
      s'.jP_torso 0 = [1023, 1003, 1013] ∧ s'.jP_torso 2 = [123, 103, 113] := by
  obtain ⟨s', hs'⟩ := loadJointPosition_sampleJoints fkSample
  have h := loadJointPosition_fk_anchors sampleJoints fkSample s' true hs'
  refine ⟨s', hs', ?_, ?_, ?_, ?_⟩
  · rw [(h.1 0 (by decide)).1.1]
    norm_num [leftArmLinkTransform, rightArmLinkTransform, torsoLinkTransform, rotationColumn,
      fkSample, Mat4.mul, Mat4.one]
  · rw [(h.1 7 (by decide)).2.1]
    norm_num [leftArmLinkTransform, rightArmLinkTransform, torsoLinkTransform, rotationColumn,
      fkSample, Mat4.mul, Mat4.one]
  · rw [(h.2.1 0 (by decide)).1]
    norm_num [leftArmLinkTransform, rightArmLinkTransform, torsoLinkTransform, rotationColumn,
      fkSample, Mat4.mul, Mat4.one]
  · rw [(h.2.1 2 (by decide)).1]
    norm_num [leftArmLinkTransform, rightArmLinkTransform, torsoLinkTransform, rotationColumn,
      fkSample, Mat4.mul, Mat4.one]

/-- C22: in the state that `loadJointPosition` returns, the stored axis is `-1` times the
    rotation column of the link transform for torso indices 1 and 2, left-arm indices
    2..7 and right-arm indices 1 and 3, and is the rotation column itself for torso index
    0, left-arm indices 0 and 1 and right-arm indices 0, 2, 4, 5, 6, 7. -/
theorem loadJointPosition_axis_signs {α : Type} [Ring α] (bJoints : Bottle α)
    (s s' : ICubSim α) (ok : Bool)
    (h : loadJointPosition (some bJoints) s = some (ok, s')) :
    (∀ i, i ∈ [1, 2] →
      s'.jA_torso i = (rotationColumn (torsoLinkTransform s i)).map (fun x => -x)) ∧
    s'.jA_torso 0 = rotationColumn (torsoLinkTransform s 0) ∧
    (∀ i, i ∈ [2, 3, 4, 5, 6, 7] →
      s'.jA_leftArm i = (rotationColumn (leftArmLinkTransform s i)).map (fun x => -x)) ∧
    (∀ i, i ∈ [0, 1] → s'.jA_leftArm i = rotationColumn (leftArmLinkTransform s i)) ∧
    (∀ i, i ∈ [1, 3] →
      s'.jA_rightArm i = (rotationColumn (rightArmLinkTransform s i)).map (fun x => -x)) ∧
    (∀ i, i ∈ [0, 2, 4, 5, 6, 7] →
      s'.jA_rightArm i = rotationColumn (rightArmLinkTransform s i)) := by
  obtain ⟨ht, ha⟩ := loadJointPosition_fk_values bJoints s s' ok h
  have hneg : ∀ v : List α, scale (-1) v = v.map (fun x => -x) := by
    intro v
    simp only [scale, neg_one_mul]
  refine ⟨?_, ?_, ?_, ?_, ?_, ?_⟩
  · intro i hi
    have hi3 : i < 3 ∧ i > 0 := by
      simp only [List.mem_cons, List.mem_singleton, List.not_mem_nil, or_false] at hi
      omega
    rw [(ht i hi3.1).2, if_pos hi3.2, hneg]
  · exact (ht 0 (by decide)).2
  · intro i hi
    have hi3 : i < 8 ∧ i > 1 := by
      simp only [List.mem_cons, List.mem_singleton, List.not_mem_nil, or_false] at hi
      omega
    rw [(ha i hi3.1).1.2, if_pos hi3.2, hneg]
  · intro i hi
    have hi3 : i < 8 ∧ ¬ i > 1 := by
      simp only [List.mem_cons, List.mem_singleton, List.not_mem_nil, or_false] at hi
      omega
    rw [(ha i hi3.1).1.2, if_neg hi3.2]
  · intro i hi
    have hi3 : i < 8 ∧ (i = 1 ∨ i = 3) := by
      simp only [List.mem_cons, List.mem_singleton, List.not_mem_nil, or_false] at hi
      omega
    rw [(ha i hi3.1).2.2, if_pos hi3.2, hneg]
  · intro i hi
    have hi3 : i < 8 ∧ ¬ (i = 1 ∨ i = 3) := by
      simp only [List.mem_cons, List.mem_singleton, List.not_mem_nil, or_false] at hi
      omega
    rw [(ha i hi3.1).2.2, if_neg hi3.2]

/-- Witness for C22: on the robot whose chains have distinct entries, the left-arm axis 1
    is the rotation column `(302, 312, 322)` of link 3, the left-arm axis 2 the negated
    rotation column of link 4, and the right-arm axes 1 and 2 have opposite treatment. -/
theorem loadJointPosition_axis_signs_witness :
    ∃ s', loadJointPosition (some sampleJoints) fkSample = some (true, s') ∧
      s'.jA_leftArm 1 = [302, 312, 322] ∧ s'.jA_leftArm 2 = [-402, -412, -422] ∧
      s'.jA_rightArm 1 = [302, 312, 322] ∧ s'.jA_rightArm 2 = [-402, -412, -422] ∧
      s'.jA_torso 0 = [1002, 1012, 1022] ∧ s'.jA_torso 1 = [-2, -12, -22] := by
  obtain ⟨s', hs'⟩ := loadJointPosition_sampleJoints fkSample
  have h := loadJointPosition_axis_signs sampleJoints fkSample s' true hs'
  refine ⟨s', hs', ?_, ?_, ?_, ?_, ?_, ?_⟩
  · rw [h.2.2.2.1 1 (by decide)]
    norm_num [leftArmLinkTransform, rightArmLinkTransform, torsoLinkTransform, rotationColumn,
      fkSample, Mat4.mul, Mat4.one]
  · rw [h.2.2.1 2 (by decide)]
    norm_num [leftArmLinkTransform, rightArmLinkTransform, torsoLinkTransform, rotationColumn,
      fkSample, Mat4.mul, Mat4.one]
  · rw [h.2.2.2.2.1 1 (by decide)]
    norm_num [leftArmLinkTransform, rightArmLinkTransform, torsoLinkTransform, rotationColumn,
      fkSample, Mat4.mul, Mat4.one]
  · rw [h.2.2.2.2.2 2 (by decide)]
    norm_num [leftArmLinkTransform, rightArmLinkTransform, torsoLinkTransform, rotationColumn,
      fkSample, Mat4.mul, Mat4.one]
  · rw [h.2.1]
    norm_num [leftArmLinkTransform, rightArmLinkTransform, torsoLinkTransform, rotationColumn,
      fkSample, Mat4.mul, Mat4.one]
  · rw [h.1 1 (by decide)]
    norm_num [leftArmLinkTransform, rightArmLinkTransform, torsoLinkTransform, rotationColumn,
      fkSample, Mat4.mul, Mat4.one]

/-! ### Control-mode dispatch: the hand joints -/

/-- For an arm or hand joint with index 5 or more, the calls of a step are those of the
    three hand loops. -/
theorem callsFor_setJointControlAction_hand {α : Type} (VOCAB_CM_VELOCITY VOCAB_CM_TORQUE : Int)
    (controls : Nat → Option (List Int)) (c : JointCommands α) (a : JointArray) (x : Nat)
    (ha : a = JointArray.LAjoints ∨ a = JointArray.RAjoints) (hx : 5 ≤ x) :
    callsFor ⟨a, x⟩ (setJointControlAction VOCAB_CM_VELOCITY VOCAB_CM_TORQUE controls c)
      = callsFor ⟨a, x⟩ (handCalls c) := by
  have h5 : ¬ x < 5 := by omega
  rcases ha with rfl | rfl <;>
    simp [setJointControlAction, callsFor_append, callsFor_dispatchLoop, h5]

/-- The calls of the hand loops for the universal joints 5 and 22. -/
theorem callsFor_handCalls_universal {α : Type} (c : JointCommands α) (x : Nat)
    (hx : x = 5 ∨ x = 22) :
    callsFor ⟨JointArray.LAjoints, x⟩ (handCalls c)
      = [OdeCall.dJointSetUniversalParam ⟨JointArray.LAjoints, x⟩ dParam.dParamVel (c.la_speed x),
         OdeCall.dJointSetUniversalParam ⟨JointArray.LAjoints, x⟩ dParam.dParamVel2
           (c.la_speed1 x)] ∧
    callsFor ⟨JointArray.RAjoints, x⟩ (handCalls c)
      = [OdeCall.dJointSetUniversalParam ⟨JointArray.RAjoints, x⟩ dParam.dParamVel (c.ra_speed x),
         OdeCall.dJointSetUniversalParam ⟨JointArray.RAjoints, x⟩ dParam.dParamVel2
           (c.ra_speed1 x)] := by
  rcases hx with rfl | rfl <;> exact ⟨rfl, rfl⟩

/-- The calls of the hand loops for the finger hinges that the loop does not skip. -/
theorem callsFor_handCalls_finger {α : Type} (c : JointCommands α) (x : Nat)
    (hx : x ∈ [6, 7, 8, 10, 11, 12, 14, 15, 16, 18, 19, 20, 23, 24]) :
    callsFor ⟨JointArray.LAjoints, x⟩ (handCalls c)
      = [OdeCall.dJointSetHingeParam ⟨JointArray.LAjoints, x⟩ dParam.dParamVel (c.la_speed x)] ∧
    callsFor ⟨JointArray.RAjoints, x⟩ (handCalls c)
      = [OdeCall.dJointSetHingeParam ⟨JointArray.RAjoints, x⟩ dParam.dParamVel
          (c.ra_speed x)] := by
  simp only [List.mem_cons, List.mem_singleton, List.not_mem_nil, or_false] at hx
  rcases hx with rfl | rfl | rfl | rfl | rfl | rfl | rfl | rfl | rfl | rfl | rfl | rfl | rfl | rfl <;>
    exact ⟨rfl, rfl⟩

/-- The hand loops make no call for the joints 9, 13, 17 and 21. -/
theorem callsFor_handCalls_skipped {α : Type} (c : JointCommands α) (x : Nat)
    (hx : x ∈ [9, 13, 17, 21]) :
    callsFor ⟨JointArray.LAjoints, x⟩ (handCalls c) = [] ∧
    callsFor ⟨JointArray.RAjoints, x⟩ (handCalls c) = [] := by
  simp only [List.mem_cons, List.mem_singleton, List.not_mem_nil, or_false] at hx
  rcases hx with rfl | rfl | rfl | rfl <;> exact ⟨rfl, rfl⟩

/-- C23: whatever the control tables hold, a step makes exactly two calls for each hand
    universal joint (arm joint indices 5 and 22 on each side): it sets the first velocity
    component from the pending speed and the second from the pending second-axis speed;
    no torque call is made for these joints. -/
theorem hand_universal_velocity {α : Type} (VOCAB_CM_VELOCITY VOCAB_CM_TORQUE : Int)
    (controls : Nat → Option (List Int)) (c : JointCommands α) :
    callsFor ⟨JointArray.LAjoints, 5⟩
        (setJointControlAction VOCAB_CM_VELOCITY VOCAB_CM_TORQUE controls c)
      = [OdeCall.dJointSetUniversalParam ⟨JointArray.LAjoints, 5⟩ dParam.dParamVel (c.la_speed 5),
         OdeCall.dJointSetUniversalParam ⟨JointArray.LAjoints, 5⟩ dParam.dParamVel2
           (c.la_speed1 5)] ∧
    callsFor ⟨JointArray.LAjoints, 22⟩
        (setJointControlAction VOCAB_CM_VELOCITY VOCAB_CM_TORQUE controls c)
      = [OdeCall.dJointSetUniversalParam ⟨JointArray.LAjoints, 22⟩ dParam.dParamVel
           (c.la_speed 22),
         OdeCall.dJointSetUniversalParam ⟨JointArray.LAjoints, 22⟩ dParam.dParamVel2
           (c.la_speed1 22)] ∧
    callsFor ⟨JointArray.RAjoints, 5⟩
        (setJointControlAction VOCAB_CM_VELOCITY VOCAB_CM_TORQUE controls c)
      = [OdeCall.dJointSetUniversalParam ⟨JointArray.RAjoints, 5⟩ dParam.dParamVel (c.ra_speed 5),
         OdeCall.dJointSetUniversalParam ⟨JointArray.RAjoints, 5⟩ dParam.dParamVel2
           (c.ra_speed1 5)] ∧
    callsFor ⟨JointArray.RAjoints, 22⟩
        (setJointControlAction VOCAB_CM_VELOCITY VOCAB_CM_TORQUE controls c)
      = [OdeCall.dJointSetUniversalParam ⟨JointArray.RAjoints, 22⟩ dParam.dParamVel
           (c.ra_speed 22),
         OdeCall.dJointSetUniversalParam ⟨JointArray.RAjoints, 22⟩ dParam.dParamVel2
           (c.ra_speed1 22)] ∧
    (List.filter OdeCall.isTorque
        (callsFor ⟨JointArray.LAjoints, 5⟩
            (setJointControlAction VOCAB_CM_VELOCITY VOCAB_CM_TORQUE controls c)
          ++ callsFor ⟨JointArray.LAjoints, 22⟩
            (setJointControlAction VOCAB_CM_VELOCITY VOCAB_CM_TORQUE controls c)
          ++ callsFor ⟨JointArray.RAjoints, 5⟩
            (setJointControlAction VOCAB_CM_VELOCITY VOCAB_CM_TORQUE controls c)
          ++ callsFor ⟨JointArray.RAjoints, 22⟩
            (setJointControlAction VOCAB_CM_VELOCITY VOCAB_CM_TORQUE controls c))) = [] := by
  have hL5 := callsFor_setJointControlAction_hand VOCAB_CM_VELOCITY VOCAB_CM_TORQUE controls c
    JointArray.LAjoints 5 (Or.inl rfl) (by decide)
  have hL22 := callsFor_setJointControlAction_hand VOCAB_CM_VELOCITY VOCAB_CM_TORQUE controls c
    JointArray.LAjoints 22 (Or.inl rfl) (by decide)
  have hR5 := callsFor_setJointControlAction_hand VOCAB_CM_VELOCITY VOCAB_CM_TORQUE controls c
    JointArray.RAjoints 5 (Or.inr rfl) (by decide)
  have hR22 := callsFor_setJointControlAction_hand VOCAB_CM_VELOCITY VOCAB_CM_TORQUE controls c
    JointArray.RAjoints 22 (Or.inr rfl) (by decide)
  rw [hL5, hL22, hR5, hR22, (callsFor_handCalls_universal c 5 (Or.inl rfl)).1,
    (callsFor_handCalls_universal c 5 (Or.inl rfl)).2,
    (callsFor_handCalls_universal c 22 (Or.inr rfl)).1,
    (callsFor_handCalls_universal c 22 (Or.inr rfl)).2]
  exact ⟨rfl, rfl, rfl, rfl, rfl⟩

/-- One mode-dispatched joint of a region gets exactly one call, whatever the tables. -/
theorem callsFor_dispatched {α : Type} (VOCAB_CM_VELOCITY VOCAB_CM_TORQUE : Int)
    (controls : Nat → Option (List Int)) (c : JointCommands α) (r : BodyRegion) (x : Nat)
    (hx : x < r.dispatched) :
    ∃ call, callsFor ⟨r.joints, x⟩
          (setJointControlAction VOCAB_CM_VELOCITY VOCAB_CM_TORQUE controls c) = [call] ∧
        (call = OdeCall.dJointAddHingeTorque ⟨r.joints, x⟩ (r.torques c x) ∨
         call = OdeCall.dJointSetHingeParam ⟨r.joints, x⟩ dParam.dParamVel (r.speed c x)) := by
  cases r <;>
    simp only [BodyRegion.dispatched, BodyRegion.joints, BodyRegion.speed,
      BodyRegion.torques] at hx ⊢ <;>
    simp only [setJointControlAction, callsFor_append, callsFor_dispatchLoop] <;>
    rw [callsFor_handCalls c _ (by simp; try omega)] <;>
    simp [hx] <;>
    exact em _

/-- C24 as stated fails: with the sample tables and commands, the step makes no call for
    left-arm joint 9 and two calls for the left-hand universal joint 5. -/
theorem finger_joint_without_call :
    callsFor ⟨JointArray.LAjoints, 9⟩
        (setJointControlAction yarp_VOCAB_CM_VELOCITY yarp_VOCAB_CM_TORQUE
          sampleControls sampleCommands) = [] ∧
    (callsFor ⟨JointArray.LAjoints, 5⟩
        (setJointControlAction yarp_VOCAB_CM_VELOCITY yarp_VOCAB_CM_TORQUE
          sampleControls sampleCommands)).length = 2 := by
  rw [callsFor_setJointControlAction_hand _ _ _ _ _ _ (Or.inl rfl) (by decide),
    callsFor_setJointControlAction_hand _ _ _ _ _ _ (Or.inl rfl) (by decide)]
  exact ⟨rfl, rfl⟩

/-- C24 amended: in one step, whatever the control tables hold, each mode-dispatched joint
    (legs 0..5, torso 0..4, arms 0..4, head 0..5) receives exactly one call, an add-torque
    or a set-velocity; each finger hinge 6, 7, 8, 10, 11, 12, 14, 15, 16, 18, 19, 20, 23,
    24 of either arm receives exactly one set-velocity call; each hand universal joint 5
    and 22 receives two calls, one per velocity component; and the joints 9, 13, 17 and 21
    of either arm receive no call. -/
theorem calls_per_joint {α : Type} (VOCAB_CM_VELOCITY VOCAB_CM_TORQUE : Int)
    (controls : Nat → Option (List Int)) (c : JointCommands α) :
    (∀ (r : BodyRegion) (x : Nat), x < r.dispatched →
      ∃ call, callsFor ⟨r.joints, x⟩
          (setJointControlAction VOCAB_CM_VELOCITY VOCAB_CM_TORQUE controls c) = [call] ∧
        (call = OdeCall.dJointAddHingeTorque ⟨r.joints, x⟩ (r.torques c x) ∨
         call = OdeCall.dJointSetHingeParam ⟨r.joints, x⟩ dParam.dParamVel (r.speed c x))) ∧
    (∀ x, x ∈ [6, 7, 8, 10, 11, 12, 14, 15, 16, 18, 19, 20, 23, 24] →
      callsFor ⟨JointArray.LAjoints, x⟩
          (setJointControlAction VOCAB_CM_VELOCITY VOCAB_CM_TORQUE controls c)
        = [OdeCall.dJointSetHingeParam ⟨JointArray.LAjoints, x⟩ dParam.dParamVel
            (c.la_speed x)] ∧
      callsFor ⟨JointArray.RAjoints, x⟩
          (setJointControlAction VOCAB_CM_VELOCITY VOCAB_CM_TORQUE controls c)
        = [OdeCall.dJointSetHingeParam ⟨JointArray.RAjoints, x⟩ dParam.dParamVel
            (c.ra_speed x)]) ∧
    (∀ x, x ∈ [5, 22] →
      (callsFor ⟨JointArray.LAjoints, x⟩
          (setJointControlAction VOCAB_CM_VELOCITY VOCAB_CM_TORQUE controls c)).length = 2 ∧
      (callsFor ⟨JointArray.RAjoints, x⟩
          (setJointControlAction VOCAB_CM_VELOCITY VOCAB_CM_TORQUE controls c)).length = 2) ∧
    (∀ x, x ∈ [9, 13, 17, 21] →
      callsFor ⟨JointArray.LAjoints, x⟩
          (setJointControlAction VOCAB_CM_VELOCITY VOCAB_CM_TORQUE controls c) = [] ∧
      callsFor ⟨JointArray.RAjoints, x⟩
          (setJointControlAction VOCAB_CM_VELOCITY VOCAB_CM_TORQUE controls c) = []) := by
  refine ⟨fun r x hx => callsFor_dispatched _ _ controls c r x hx, ?_, ?_, ?_⟩
  · intro x hx
    have h5 : 5 ≤ x := by
      simp only [List.mem_cons, List.mem_singleton, List.not_mem_nil, or_false] at hx
      omega
    rw [callsFor_setJointControlAction_hand _ _ _ _ _ _ (Or.inl rfl) h5,
      callsFor_setJointControlAction_hand _ _ _ _ _ _ (Or.inr rfl) h5]
    exact callsFor_handCalls_finger c x hx
  · intro x hx
    have h5 : 5 ≤ x ∧ (x = 5 ∨ x = 22) := by
      simp only [List.mem_cons, List.mem_singleton, List.not_mem_nil, or_false] at hx
      omega
    rw [callsFor_setJointControlAction_hand _ _ _ _ _ _ (Or.inl rfl) h5.1,
      callsFor_setJointControlAction_hand _ _ _ _ _ _ (Or.inr rfl) h5.1,
      (callsFor_handCalls_universal c x h5.2).1, (callsFor_handCalls_universal c x h5.2).2]
    exact ⟨rfl, rfl⟩
  · intro x hx
    have h5 : 5 ≤ x := by
      simp only [List.mem_cons, List.mem_singleton, List.not_mem_nil, or_false] at hx
      omega
    rw [callsFor_setJointControlAction_hand _ _ _ _ _ _ (Or.inl rfl) h5,
      callsFor_setJointControlAction_hand _ _ _ _ _ _ (Or.inr rfl) h5]
    exact callsFor_handCalls_skipped c x hx

/-- Witness for the amended C24: with the sample tables and commands, torso joint 1 gets
    one call, left finger hinge 6 one set-velocity call with the pending speed `1`, the
    right universal joint 22 two calls and right-arm joint 13 none. -/
theorem calls_per_joint_witness :
    (∃ call, callsFor ⟨JointArray.Torsojoints, 1⟩
        (setJointControlAction yarp_VOCAB_CM_VELOCITY yarp_VOCAB_CM_TORQUE
          sampleControls sampleCommands) = [call]) ∧
    callsFor ⟨JointArray.LAjoints, 6⟩
        (setJointControlAction yarp_VOCAB_CM_VELOCITY yarp_VOCAB_CM_TORQUE
          sampleControls sampleCommands)
      = [OdeCall.dJointSetHingeParam ⟨JointArray.LAjoints, 6⟩ dParam.dParamVel 1] ∧
    (callsFor ⟨JointArray.RAjoints, 22⟩
        (setJointControlAction yarp_VOCAB_CM_VELOCITY yarp_VOCAB_CM_TORQUE
          sampleControls sampleCommands)).length = 2 ∧
    callsFor ⟨JointArray.RAjoints, 13⟩
        (setJointControlAction yarp_VOCAB_CM_VELOCITY yarp_VOCAB_CM_TORQUE
          sampleControls sampleCommands) = [] := by
  have h := calls_per_joint yarp_VOCAB_CM_VELOCITY yarp_VOCAB_CM_TORQUE
    sampleControls sampleCommands
  obtain ⟨call, hc, -⟩ := h.1 BodyRegion.torso 1 (by decide)
  exact ⟨⟨call, hc⟩, (h.2.1 6 (by decide)).1, (h.2.2.1 22 (by decide)).2,
    (h.2.2.2 13 (by decide)).2⟩

/-! ### Joint calibration: malformed documents -/

/-- C25 (evaluation at the failing inputs): for a document whose first `head` point lists
    two numbers, `loadJointPosition` returns `true` and stores 0 as the missing third
    component of head anchor 0; for a document without the `inertial` group, and for one
    with three `head` points instead of four, the run dereferences the null pointer that
    `asList()` returns and produces no result, so no failure is reported either. When the
    file is opened the function never returns `false`. -/
theorem loadJointPosition_malformed_not_reported :
    (loadJointPosition (some shortPointJoints) blankICubSim).map
        (fun r => (r.1, r.2.jP_head 0, r.2.jP_head 1))
      = some (true, [41, 42, 0], [44, 45, 46]) ∧
    loadJointPosition (some missingInertialJoints) blankICubSim = none ∧
    loadJointPosition (some fewerHeadPointsJoints) blankICubSim = none ∧
    (∀ (bJoints : Bottle ℚ) (s s' : ICubSim ℚ),
      loadJointPosition (some bJoints) s ≠ some (false, s')) := by
  refine ⟨rfl, rfl, rfl, ?_⟩
  intro bJoints s s' h
  have := (loadJointPosition_sections bJoints s s' false h).1
  exact Bool.noConfusion this

/-! ### Skeleton assembly without self-collision -/

theorem spaceHandles_initLegsOff {α : Type} (s : ICubSim α) (sp : Nat) :
    spaceHandles (initLegsOff s sp) = spaceHandles s := rfl

theorem spaceHandles_initLegsOn {α : Type} (s : ICubSim α) (sp : Nat) :
    spaceHandles (initLegsOn s sp) = spaceHandles s := rfl

theorem spaceHandles_initTorsoOff {α : Type} (s : ICubSim α) (sp : Nat) :
    spaceHandles (initTorsoOff s sp) = spaceHandles s := rfl

theorem spaceHandles_initTorsoOn {α : Type} (s : ICubSim α) (sp : Nat) :
    spaceHandles (initTorsoOn s sp) = spaceHandles s := rfl

theorem spaceHandles_initLeftArmOff {α : Type} (s : ICubSim α) (sp : Nat) :
    spaceHandles (initLeftArmOff s sp) = spaceHandles s := rfl

theorem spaceHandles_initLeftArmOn {α : Type} (s : ICubSim α) (sp : Nat) :
    spaceHandles (initLeftArmOn s sp) = spaceHandles s := rfl

theorem spaceHandles_initRightArmOff {α : Type} (s : ICubSim α) (sp : Nat) :
    spaceHandles (initRightArmOff s sp) = spaceHandles s := rfl

theorem spaceHandles_initRightArmOn {α : Type} (s : ICubSim α) (sp : Nat) :
    spaceHandles (initRightArmOn s sp) = spaceHandles s := rfl

theorem spaceHandles_initLeftHandOff {α : Type} (s : ICubSim α) (sp : Nat) :
    spaceHandles (initLeftHandOff s sp) = spaceHandles s := rfl

theorem spaceHandles_initLeftHandOn {α : Type} (s : ICubSim α) (sp : Nat) :
    spaceHandles (initLeftHandOn s sp) = spaceHandles s := rfl

theorem spaceHandles_initRightHandOff {α : Type} (s : ICubSim α) (sp : Nat) :
    spaceHandles (initRightHandOff s sp) = spaceHandles s := rfl

theorem spaceHandles_initRightHandOn {α : Type} (s : ICubSim α) (sp : Nat) :
    spaceHandles (initRightHandOn s sp) = spaceHandles s := rfl

theorem spaceHandles_initHead {α : Type} (s : ICubSim α) (sp : Nat) :
    spaceHandles (initHead s sp) = spaceHandles s := by
  unfold initHead
  lift_lets
  intro s1
  have h1 : spaceHandles s1 = spaceHandles s := by
    simp only [s1]
    split_ifs <;> rfl
  clear_value s1
  simp only [dCreate, spaceHandles] at h1 ⊢
  exact h1

theorem spaceHandles_initEyes {α : Type} (s : ICubSim α) (sp : Nat) :
    spaceHandles (initEyes s sp) = spaceHandles s := rfl

theorem spaceHandles_stages {α : Type} (s : ICubSim α) (l : List Stage) :
    spaceHandles { s with stages := l } = spaceHandles s := rfl

theorem spaceHandles_dCreate {α : Type} (s : ICubSim α) (sp : Nat) :
    spaceHandles (dCreate s sp).2 = spaceHandles s := rfl

theorem spaceHandles_inertialGeom {α : Type} (s : ICubSim α) (g : Nat) :
    spaceHandles { s with inertialGeom := g } = spaceHandles s := rfl

theorem spaceHandles_screenGeom {α : Type} (s : ICubSim α) (g : Nat) :
    spaceHandles { s with screenGeom := g } = spaceHandles s := rfl

/-- The steps of `init_bodies` that follow the creation of the collision spaces (the
    screen, the body parts, the head, the eyes and the inertial sensor box) leave the six
    space handles alone. -/
theorem spaceHandles_init_shapes {α : Type} (space : Nat) (s : ICubSim α) :
    spaceHandles (
      let s :=
        if s.actScreen = "on" then
          let (g, s) := dCreate s space
          { s with screenGeom := g }
        else s
      let s :=
        if s.actLegs = "off" then
          initLegsOff { s with stages := s.stages ++ [Stage.initLegsOff] } s.iCubLegsSpace
        else initLegsOn { s with stages := s.stages ++ [Stage.initLegsOn] } s.iCubLegsSpace
      let s :=
        if s.actTorso = "off" then
          initTorsoOff { s with stages := s.stages ++ [Stage.initTorsoOff] } s.iCubTorsoSpace
        else initTorsoOn { s with stages := s.stages ++ [Stage.initTorsoOn] } s.iCubTorsoSpace
      let s :=
        if s.actLArm = "off" then
          initLeftArmOff { s with stages := s.stages ++ [Stage.initLeftArmOff] } s.iCubLeftArmSpace
        else initLeftArmOn { s with stages := s.stages ++ [Stage.initLeftArmOn] } s.iCubLeftArmSpace
      let s :=
        if s.actRArm = "off" then
          initRightArmOff { s with stages := s.stages ++ [Stage.initRightArmOff] } s.iCubRightArmSpace
        else initRightArmOn { s with stages := s.stages ++ [Stage.initRightArmOn] } s.iCubRightArmSpace
      let s :=
        if s.actLHand = "off" then
          initLeftHandOff { s with stages := s.stages ++ [Stage.initLeftHandOff] } s.iCubLeftArmSpace
        else initLeftHandOn { s with stages := s.stages ++ [Stage.initLeftHandOn] } s.iCubLeftArmSpace
      let s :=
        if s.actRHand = "off" then
          initRightHandOff { s with stages := s.stages ++ [Stage.initRightHandOff] } s.iCubRightArmSpace
        else initRightHandOn { s with stages := s.stages ++ [Stage.initRightHandOn] } s.iCubRightArmSpace
      let s := initHead { s with stages := s.stages ++ [Stage.initHead] } s.iCubHeadSpace
      let s := initEyes { s with stages := s.stages ++ [Stage.initEyes] } s.iCubHeadSpace
      let (g, s) := dCreate s s.iCubHeadSpace
      let s := { s with inertialGeom := g }
      s) = spaceHandles s := by
  lift_lets
  intro s2 s3 s4 s5 s6 s7 s8 s9 s10
  have h2 : spaceHandles s2 = spaceHandles s := by
    simp only [s2]
    split_ifs <;> rfl
  have h3 : spaceHandles s3 = spaceHandles s2 := by
    simp only [s3]
    split_ifs
    · exact (spaceHandles_initLegsOff _ _).trans (spaceHandles_stages _ _)
    · exact (spaceHandles_initLegsOn _ _).trans (spaceHandles_stages _ _)
  have h4 : spaceHandles s4 = spaceHandles s3 := by
    simp only [s4]
    split_ifs
    · exact (spaceHandles_initTorsoOff _ _).trans (spaceHandles_stages _ _)
    · exact (spaceHandles_initTorsoOn _ _).trans (spaceHandles_stages _ _)
  have h5 : spaceHandles s5 = spaceHandles s4 := by
    simp only [s5]
    split_ifs
    · exact (spaceHandles_initLeftArmOff _ _).trans (spaceHandles_stages _ _)
    · exact (spaceHandles_initLeftArmOn _ _).trans (spaceHandles_stages _ _)
  have h6 : spaceHandles s6 = spaceHandles s5 := by
    simp only [s6]
    split_ifs
    · exact (spaceHandles_initRightArmOff _ _).trans (spaceHandles_stages _ _)
    · exact (spaceHandles_initRightArmOn _ _).trans (spaceHandles_stages _ _)
  have h7 : spaceHandles s7 = spaceHandles s6 := by
    simp only [s7]
    split_ifs
    · exact (spaceHandles_initLeftHandOff _ _).trans (spaceHandles_stages _ _)
    · exact (spaceHandles_initLeftHandOn _ _).trans (spaceHandles_stages _ _)
  have h8 : spaceHandles s8 = spaceHandles s7 := by
    simp only [s8]
    split_ifs
    · exact (spaceHandles_initRightHandOff _ _).trans (spaceHandles_stages _ _)
    · exact (spaceHandles_initRightHandOn _ _).trans (spaceHandles_stages _ _)
  have h9 : spaceHandles s9 = spaceHandles s8 :=
    (spaceHandles_initHead _ _).trans (spaceHandles_stages _ _)
  have h10 : spaceHandles s10 = spaceHandles s9 :=
    (spaceHandles_initEyes _ _).trans (spaceHandles_stages _ _)
  clear_value s10
  have h11 : spaceHandles (match dCreate s10 s10.iCubHeadSpace with
      | (g, s) => { s with inertialGeom := g }) = spaceHandles s10 := rfl
  exact h11.trans (h10.trans (h9.trans (h8.trans (h7.trans (h6.trans (h5.trans (h4.trans
    (h3.trans h2))))))))

/-- With self-collision off, the bodies are created with the five sub-space handles all
    equal to the handle of the iCub space. -/
theorem init_bodies_spaceHandles_off {α : Type} (space : Nat) (s : ICubSim α)
    (h : s.actSelfCol = "off") :
    spaceHandles (init_bodies space s)
      = (s.ode.next, s.ode.next, s.ode.next, s.ode.next, s.ode.next, s.ode.next) := by
  unfold init_bodies
  generalize hA : (
        if s.actSelfCol = "off" then
          let (sp, s) := dSimpleSpaceCreate s space
          let s := { s with iCub := sp }
          let s := { s with iCubLegsSpace := s.iCub }
          let s := { s with iCubRightArmSpace := s.iCubLegsSpace }
          let s := { s with iCubLeftArmSpace := s.iCubRightArmSpace }
          let s := { s with iCubTorsoSpace := s.iCubLeftArmSpace }
          { s with iCubHeadSpace := s.iCubTorsoSpace }
        else
          let (sp, s) := dSimpleSpaceCreate s space
          let s := { s with iCub := sp }
          let (sp, s) := dSimpleSpaceCreate s s.iCub
          let s := { s with iCubHeadSpace := sp }
          let (sp, s) := dSimpleSpaceCreate s s.iCub
          let s := { s with iCubTorsoSpace := sp }
          let (sp, s) := dSimpleSpaceCreate s s.iCub
          let s := { s with iCubLeftArmSpace := sp }
          let (sp, s) := dSimpleSpaceCreate s s.iCub
          let s := { s with iCubRightArmSpace := sp }
          let (sp, s) := dSimpleSpaceCreate s s.iCub
          { s with iCubLegsSpace := sp }) = s1
  have hs1 : spaceHandles s1
      = (s.ode.next, s.ode.next, s.ode.next, s.ode.next, s.ode.next, s.ode.next) := by
    rw [← hA, if_pos h]
    rfl
  clear hA
  refine Eq.trans ?_ hs1
  exact spaceHandles_init_shapes space s1

theorem spaceHandles_initCovers_cover {α : Type} (env : Environment α) (s : ICubSim α)
    (name file : String) :
    spaceHandles (initCovers_cover env s name file) = spaceHandles s := by
  simp only [initCovers_cover, dCreate]
  split_ifs <;> rfl

theorem spaceHandles_initCovers {α : Type} (env : Environment α) (s : ICubSim α) :
    spaceHandles (initCovers env s) = spaceHandles s := by
  simp only [initCovers]
  rw [foldl_preserves (fun t (itr : String × String) => initCovers_cover env t itr.1 itr.2)
    spaceHandles (fun t itr => spaceHandles_initCovers_cover env t itr.1 itr.2)]
  split_ifs <;> rfl

theorem spaceHandles_init_joints {α : Type} (env : Environment α) (s : ICubSim α) :
    spaceHandles (init_joints env s) = spaceHandles s := by
  simp only [init_joints]
  rw [spaceHandles_stages, spaceHandles_initCovers]
  rfl

/-- A load changes none of the configuration strings. -/
theorem loadJointPosition_config {α : Type} [Ring α] (file : Option (Bottle α))
    (s s' : ICubSim α) (ok : Bool) (h : loadJointPosition file s = some (ok, s')) :
    s'.toConfigStrings = s.toConfigStrings := by
  cases file with
  | none =>
    simp only [loadJointPosition, Option.some.injEq, Prod.mk.injEq] at h
    rw [← h.2]
  | some bJoints =>
    obtain ⟨-, s1, s2, s3, h1, h2, h3, h4⟩ := loadJointPosition_sections bJoints s s' ok h
    obtain ⟨a1, a2, rfl⟩ := loadJointPosition_legs_frame _ _ _ _ h1
    obtain ⟨a3, rfl⟩ := loadJointPosition_head_frame _ _ _ h2
    obtain ⟨a4, a5, rfl⟩ := loadJointPosition_eyes_frame _ _ _ _ h3
    obtain ⟨a6, rfl⟩ := loadJointPosition_inertial_frame _ _ _ h4
    obtain ⟨x, y, hx⟩ := loadJointPosition_torso_frame
      { s with jP_leftLeg := a1, jP_rightLeg := a2 }
    obtain ⟨x1, x2, x3, x4, hy⟩ := loadJointPosition_arms_frame
      (loadJointPosition_torso { s with jP_leftLeg := a1, jP_rightLeg := a2 })
    show (loadJointPosition_arms (loadJointPosition_torso
      { s with jP_leftLeg := a1, jP_rightLeg := a2 })).toConfigStrings = s.toConfigStrings
    rw [hy, hx]

/-- The self-collision string that the bodies are created with is the one of the flags. -/
theorem init_actSelfCol {α : Type} [Field α] (env : Environment α) (flags : RobotFlags)
    (s : ICubSim α) :
    (init_iKin env (activateiCubParts flags s)).actSelfCol = FLAGIFY flags.actSelfCol := by
  unfold activateiCubParts
  dsimp only
  split_ifs <;> rfl

/-- With equal sub-space handles the torso branch of the classifier is taken for the
    handle of the iCub space. -/
theorem classify_equal_spaces {α : Type} (s : ICubSim α) (g : Nat) (out : SkinOutputs)
    (h : s.iCubTorsoSpace = s.iCub) :
    (getSkinAndBodyPartFromSpaceAndGeomID s s.iCub g out).skinPart = SkinPart.SKIN_FRONT_TORSO ∧
    (getSkinAndBodyPartFromSpaceAndGeomID s s.iCub g out).bodyPart = BodyPart.TORSO ∧
    (getSkinAndBodyPartFromSpaceAndGeomID s s.iCub g out).handPart = out.handPart ∧
    (getSkinAndBodyPartFromSpaceAndGeomID s s.iCub g out).fingertipFlag = out.fingertipFlag := by
  simp only [getSkinAndBodyPartFromSpaceAndGeomID, h, if_true]
  split_ifs <;> exact ⟨rfl, rfl, rfl, rfl⟩

/-- C26: when self-collision is off, the robot that `init` returns has its five sub-space
    handles equal to the handle of the iCub space, and for every shape handle the
    classifier, called with that space, returns `{SKIN_FRONT_TORSO, TORSO}` and leaves the
    hand part and the fingertip flag as they were. -/
theorem init_without_self_collision {α : Type} [Field α] (env : Environment α)
    (flags : RobotFlags) (space : Nat) (file : Option (Bottle α)) (s s' : ICubSim α)
    (hoff : flags.actSelfCol = false)
    (hinit : init env flags space file s = some s') :
    (s'.iCubHeadSpace = s'.iCub ∧ s'.iCubTorsoSpace = s'.iCub ∧
      s'.iCubLeftArmSpace = s'.iCub ∧ s'.iCubRightArmSpace = s'.iCub ∧
      s'.iCubLegsSpace = s'.iCub) ∧
    (∀ sp, sp ∈ [s'.iCubHeadSpace, s'.iCubTorsoSpace, s'.iCubLeftArmSpace,
        s'.iCubRightArmSpace, s'.iCubLegsSpace] →
      ∀ (g : Nat) (out : SkinOutputs),
        (getSkinAndBodyPartFromSpaceAndGeomID s' sp g out).skinPart
          = SkinPart.SKIN_FRONT_TORSO ∧
        (getSkinAndBodyPartFromSpaceAndGeomID s' sp g out).bodyPart = BodyPart.TORSO ∧
        (getSkinAndBodyPartFromSpaceAndGeomID s' sp g out).handPart = out.handPart ∧
        (getSkinAndBodyPartFromSpaceAndGeomID s' sp g out).fingertipFlag
          = out.fingertipFlag) := by
  simp only [init, Option.bind_eq_some, Prod.exists] at hinit
  obtain ⟨ok, t, hload, hif⟩ := hinit
  have hs' : s' = init_joints env (init_bodies space t) := by
    by_cases hg : anchorsSized t = true
    · rw [if_pos hg] at hif
      exact (Option.some.inj hif).symm
    · rw [if_neg hg] at hif
      exact absurd hif (by simp)
  subst hs'
  have hc := loadJointPosition_config _ _ _ _ hload
  have hsc : t.actSelfCol = "off" := by
    have h1 : t.actSelfCol = t.toConfigStrings.actSelfCol := rfl
    rw [h1, hc]
    have h2 := init_actSelfCol env flags { s with stages := s.stages ++ [Stage.activateiCubParts] }
    rw [hoff] at h2
    exact h2
  have hsp := init_bodies_spaceHandles_off space t hsc
  have hj := spaceHandles_init_joints env (init_bodies space t)
  rw [hsp] at hj
  simp only [spaceHandles, Prod.mk.injEq] at hj
  obtain ⟨e1, e2, e3, e4, e5, e6⟩ := hj
  have hall : (init_joints env (init_bodies space t)).iCubHeadSpace
        = (init_joints env (init_bodies space t)).iCub ∧
      (init_joints env (init_bodies space t)).iCubTorsoSpace
        = (init_joints env (init_bodies space t)).iCub ∧
      (init_joints env (init_bodies space t)).iCubLeftArmSpace
        = (init_joints env (init_bodies space t)).iCub ∧
      (init_joints env (init_bodies space t)).iCubRightArmSpace
        = (init_joints env (init_bodies space t)).iCub ∧
      (init_joints env (init_bodies space t)).iCubLegsSpace
        = (init_joints env (init_bodies space t)).iCub := by
    rw [e1, e2, e3, e4, e5, e6]
    exact ⟨rfl, rfl, rfl, rfl, rfl⟩
  refine ⟨hall, ?_⟩
  intro sp hsp g out
  have hsp' : sp = (init_joints env (init_bodies space t)).iCub := by
    simp only [List.mem_cons, List.mem_singleton, List.not_mem_nil, or_false] at hsp
    rcases hsp with h | h | h | h | h
    · exact h.trans hall.1
    · exact h.trans hall.2.1
    · exact h.trans hall.2.2.1
    · exact h.trans hall.2.2.2.1
    · exact h.trans hall.2.2.2.2
  rw [hsp']
  exact classify_equal_spaces _ g out hall.2.1

/-- The sample robot can be assembled without self-collision. -/
theorem init_sample_without_self_collision :
    ∃ s', init sampleEnvironment sampleFlagsNoSelfCol 1 (some sampleJoints) blankICubSim
      = some s' :=
  Option.isSome_iff_exists.mp (by decide)

/-- Witness for C26: on the sample robot assembled without self-collision the terminal
    shape of the left thumb, `geom[30]`, looked up in the left-arm sub-space, is classified
    `{SKIN_FRONT_TORSO, TORSO}` and the fingertip flag stays cleared. -/
theorem init_without_self_collision_witness :
    ∃ s', init sampleEnvironment sampleFlagsNoSelfCol 1 (some sampleJoints) blankICubSim
        = some s' ∧
      s'.iCubLeftArmSpace = s'.iCub ∧
      (getSkinAndBodyPartFromSpaceAndGeomID s' s'.iCubLeftArmSpace (s'.geom 30)
        clearedOutputs).skinPart = SkinPart.SKIN_FRONT_TORSO ∧
      (getSkinAndBodyPartFromSpaceAndGeomID s' s'.iCubLeftArmSpace (s'.geom 30)
        clearedOutputs).bodyPart = BodyPart.TORSO ∧
      (getSkinAndBodyPartFromSpaceAndGeomID s' s'.iCubLeftArmSpace (s'.geom 30)
        clearedOutputs).fingertipFlag = false := by
  obtain ⟨s', hs'⟩ := init_sample_without_self_collision
  have h := init_without_self_collision sampleEnvironment sampleFlagsNoSelfCol 1
    (some sampleJoints) blankICubSim s' rfl hs'
  have hc := h.2 s'.iCubLeftArmSpace (by simp) (s'.geom 30) clearedOutputs
  exact ⟨s', hs', h.1.2.2.1, hc.1, hc.2.1, hc.2.2.2⟩

/-! ### Skin activation vectors: a second call -/

/-- C28 fails in the code: two runs whose control tables differ only in the table of the
    right leg, with the same three-entry torso table and the same pending commands, make
    different calls for torso joint 3: the add-torque call when the right-leg table
    reports TORQUE for its joint 3, the set-velocity call when it reports VELOCITY. The
    entries 3 and 4 of the mode buffer are those the right-leg table wrote. -/
theorem torso_calls_follow_right_leg_table {α : Type} (c : JointCommands α) :
    (∀ bodyPart, bodyPart ≠ 5 →
      rightLegTorqueControls bodyPart = rightLegVelocityControls bodyPart) ∧
    callsFor ⟨JointArray.Torsojoints, 3⟩
        (setJointControlAction yarp_VOCAB_CM_VELOCITY yarp_VOCAB_CM_TORQUE
          rightLegTorqueControls c)
      = [OdeCall.dJointAddHingeTorque ⟨JointArray.Torsojoints, 3⟩ (c.Torso_torques 3)] ∧
    callsFor ⟨JointArray.Torsojoints, 3⟩
        (setJointControlAction yarp_VOCAB_CM_VELOCITY yarp_VOCAB_CM_TORQUE
          rightLegVelocityControls c)
      = [OdeCall.dJointSetHingeParam ⟨JointArray.Torsojoints, 3⟩ dParam.dParamVel
          (c.Torso_speed 3)] ∧
    callsFor ⟨JointArray.Torsojoints, 4⟩
        (setJointControlAction yarp_VOCAB_CM_VELOCITY yarp_VOCAB_CM_TORQUE
          rightLegTorqueControls c)
      = [OdeCall.dJointAddHingeTorque ⟨JointArray.Torsojoints, 4⟩ (c.Torso_torques 4)] ∧
    callsFor ⟨JointArray.Torsojoints, 4⟩
        (setJointControlAction yarp_VOCAB_CM_VELOCITY yarp_VOCAB_CM_TORQUE
          rightLegVelocityControls c)
      = [OdeCall.dJointSetHingeParam ⟨JointArray.Torsojoints, 4⟩ dParam.dParamVel
          (c.Torso_speed 4)] := by
  refine ⟨?_, ?_, ?_, ?_, ?_⟩
  · intro bodyPart h
    simp only [rightLegTorqueControls, rightLegVelocityControls, if_neg h]
  all_goals
    simp only [setJointControlAction, callsFor_append, callsFor_dispatchLoop]
    rw [callsFor_handCalls c _ (Or.inr ⟨by decide, by decide⟩)]
    simp [rightLegTorqueControls, rightLegVelocityControls, getControlModesRaw,
      yarp_VOCAB_CM_TORQUE, yarp_VOCAB_CM_VELOCITY]
    try decide

/-! ### Joint set-up: the torso -/

/-- C29 fails in the code: with the torso enabled, the loop of `initTorsoJoints` runs `j`
    over 0..4 but sets the anchor and the axis of `Torsojoints[i]` with `i = min(j, 2)`, so
    `Torsojoints[3]` and `Torsojoints[4]` get no anchor and no axis, while `Torsojoints[2]`
    gets those of torso link 2 three times; joints 0 and 1 get those of links 0 and 1. -/
theorem initTorsoJoints_geometry {α : Type} [Field α] (pi : α) (p : OdeParams α)
    (s : ICubSim α) :
    geometryFor ⟨JointArray.Torsojoints, 3⟩ (initTorsoJoints pi p { s with actTorso := "on" })
      = [] ∧
    geometryFor ⟨JointArray.Torsojoints, 4⟩ (initTorsoJoints pi p { s with actTorso := "on" })
      = [] ∧
    geometryFor ⟨JointArray.Torsojoints, 2⟩ (initTorsoJoints pi p { s with actTorso := "on" })
      = List.flatten (List.replicate 3
          [JointSetupCall.dJointSetHingeAnchor ⟨JointArray.Torsojoints, 2⟩
              (component (s.jP_torso 2) 1) (s.elev + component (s.jP_torso 2) 2)
              (component (s.jP_torso 2) 0),
           JointSetupCall.dJointSetHingeAxis ⟨JointArray.Torsojoints, 2⟩
              (component (s.jA_torso 2) 0) (component (s.jA_torso 2) 1)
              (component (s.jA_torso 2) 2)]) ∧
    (∀ j, j < 2 →
      geometryFor ⟨JointArray.Torsojoints, j⟩
          (initTorsoJoints pi p { s with actTorso := "on" })
        = [JointSetupCall.dJointSetHingeAnchor ⟨JointArray.Torsojoints, j⟩
              (component (s.jP_torso j) 1) (s.elev + component (s.jP_torso j) 2)
              (component (s.jP_torso j) 0),
           JointSetupCall.dJointSetHingeAxis ⟨JointArray.Torsojoints, j⟩
              (component (s.jA_torso j) 0) (component (s.jA_torso j) 1)
              (component (s.jA_torso j) 2)]) := by
  refine ⟨rfl, rfl, rfl, ?_⟩
  intro j hj
  rcases j with _ | _ | j
  · rfl
  · rfl
  · omega

/-! ### Body positions -/

/-- The position of a body in a concatenated trace is the one the first part assigns,
    if any, and else the one the second part assigns. -/
theorem positionOf_append {α : Type} (b : dBodyID) (l₁ l₂ : List (PositionCall α)) :
    positionOf b (l₁ ++ l₂)
      = match positionOf b l₁ with
        | some p => some p
        | none => positionOf b l₂ := by
  induction l₁ with
  | nil => rfl
  | cons c l ih =>
    cases c with
    | dGeomSetPosition g x y z => simpa [positionOf] using ih
    | dBodySetPosition b' x y z =>
      by_cases h : b' = b
      · simp [positionOf, h]
      · simpa [positionOf, h] using ih

/-- Looking up a position commutes with the choice between two traces. -/
theorem positionOf_ite {α : Type} (b : dBodyID) (c : Prop) [Decidable c]
    (l₁ l₂ : List (PositionCall α)) :
    positionOf b (if c then l₁ else l₂) = if c then positionOf b l₁ else positionOf b l₂ := by
  split_ifs <;> rfl

/-- Apart from `rightLeg[5]` and `body[49]`, the position of a right-side body does not
    change with the left-leg and left-arm anchors. -/
theorem setPosition_right_frame {α : Type} [LinearOrderedField α]
    (agentX agentY agentZ : α) (s : ICubSim α) (b : dBodyID) (hb : b ∈ rightSideBodies)
    (h1 : b ≠ dBodyID.rightLeg 5) (h2 : b ≠ dBodyID.body 49) (a₁ a₂ : Nat → List α) :
    positionOf b
        (setPosition agentX agentY agentZ { s with jP_leftLeg := a₁, jP_leftArm := a₂ })
      = positionOf b (setPosition agentX agentY agentZ s) := by
  simp only [setPosition, positionOf_append, positionOf_ite]
  simp only [rightSideBodies, List.mem_cons, List.mem_singleton, List.not_mem_nil,
    or_false] at hb
  rcases hb with rfl | rfl | rfl | rfl | rfl | rfl | rfl | rfl | rfl | rfl | rfl | rfl | rfl |
    rfl | rfl | rfl | rfl | rfl | rfl | rfl | rfl | rfl | rfl | rfl | rfl | rfl | rfl | rfl |
    rfl <;>
    first
      | exact absurd rfl h1
      | exact absurd rfl h2
      | rfl

/-- C30 fails in the code: with the legs on, `setPosition` places `rightLeg[5]` at
    `(-0.0295, elev + jP_leftLeg[4][2], jP_leftLeg[4][0])`, and with the right hand on it
    places `body[49]` (right thumb) at `(jP_rightArm[7][1], elev + jP_rightArm[6][2] - 0.045,
    jP_leftArm[7][0] + 0.088)`: both read a left-side anchor, so changing the left-leg
    anchor 4 or the left-arm anchor 7 moves them. Every other right-side body is placed
    at a position that does not change with the left-leg and left-arm anchors. -/
theorem setPosition_right_bodies_from_left_anchors {α : Type} [LinearOrderedField α]
    (agentX agentY agentZ : α) (s : ICubSim α) :
    positionOf (dBodyID.rightLeg 5) (setPosition agentX agentY agentZ { s with actLegs := "on" })
      = some (-(59 / 2000), s.elev + component (s.jP_leftLeg 4) 2,
          component (s.jP_leftLeg 4) 0) ∧
    positionOf (dBodyID.body 49) (setPosition agentX agentY agentZ { s with actRHand := "on" })
      = some (component (s.jP_rightArm 7) 1, s.elev + component (s.jP_rightArm 6) 2 - 9 / 200,
          component (s.jP_leftArm 7) 0 + 11 / 125) ∧
    positionOf (dBodyID.rightLeg 5) (setPosition 0 0 0 positionSample)
      ≠ positionOf (dBodyID.rightLeg 5)
          (setPosition 0 0 0 { positionSample with jP_leftLeg := fun _ => [4, 5, 6] }) ∧
    positionOf (dBodyID.body 49) (setPosition 0 0 0 positionSample)
      ≠ positionOf (dBodyID.body 49)
          (setPosition 0 0 0 { positionSample with jP_leftArm := fun _ => [4, 5, 6] }) ∧
    (∀ b, b ∈ rightSideBodies → b ≠ dBodyID.rightLeg 5 → b ≠ dBodyID.body 49 →
      ∀ a₁ a₂ : Nat → List α,
        positionOf b
            (setPosition agentX agentY agentZ { s with jP_leftLeg := a₁, jP_leftArm := a₂ })
          = positionOf b (setPosition agentX agentY agentZ s)) := by
  refine ⟨?_, ?_, ?_, ?_, ?_⟩
  · simp [setPosition, positionOf_append, positionOf, positionOf_ite]
  · simp [setPosition, positionOf_append, positionOf, positionOf_ite]
  · simp [setPosition, positionOf_append, positionOf, positionOf_ite, positionSample,
      blankICubSim, component]
  · simp [setPosition, positionOf_append, positionOf, positionOf_ite, positionSample,
      blankICubSim, component]
  · intro b hb h1 h2 a₁ a₂
    exact setPosition_right_frame agentX agentY agentZ s b hb h1 h2 a₁ a₂

/-! ### Classification when the sub-spaces share one handle -/

/-- With self-collision on, the bodies are created with six consecutive, hence pairwise
    distinct, space handles. -/
theorem init_bodies_spaceHandles_on {α : Type} (space : Nat) (s : ICubSim α)
    (h : s.actSelfCol ≠ "off") :
    spaceHandles (init_bodies space s)
      = (s.ode.next, s.ode.next + 1, s.ode.next + 2, s.ode.next + 3, s.ode.next + 4,
          s.ode.next + 5) := by
  unfold init_bodies
  generalize hA : (
        if s.actSelfCol = "off" then
          let (sp, s) := dSimpleSpaceCreate s space
          let s := { s with iCub := sp }
          let s := { s with iCubLegsSpace := s.iCub }
          let s := { s with iCubRightArmSpace := s.iCubLegsSpace }
          let s := { s with iCubLeftArmSpace := s.iCubRightArmSpace }
          let s := { s with iCubTorsoSpace := s.iCubLeftArmSpace }
          { s with iCubHeadSpace := s.iCubTorsoSpace }
        else
          let (sp, s) := dSimpleSpaceCreate s space
          let s := { s with iCub := sp }
          let (sp, s) := dSimpleSpaceCreate s s.iCub
          let s := { s with iCubHeadSpace := sp }
          let (sp, s) := dSimpleSpaceCreate s s.iCub
          let s := { s with iCubTorsoSpace := sp }
          let (sp, s) := dSimpleSpaceCreate s s.iCub
          let s := { s with iCubLeftArmSpace := sp }
          let (sp, s) := dSimpleSpaceCreate s s.iCub
          let s := { s with iCubRightArmSpace := sp }
          let (sp, s) := dSimpleSpaceCreate s s.iCub
          { s with iCubLegsSpace := sp }) = s1
  have hs1 : spaceHandles s1
      = (s.ode.next, s.ode.next + 1, s.ode.next + 2, s.ode.next + 3, s.ode.next + 4,
          s.ode.next + 5) := by
    rw [← hA, if_neg h]
    rfl
  clear hA
  refine Eq.trans ?_ hs1
  exact spaceHandles_init_shapes space s1

/-- On every robot that `init` returns for a configuration with self-collision on, each
    sub-space handle differs from the handles the classifier tests before it: the arm
    branches, the head branch and the legs branch are the ones reached for their
    sub-spaces. -/
theorem init_with_self_collision {α : Type} [Field α] (env : Environment α)
    (flags : RobotFlags) (space : Nat) (file : Option (Bottle α)) (s s' : ICubSim α)
    (hon : flags.actSelfCol = true)
    (hinit : init env flags space file s = some s') :
    Side.reached s' Side.left ∧ Side.reached s' Side.right ∧
    (s'.iCubHeadSpace ≠ s'.iCubTorsoSpace ∧ s'.iCubHeadSpace ≠ s'.iCubLeftArmSpace ∧
      s'.iCubHeadSpace ≠ s'.iCubRightArmSpace) ∧
    (s'.iCubLegsSpace ≠ s'.iCubTorsoSpace ∧ s'.iCubLegsSpace ≠ s'.iCubLeftArmSpace ∧
      s'.iCubLegsSpace ≠ s'.iCubRightArmSpace ∧ s'.iCubLegsSpace ≠ s'.iCubHeadSpace) := by
  simp only [init, Option.bind_eq_some, Prod.exists] at hinit
  obtain ⟨ok, t, hload, hif⟩ := hinit
  have hs' : s' = init_joints env (init_bodies space t) := by
    by_cases hg : anchorsSized t = true
    · rw [if_pos hg] at hif
      exact (Option.some.inj hif).symm
    · rw [if_neg hg] at hif
      exact absurd hif (by simp)
  subst hs'
  have hc := loadJointPosition_config _ _ _ _ hload
  have hsc : t.actSelfCol ≠ "off" := by
    have h1 : t.actSelfCol = t.toConfigStrings.actSelfCol := rfl
    rw [h1, hc]
    have h2 := init_actSelfCol env flags { s with stages := s.stages ++ [Stage.activateiCubParts] }
    rw [hon] at h2
    intro h3
    have h4 : FLAGIFY true = "off" := h2.symm.trans h3
    exact absurd h4 (by decide)
  have hsp := init_bodies_spaceHandles_on space t hsc
  have hj := spaceHandles_init_joints env (init_bodies space t)
  rw [hsp] at hj
  simp only [spaceHandles, Prod.mk.injEq] at hj
  obtain ⟨e1, e2, e3, e4, e5, e6⟩ := hj
  simp only [Side.reached, e2, e3, e4, e5, e6]
  omega

/-- C9 (counterexample): on the sample robot assembled with self-collision off the left
    hand is "on" and `geom[30]`, the terminal shape of the left thumb, lies in the left-arm
    sub-space; called with that sub-space, that shape and cleared outputs, the classifier
    returns `{SKIN_FRONT_TORSO, TORSO}` and does not raise the fingertip flag. -/
theorem fingertip_not_flagged_without_self_collision :
    (init sampleEnvironment sampleFlagsNoSelfCol 1 (some sampleJoints) blankICubSim).map
      (fun s => (s.actSelfCol, s.actLHand,
        decide ((s.geom 30, HandPart.THUMB) ∈ Side.fingertips s Side.left),
        decide ((s.geom 30, Side.armSpace s Side.left) ∈ s.ode.geoms),
        getSkinAndBodyPartFromSpaceAndGeomID s (Side.armSpace s Side.left) (s.geom 30)
          clearedOutputs))
      = some ("off", "on", true, true,
          { skinPart := SkinPart.SKIN_FRONT_TORSO, bodyPart := BodyPart.TORSO,
            handPart := HandPart.INDEX, skinCoverFlag := false, fingertipFlag := false }) := by
  decide

/-- C10 (counterexample): on the sample robot assembled with self-collision off the
    right-arm covers are "on" and the right palm cover lies in the right-arm sub-space and
    matches no hand, upper-arm or forearm shape; called with that sub-space and that shape,
    the classifier returns `{SKIN_FRONT_TORSO, TORSO}` and leaves the cover flag cleared. -/
theorem palm_cover_not_flagged_without_self_collision :
    (init sampleEnvironment sampleFlagsNoSelfCol 1 (some sampleJoints) blankICubSim).map
      (fun s => (s.actSelfCol, Side.actArmCovers s Side.right,
        decide ((Side.palmCover s Side.right, Side.armSpace s Side.right) ∈ s.ode.geoms),
        decide (Side.palmCover s Side.right ∉ Side.handShapes s Side.right),
        decide (Side.palmCover s Side.right ∉ Side.armShapes s Side.right),
        getSkinAndBodyPartFromSpaceAndGeomID s (Side.armSpace s Side.right)
          (Side.palmCover s Side.right) clearedOutputs))
      = some ("off", "on", true, true, true,
          { skinPart := SkinPart.SKIN_FRONT_TORSO, bodyPart := BodyPart.TORSO,
            handPart := HandPart.INDEX, skinCoverFlag := false, fingertipFlag := false }) := by
  decide

/-- C11 (counterexample): on the sample robot assembled with self-collision off the handle
    9999 matches no hand, upper-arm, forearm or cover shape of the left arm; called with
    the left-arm sub-space and that handle, the classifier returns the definite
    classification `{SKIN_FRONT_TORSO, TORSO}`, not `{SKIN_PART_UNKNOWN,
    BODY_PART_UNKNOWN}`. -/
theorem unmatched_shape_classified_without_self_collision :
    (init sampleEnvironment sampleFlagsNoSelfCol 1 (some sampleJoints) blankICubSim).map
      (fun s => (s.actSelfCol,
        decide (9999 ∉ Side.handShapes s Side.left),
        decide (9999 ∉ Side.armShapes s Side.left),
        decide (9999 ∉ [Side.palmCover s Side.left, Side.lowerArmCover s Side.left,
          Side.upperArmCover s Side.left]),
        getSkinAndBodyPartFromSpaceAndGeomID s (Side.armSpace s Side.left) 9999
          clearedOutputs))
      = some ("off", true, true, true,
          { skinPart := SkinPart.SKIN_FRONT_TORSO, bodyPart := BodyPart.TORSO,
            handPart := HandPart.INDEX, skinCoverFlag := false, fingertipFlag := false }) := by
  decide

/-- C12 (counterexample): on the sample robot assembled with self-collision off, the
    classifier called with the head sub-space and the head shape `head0_geom`, and called
    with the legs sub-space and the leg shape `leftLegGeom[0]`, returns
    `{SKIN_FRONT_TORSO, TORSO}` both times. -/
theorem head_and_legs_classified_without_self_collision :
    (init sampleEnvironment sampleFlagsNoSelfCol 1 (some sampleJoints) blankICubSim).map
      (fun s => (s.actSelfCol,
        decide ((s.head0_geom, s.iCubHeadSpace) ∈ s.ode.geoms),
        getSkinAndBodyPartFromSpaceAndGeomID s s.iCubHeadSpace s.head0_geom clearedOutputs,
        decide ((s.leftLegGeom 0, s.iCubLegsSpace) ∈ s.ode.geoms),
        getSkinAndBodyPartFromSpaceAndGeomID s s.iCubLegsSpace (s.leftLegGeom 0)
          clearedOutputs))
      = some ("off", true,
          { skinPart := SkinPart.SKIN_FRONT_TORSO, bodyPart := BodyPart.TORSO,
            handPart := HandPart.INDEX, skinCoverFlag := false, fingertipFlag := false },
          true,
          { skinPart := SkinPart.SKIN_FRONT_TORSO, bodyPart := BodyPart.TORSO,
            handPart := HandPart.INDEX, skinCoverFlag := false, fingertipFlag := false }) := by
  decide

end ICub
